import Mathlib

/-!
# panvk: private buffer objects and device creation

A shallow embedding of `panvk_priv_bo_create`, `panvk_priv_bo_destroy` and
`panvk_CreateDevice` (src/panfrost/vulkan/panvk_device.c).

The C functions talk to the kernel-mode-driver layer, the host allocator and
the trace decoder.  Every such call is recorded as an `Event`, in program
order; what a call returns is read from an environment record, so that each
function of the source becomes a total, executable function from its
arguments and the environment to its return value and its trace.

Pointers are natural numbers, `0` is `NULL`.  A pointer to a heap object is a
`Ref`: the address together with the object stored there; a nullable pointer
is an `Option (Ref _)`.
-/

namespace Panvk

/-! ## Constants of headers that are outside the translated sources -/

/-- Constants of `kmod/pan_kmod.h` and `sys/mman.h`, which the translated
functions use but which are declared elsewhere; they are parameters of the
model. -/
structure Consts where
  PAN_KMOD_BO_FLAG_NO_MMAP : Nat
  PAN_KMOD_BO_FLAG_ALLOC_ON_FAULT : Nat
  PAN_KMOD_VM_MAP_AUTO_VA : Nat
  PAN_KMOD_VM_FLAG_AUTO_VA : Nat
  MAP_FAILED : Nat
  deriving DecidableEq, Repr

/-- The values these constants have in Mesa on a 64-bit Linux host; used for
concrete evaluations only. -/
def mesa_consts : Consts where
  PAN_KMOD_BO_FLAG_NO_MMAP := 4
  PAN_KMOD_BO_FLAG_ALLOC_ON_FAULT := 2
  PAN_KMOD_VM_MAP_AUTO_VA := 2 ^ 64 - 1
  PAN_KMOD_VM_FLAG_AUTO_VA := 1
  MAP_FAILED := 2 ^ 64 - 1

/-! ## Data model -/

/-- A heap object reached through a non-null pointer. -/
structure Ref (α : Type) where
  ptr : Nat
  obj : α
  deriving DecidableEq, Repr

/-- The kernel buffer object `struct pan_kmod_bo`, as far as the driver reads
it: its handle and the size `pan_kmod_bo_size` reports. -/
structure pan_kmod_bo where
  handle : Nat
  size : Nat
  deriving DecidableEq, Repr

/-- Accessor `pan_kmod_bo_size`. -/
def pan_kmod_bo_size (bo : pan_kmod_bo) : Nat := bo.size

/-- The enum `pan_kmod_vm_op_type`. -/
inductive pan_kmod_vm_op_type where
  | PAN_KMOD_VM_OP_TYPE_MAP
  | PAN_KMOD_VM_OP_TYPE_UNMAP
  | PAN_KMOD_VM_OP_TYPE_SYNC_ONLY
  deriving DecidableEq, Repr

/-- The enum `pan_kmod_vm_op_mode`. -/
inductive pan_kmod_vm_op_mode where
  | PAN_KMOD_VM_OP_MODE_IMMEDIATE
  | PAN_KMOD_VM_OP_MODE_ASYNC
  | PAN_KMOD_VM_OP_MODE_DEFER_TO_NEXT_IDLE_POINT
  deriving DecidableEq, Repr

/-- The fields of `struct pan_kmod_vm_op` that the driver initialises; fields
left out of a designated initialiser are zero (`map_bo = none`). -/
structure pan_kmod_vm_op where
  type : pan_kmod_vm_op_type
  va_start : Nat
  va_size : Nat
  map_bo : Option pan_kmod_bo
  map_bo_offset : Nat
  deriving DecidableEq, Repr

/-- The fields of `struct panvk_device` that are read through
`panvk_priv_bo.dev`: `vk.alloc`, `kmod.vm`, `kmod.dev`, `debug.decode_ctx`.
They are set before the first private BO is created and not written again. -/
structure panvk_device where
  vk_alloc : Nat
  kmod_vm : Nat
  kmod_dev : Nat
  decode_ctx : Nat
  deriving DecidableEq, Repr

/-- The tracking structure `struct panvk_priv_bo`. -/
structure panvk_priv_bo where
  dev : panvk_device
  bo : pan_kmod_bo
  addr_dev : Nat
  addr_host : Nat
  deriving DecidableEq, Repr

/-- The type `VkResult`, by its numeric value. -/
abbrev VkResult := Int

/-- Result code `VK_SUCCESS`. -/
def VK_SUCCESS : VkResult := 0

/-- Result code `VK_ERROR_OUT_OF_HOST_MEMORY`. -/
def VK_ERROR_OUT_OF_HOST_MEMORY : VkResult := -1

/-- One call that leaves the translated functions, with its arguments and,
where the caller uses it, its return value. -/
inductive Event where
  | vk_zalloc2 (alloc scope ret : Nat)
  | pan_kmod_bo_alloc (dev vm size flags : Nat) (ret : Option pan_kmod_bo)
  | pan_kmod_bo_mmap (bo : pan_kmod_bo) (offset size ret : Nat)
  | pan_kmod_vm_bind (vm : Nat) (mode : pan_kmod_vm_op_mode)
      (op : pan_kmod_vm_op) (op_count : Nat) (ret : Int)
  | pandecode_inject_mmap (ctx gpu_va host size : Nat)
  | pandecode_inject_free (ctx gpu_va size : Nat)
  | os_munmap (addr size : Nat)
  | pan_kmod_bo_put (bo : pan_kmod_bo)
  | vk_free2 (alloc ptr : Nat)
  | vk_device_init (ret : VkResult)
  | pan_kmod_dev_create (ret : Nat)
  | pandecode_create_context (ret : Nat)
  | pandecode_destroy_context (ctx : Nat)
  | pan_kmod_vm_create (dev flags va_start va_size ret : Nat)
  | panfrost_upload_sample_positions (host : Nat)
  | vk_device_set_drm_fd (dev : Nat)
  | meta_init (arch : Nat)
  | vk_alloc (queue_count ret : Nat)
  | qinit (arch family idx : Nat) (ret : VkResult)
  | panvk_queue_finish (family idx : Nat)
  | vk_object_free (ptr : Nat)
  | vk_object_zalloc (ret : Nat)
  | meta_cleanup (arch : Nat)
  | pan_kmod_vm_destroy (vm : Nat)
  | pan_kmod_dev_destroy (dev : Nat)
  | vk_free (ptr : Nat)
  deriving DecidableEq, Repr

/-! ## panvk_priv_bo_create / panvk_priv_bo_destroy -/

/-- What the calls made by one `panvk_priv_bo_create` return: the pointer
`vk_zalloc2` gives (`0` on failure), the BO `pan_kmod_bo_alloc` gives (`none`
for `NULL`), the address `pan_kmod_bo_mmap` gives (`MAP_FAILED` on failure),
the return code of `pan_kmod_vm_bind` and the value the bind leaves in
`op.va.start`. -/
structure CreateEnv where
  priv_bo : Nat
  bo : Option pan_kmod_bo
  mmap : Nat
  bind_ret : Int
  bind_va : Nat
  deriving DecidableEq, Repr

/-- The operation `panvk_priv_bo_create` passes to `pan_kmod_vm_bind`. -/
def create_op (c : Consts) (bo : pan_kmod_bo) : pan_kmod_vm_op where
  type := .PAN_KMOD_VM_OP_TYPE_MAP
  va_start := c.PAN_KMOD_VM_MAP_AUTO_VA
  va_size := pan_kmod_bo_size bo
  map_bo := some bo
  map_bo_offset := 0

/-- Function `panvk_priv_bo_create`: the returned pointer (`none` is `NULL`)
and the trace of calls.  The labels `err_munmap_bo`, `err_put_bo` and
`err_free_priv_bo` of the source are the three failure leaves, each falling
through to the next.  The `assert(!ret)` after `os_munmap` is not a branch of
the model. -/
def panvk_priv_bo_create (c : Consts) (k : CreateEnv) (dev : panvk_device)
    (size flags alloc scope : Nat) : Option (Ref panvk_priv_bo) × List Event :=
  let t0 := [Event.vk_zalloc2 alloc scope k.priv_bo]
  if k.priv_bo = 0 then (none, t0)
  else
    let t1 := t0 ++ [Event.pan_kmod_bo_alloc dev.kmod_dev dev.kmod_vm size flags k.bo]
    match k.bo with
    | none => (none, t1 ++ [Event.vk_free2 alloc k.priv_bo])
    | some bo =>
      let host := if flags &&& c.PAN_KMOD_BO_FLAG_NO_MMAP = 0 then k.mmap else 0
      let t2 := if flags &&& c.PAN_KMOD_BO_FLAG_NO_MMAP = 0 then
          t1 ++ [Event.pan_kmod_bo_mmap bo 0 (pan_kmod_bo_size bo) k.mmap]
        else t1
      if flags &&& c.PAN_KMOD_BO_FLAG_NO_MMAP = 0 ∧ host = c.MAP_FAILED then
        (none, t2 ++ [Event.pan_kmod_bo_put bo, Event.vk_free2 alloc k.priv_bo])
      else
        let op := create_op c bo
        let t3 := t2 ++ [Event.pan_kmod_vm_bind dev.kmod_vm
          .PAN_KMOD_VM_OP_MODE_IMMEDIATE op 1 k.bind_ret]
        if k.bind_ret ≠ 0 then
          let t4 := if host ≠ 0 then
              t3 ++ [Event.os_munmap host (pan_kmod_bo_size bo)]
            else t3
          (none, t4 ++ [Event.pan_kmod_bo_put bo, Event.vk_free2 alloc k.priv_bo])
        else
          let addr_dev := k.bind_va
          let t4 := if dev.decode_ctx ≠ 0 then
              t3 ++ [Event.pandecode_inject_mmap dev.decode_ctx addr_dev host
                (pan_kmod_bo_size bo)]
            else t3
          (some ⟨k.priv_bo, { dev := dev, bo := bo, addr_dev := addr_dev,
                              addr_host := host }⟩, t4)

/-- The operation `panvk_priv_bo_destroy` passes to `pan_kmod_vm_bind`. -/
def destroy_op (p : panvk_priv_bo) : pan_kmod_vm_op where
  type := .PAN_KMOD_VM_OP_TYPE_UNMAP
  va_start := p.addr_dev
  va_size := pan_kmod_bo_size p.bo
  map_bo := none
  map_bo_offset := 0

/-- Function `panvk_priv_bo_destroy`: the trace of calls.  The source asserts
that the unmap bind and `os_munmap` return 0 and does not branch on them; the
bind event records the asserted value. -/
def panvk_priv_bo_destroy (priv_bo : Option (Ref panvk_priv_bo)) (alloc : Nat) :
    List Event :=
  match priv_bo with
  | none => []
  | some r =>
    let p := r.obj
    let dev := p.dev
    (if dev.decode_ctx ≠ 0 then
        [Event.pandecode_inject_free dev.decode_ctx p.addr_dev (pan_kmod_bo_size p.bo)]
      else []) ++
    [Event.pan_kmod_vm_bind dev.kmod_vm .PAN_KMOD_VM_OP_MODE_IMMEDIATE (destroy_op p) 1 0] ++
    (if p.addr_host ≠ 0 then [Event.os_munmap p.addr_host (pan_kmod_bo_size p.bo)] else []) ++
    [Event.pan_kmod_bo_put p.bo, Event.vk_free2 alloc r.ptr]


/-- The trace of a `panvk_priv_bo_create` that reaches the VM bind. -/
def create_upto_bind (c : Consts) (k : CreateEnv) (dev : panvk_device)
    (size flags alloc scope : Nat) (bo : pan_kmod_bo) : List Event :=
  [Event.vk_zalloc2 alloc scope k.priv_bo,
   Event.pan_kmod_bo_alloc dev.kmod_dev dev.kmod_vm size flags (some bo)] ++
  (if flags &&& c.PAN_KMOD_BO_FLAG_NO_MMAP = 0 then
    [Event.pan_kmod_bo_mmap bo 0 bo.size k.mmap] else []) ++
  [Event.pan_kmod_vm_bind dev.kmod_vm .PAN_KMOD_VM_OP_MODE_IMMEDIATE (create_op c bo) 1
    k.bind_ret]

/-! ## Resources held across calls -/

/-- Something a call hands to the driver and that the driver has to hand back:
host memory (`vk_zalloc2`/`vk_alloc`, given back by `vk_free2`/`vk_free`/
`vk_object_free`), a kernel BO reference, a host mapping, the kmod device, the
trace decode context, the VM, the meta state and an initialised queue. -/
inductive Resource where
  | memory (ptr : Nat)
  | kernel_bo (bo : pan_kmod_bo)
  | host_map (addr size : Nat)
  | kmod_dev (dev : Nat)
  | decode_ctx (ctx : Nat)
  | kmod_vm (vm : Nat)
  | meta_state (arch : Nat)
  | queue (family idx : Nat)
  deriving DecidableEq, Repr

/-- The resource an event acquires, if any.  A failed call acquires nothing. -/
def Event.acquires (c : Consts) : Event → Option Resource
  | .vk_zalloc2 _ _ ret => if ret = 0 then none else some (.memory ret)
  | .vk_alloc _ ret => if ret = 0 then none else some (.memory ret)
  | .vk_object_zalloc ret => if ret = 0 then none else some (.memory ret)
  | .pan_kmod_bo_alloc _ _ _ _ (some bo) => some (.kernel_bo bo)
  | .pan_kmod_bo_mmap _ _ size ret =>
    if ret = c.MAP_FAILED then none else some (.host_map ret size)
  | .pan_kmod_dev_create ret => some (.kmod_dev ret)
  | .pandecode_create_context ret => some (.decode_ctx ret)
  | .pan_kmod_vm_create _ _ _ _ ret => some (.kmod_vm ret)
  | .meta_init arch => some (.meta_state arch)
  | .qinit _ family idx ret =>
    if ret = VK_SUCCESS then some (.queue family idx) else none
  | _ => none

/-- The resource an event releases, if any. -/
def Event.releases : Event → Option Resource
  | .vk_free2 _ ptr => some (.memory ptr)
  | .vk_free ptr => some (.memory ptr)
  | .vk_object_free ptr => some (.memory ptr)
  | .pan_kmod_bo_put bo => some (.kernel_bo bo)
  | .os_munmap addr size => some (.host_map addr size)
  | .pan_kmod_dev_destroy dev => some (.kmod_dev dev)
  | .pandecode_destroy_context ctx => some (.decode_ctx ctx)
  | .pan_kmod_vm_destroy vm => some (.kmod_vm vm)
  | .meta_cleanup arch => some (.meta_state arch)
  | .panvk_queue_finish family idx => some (.queue family idx)
  | _ => none

/-- Whether a resource is a trace decode context. -/
def Resource.is_decode_ctx : Resource → Bool
  | .decode_ctx _ => true
  | _ => false

/-- The resources a trace acquires, in order of acquisition. -/
def acquired (c : Consts) (t : List Event) : List Resource :=
  t.filterMap (Event.acquires c)

/-- The resources a trace releases, in order of release. -/
def released (t : List Event) : List Resource :=
  t.filterMap Event.releases

/-- The VM operations a trace issues: mode, operation, operation count and
return code of every `pan_kmod_vm_bind`, in order. -/
def vm_binds (t : List Event) :
    List (Nat × pan_kmod_vm_op_mode × pan_kmod_vm_op × Nat × Int) :=
  t.filterMap fun e =>
    match e with
    | .pan_kmod_vm_bind vm mode op n ret => some (vm, mode, op, n, ret)
    | _ => none

/-- The host mappings a trace makes: address and length of every
`pan_kmod_bo_mmap` that does not return `MAP_FAILED`. -/
def host_mmaps (c : Consts) (t : List Event) : List (Nat × Nat) :=
  t.filterMap fun e =>
    match e with
    | .pan_kmod_bo_mmap _ _ size ret =>
      if ret = c.MAP_FAILED then none else some (ret, size)
    | _ => none

/-- The host unmappings of a trace: address and length of every `os_munmap`. -/
def host_munmaps (t : List Event) : List (Nat × Nat) :=
  t.filterMap fun e =>
    match e with
    | .os_munmap addr size => some (addr, size)
    | _ => none

/-- Whether an event is a call into the trace decoder. -/
def Event.is_pandecode : Event → Bool
  | .pandecode_inject_mmap _ _ _ _ => true
  | .pandecode_inject_free _ _ _ => true
  | .pandecode_create_context _ => true
  | .pandecode_destroy_context _ => true
  | _ => false

/-! ## panvk_CreateDevice -/

/-- Macro `PANVK_MAX_QUEUE_FAMILIES` (panvk_private.h). -/
def PANVK_MAX_QUEUE_FAMILIES : Nat := 1

/-- Enumerator `PANVK_DEBUG_TRACE` (panvk_private.h). -/
def PANVK_DEBUG_TRACE : Nat := 1 <<< 2

/-- Macro `PANVK_VA_RESERVE_BOTTOM`: the lower 32MB are always reserved. -/
def PANVK_VA_RESERVE_BOTTOM : Nat := 0x2000000

/-- Enumerator `VK_SYSTEM_ALLOCATION_SCOPE_DEVICE` of the Vulkan headers. -/
def VK_SYSTEM_ALLOCATION_SCOPE_DEVICE : Nat := 3

/-- The usable VA range of a kmod device, `struct pan_kmod_va_range`. -/
structure pan_kmod_va_range where
  start : Nat
  size : Nat
  deriving DecidableEq, Repr

/-- Modelled from the spec: `panfrost_clamp_to_usable_va_range` is declared
outside the translated sources.  The source comment at its call site says "We
clamp things so it matches kmod VA range limitations": an address below the
usable range becomes its start, an address above it becomes its end, any other
address is unchanged. -/
def panfrost_clamp_to_usable_va_range (r : pan_kmod_va_range) (va : Nat) : Nat :=
  if va < r.start then r.start
  else if r.start + r.size < va then r.start + r.size
  else va

/-- Subtraction of `uint64_t` values. -/
def u64_sub (a b : Nat) : Nat := (a + 2 ^ 64 - b % 2 ^ 64) % 2 ^ 64

/-- Local `user_va_start` of `panvk_CreateDevice`. -/
def user_va_start (r : pan_kmod_va_range) : Nat :=
  panfrost_clamp_to_usable_va_range r PANVK_VA_RESERVE_BOTTOM

/-- Local `user_va_end` of `panvk_CreateDevice`. -/
def user_va_end (r : pan_kmod_va_range) : Nat :=
  panfrost_clamp_to_usable_va_range r (1 <<< 32)

/-- One element of `pCreateInfo->pQueueCreateInfos`. -/
structure VkDeviceQueueCreateInfo where
  queueFamilyIndex : Nat
  queueCount : Nat
  deriving DecidableEq, Repr

/-- What the calls made by one `panvk_CreateDevice` return: the pointer for the
device structure, the result of `vk_device_init`, the kmod device and its
usable VA range, the decode context, the VM, the environments of the two
private-BO creations, `panfrost_sample_positions_buffer_size()`, the queue
array `vk_alloc` gives for the i-th create info, and the result of the queue
initialisation of queue `q` of the i-th create info. -/
structure DeviceEnv where
  device : Nat
  vk_device_init : VkResult
  kmod_dev : Nat
  user_va_range : pan_kmod_va_range
  decode_ctx : Nat
  kmod_vm : Nat
  tiler_heap : CreateEnv
  sample_positions : CreateEnv
  sample_positions_buffer_size : Nat
  queues : Nat → Nat
  qinit : Nat → Nat → VkResult

/-- The arrays `queues` and `queue_count` of `struct panvk_device`, each of
`PANVK_MAX_QUEUE_FAMILIES` elements. -/
structure QueueArrays where
  queues : List Nat
  queue_count : List Nat
  deriving DecidableEq, Repr

/-- The device structure as `panvk_CreateDevice` leaves it: its address, the
fields private BOs read, the hardware generation of the entrypoint table, of
the command-buffer ops and of the queue-init function, the two private BOs
and the queue arrays. -/
structure Device where
  ptr : Nat
  core : panvk_device
  dev_entrypoints : Nat
  cmd_buffer_ops : Nat
  qinit : Nat
  tiler_heap : Option (Ref panvk_priv_bo)
  sample_positions : Option (Ref panvk_priv_bo)
  qa : QueueArrays
  deriving DecidableEq, Repr

/-- How a call of `panvk_CreateDevice` ends: it returns a result, having
written `*pDevice` or not, or it runs into undefined behaviour: the
`unreachable` of the architecture switch, a dereference of a null
`sample_positions`, or a store past the end of the `queues` array. -/
inductive Outcome where
  | returned (result : VkResult) (pDevice : Option Device)
  | hit_unreachable
  | null_deref
  | out_of_bounds
  deriving DecidableEq, Repr

/-- How the queue loop of `panvk_CreateDevice` ends. -/
inductive LoopExit where
  | done
  | fail (result : VkResult)
  | out_of_bounds
  deriving DecidableEq, Repr

/-- The inner loop `for (q = 0; q < queueCount; q++)`: `n` iterations are
left, the next index is `q`.  Gives the last `result` and the trace; the loop
is left at the first `result != VK_SUCCESS`. -/
def qinit_loop (k : DeviceEnv) (arch i qfi : Nat) : Nat → Nat → VkResult × List Event
  | 0, _ => (VK_SUCCESS, [])
  | n + 1, q =>
    let r := k.qinit i q
    if r ≠ VK_SUCCESS then (r, [Event.qinit arch qfi q r])
    else
      let rest := qinit_loop k arch i qfi n (q + 1)
      (rest.1, Event.qinit arch qfi q r :: rest.2)

/-- The loop over `pQueueCreateInfos`, from create info number `i` on. -/
def queue_loop (k : DeviceEnv) (arch : Nat) :
    List VkDeviceQueueCreateInfo → Nat → QueueArrays → LoopExit × QueueArrays × List Event
  | [], _, qa => (.done, qa, [])
  | info :: rest, i, qa =>
    let qfi := info.queueFamilyIndex
    let e := Event.vk_alloc info.queueCount (k.queues i)
    if PANVK_MAX_QUEUE_FAMILIES ≤ qfi then (.out_of_bounds, qa, [e])
    else
      let qa1 : QueueArrays := { qa with queues := qa.queues.set qfi (k.queues i) }
      if k.queues i = 0 then (.fail VK_ERROR_OUT_OF_HOST_MEMORY, qa1, [e])
      else
        let qa2 : QueueArrays :=
          { qa1 with queue_count := qa1.queue_count.set qfi info.queueCount }
        let r := qinit_loop k arch i qfi info.queueCount 0
        if r.1 ≠ VK_SUCCESS then (.fail r.1, qa2, e :: r.2)
        else
          let next := queue_loop k arch rest (i + 1) qa2
          (next.1, next.2.1, e :: r.2 ++ next.2.2)

/-- The queue part of the `fail` label: for every family, `panvk_queue_finish`
on the queues below `queue_count[i]`, then `vk_object_free` of the array when
`queue_count[i]` is not zero. -/
def finish_queues (qa : QueueArrays) : List Event :=
  (List.range PANVK_MAX_QUEUE_FAMILIES).flatMap fun i =>
    (List.range (qa.queue_count.getD i 0)).map (fun q => Event.panvk_queue_finish i q) ++
    (if qa.queue_count.getD i 0 ≠ 0 then [Event.vk_object_free (qa.queues.getD i 0)]
      else [])

/-- The `fail` label of `panvk_CreateDevice`. -/
def fail_path (arch : Nat) (d : Device) : List Event :=
  finish_queues d.qa ++
  [Event.meta_cleanup arch] ++
  panvk_priv_bo_destroy d.tiler_heap d.core.vk_alloc ++
  panvk_priv_bo_destroy d.sample_positions d.core.vk_alloc ++
  [Event.pan_kmod_vm_destroy d.core.kmod_vm,
   Event.pan_kmod_dev_destroy d.core.kmod_dev,
   Event.vk_free d.ptr]

/-- What the `switch (arch)` of `panvk_CreateDevice` selects: the device
entrypoint table, the command-buffer ops and the queue-init function.  Each
exists once per hardware generation and is named here by the number of its
generation: 6 stands for `panvk_v6_device_entrypoints`,
`panvk_v6_cmd_buffer_ops` and `panvk_v6_queue_init`, 7 for the v7 ones. -/
structure ArchDispatch where
  dev_entrypoints : Nat
  cmd_buffer_ops : Nat
  qinit : Nat
  deriving DecidableEq, Repr

/-- The `switch (arch)` of `panvk_CreateDevice`; `none` is the `default:`
branch, `unreachable("Unsupported architecture")`. -/
def arch_switch (arch : Nat) : Option ArchDispatch :=
  if arch = 6 then some { dev_entrypoints := 6, cmd_buffer_ops := 6, qinit := 6 }
  else if arch = 7 then some { dev_entrypoints := 7, cmd_buffer_ops := 7, qinit := 7 }
  else none

/-- The fields of the device structure that private BOs read, as they stand
once `panvk_CreateDevice` has created the VM: the decode context is only
created when the debug flags contain `PANVK_DEBUG_TRACE`, and is null
otherwise (the structure is zero-allocated). -/
def device_core (k : DeviceEnv) (debug_flags : Nat) : panvk_device where
  vk_alloc := k.device
  kmod_vm := k.kmod_vm
  kmod_dev := k.kmod_dev
  decode_ctx := if debug_flags &&& PANVK_DEBUG_TRACE ≠ 0 then k.decode_ctx else 0

/-- The call `panvk_priv_bo_create(device, 128 * 1024 * 1024,
PAN_KMOD_BO_FLAG_NO_MMAP | PAN_KMOD_BO_FLAG_ALLOC_ON_FAULT, ...)` that makes the
tiler heap. -/
def tiler_heap_create (c : Consts) (k : DeviceEnv) (debug_flags : Nat) :
    Option (Ref panvk_priv_bo) × List Event :=
  panvk_priv_bo_create c k.tiler_heap (device_core k debug_flags) (128 * 1024 * 1024)
    (c.PAN_KMOD_BO_FLAG_NO_MMAP ||| c.PAN_KMOD_BO_FLAG_ALLOC_ON_FAULT)
    k.device VK_SYSTEM_ALLOCATION_SCOPE_DEVICE

/-- The call `panvk_priv_bo_create(device,
panfrost_sample_positions_buffer_size(), 0, ...)` that makes the
sample-positions buffer. -/
def sample_positions_create (c : Consts) (k : DeviceEnv) (debug_flags : Nat) :
    Option (Ref panvk_priv_bo) × List Event :=
  panvk_priv_bo_create c k.sample_positions (device_core k debug_flags)
    k.sample_positions_buffer_size 0 k.device VK_SYSTEM_ALLOCATION_SCOPE_DEVICE

/-- The zero-initialised queue arrays of a fresh device structure. -/
def queue_arrays_zero : QueueArrays where
  queues := List.replicate PANVK_MAX_QUEUE_FAMILIES 0
  queue_count := List.replicate PANVK_MAX_QUEUE_FAMILIES 0

/-- The calls of `panvk_CreateDevice` from the allocation of the device
structure to the creation of the VM, when `vk_device_init` succeeds. -/
def create_device_setup (c : Consts) (k : DeviceEnv) (debug_flags pAllocator : Nat) :
    List Event :=
  [Event.vk_zalloc2 pAllocator VK_SYSTEM_ALLOCATION_SCOPE_DEVICE k.device,
   Event.vk_device_init k.vk_device_init,
   Event.pan_kmod_dev_create k.kmod_dev] ++
  (if debug_flags &&& PANVK_DEBUG_TRACE ≠ 0 then
    [Event.pandecode_create_context k.decode_ctx] else []) ++
  [Event.pan_kmod_vm_create k.kmod_dev c.PAN_KMOD_VM_FLAG_AUTO_VA
    (user_va_start k.user_va_range)
    (u64_sub (user_va_end k.user_va_range) (user_va_start k.user_va_range)) k.kmod_vm]

/-- Function `panvk_CreateDevice`.  `arch` is `pan_arch(gpu_prod_id)` of the
physical device, `debug_flags` the instance's debug flags, `infos` the queue
create infos of `pCreateInfo`, `pAllocator` the allocator handle.  The address
of the device structure stands for `&device->vk.alloc`. -/
def panvk_CreateDevice (c : Consts) (k : DeviceEnv) (arch debug_flags : Nat)
    (infos : List VkDeviceQueueCreateInfo) (pAllocator : Nat) : Outcome × List Event :=
  let t0 := [Event.vk_zalloc2 pAllocator VK_SYSTEM_ALLOCATION_SCOPE_DEVICE k.device]
  if k.device = 0 then (.returned VK_ERROR_OUT_OF_HOST_MEMORY none, t0)
  else
    match arch_switch arch with
    | none => (.hit_unreachable, t0)
    | some sel =>
      let t1 := t0 ++ [Event.vk_device_init k.vk_device_init]
      if k.vk_device_init ≠ VK_SUCCESS then
        (.returned k.vk_device_init none, t1 ++ [Event.vk_free k.device])
      else
        let t4 := create_device_setup c k debug_flags pAllocator
        let th := tiler_heap_create c k debug_flags
        let sp := sample_positions_create c k debug_flags
        let t5 := t4 ++ th.2 ++ sp.2
        match sp.1 with
        | none => (.null_deref, t5)
        | some s =>
          let t6 := t5 ++ [Event.panfrost_upload_sample_positions s.obj.addr_host,
            Event.vk_device_set_drm_fd k.kmod_dev, Event.meta_init arch]
          let ql := queue_loop k sel.qinit infos 0 queue_arrays_zero
          let d : Device :=
            { ptr := k.device, core := device_core k debug_flags,
              dev_entrypoints := sel.dev_entrypoints,
              cmd_buffer_ops := sel.cmd_buffer_ops, qinit := sel.qinit,
              tiler_heap := th.1, sample_positions := some s, qa := ql.2.1 }
          match ql.1 with
          | .out_of_bounds => (.out_of_bounds, t6 ++ ql.2.2)
          | .done => (.returned VK_SUCCESS (some d), t6 ++ ql.2.2)
          | .fail result => (.returned result none, t6 ++ ql.2.2 ++ fail_path arch d)

/-- The queue family indices of the create infos are pairwise different and
each is an index of the arrays `queues` and `queue_count`, as the valid usage
of `VkDeviceCreateInfo` in the Vulkan specification asks for. -/
def distinct_queue_families (infos : List VkDeviceQueueCreateInfo) : Prop :=
  (infos.map VkDeviceQueueCreateInfo.queueFamilyIndex).Nodup ∧
  ∀ info ∈ infos, info.queueFamilyIndex < PANVK_MAX_QUEUE_FAMILIES

instance (infos : List VkDeviceQueueCreateInfo) : Decidable (distinct_queue_families infos) :=
  inferInstanceAs (Decidable
    ((infos.map VkDeviceQueueCreateInfo.queueFamilyIndex).Nodup ∧
      ∀ info ∈ infos, info.queueFamilyIndex < PANVK_MAX_QUEUE_FAMILIES))

/-- The VMs a trace creates: start and size of the range passed to every
`pan_kmod_vm_create`. -/
def vm_creates (t : List Event) : List (Nat × Nat) :=
  t.filterMap fun e =>
    match e with
    | .pan_kmod_vm_create _ _ va_start va_size _ => some (va_start, va_size)
    | _ => none

/-! ## Concrete environments -/

/-- An environment in which every call succeeds: a usable VA range of 4 GiB
from address 0, a tiler heap of 128 MiB bound at 0x2000000 and a mapped
sample-positions buffer of 4096 bytes bound at 0xa000000. -/
def env_ok : DeviceEnv where
  device := 0x10000
  vk_device_init := VK_SUCCESS
  kmod_dev := 0x20000
  user_va_range := ⟨0, 2 ^ 32⟩
  decode_ctx := 0x30000
  kmod_vm := 0x40000
  tiler_heap := ⟨0x50000, some ⟨1, 128 * 1024 * 1024⟩, 0, 0, 0x2000000⟩
  sample_positions := ⟨0x60000, some ⟨2, 4096⟩, 0x7f0000, 0, 0xa000000⟩
  sample_positions_buffer_size := 4096
  queues := fun _ => 0x70000
  qinit := fun _ _ => VK_SUCCESS

/-- As `env_ok`, but the VM bind of the tiler heap fails with -12. -/
def env_tiler_bind_fails : DeviceEnv :=
  { env_ok with tiler_heap := ⟨0x50000, some ⟨1, 128 * 1024 * 1024⟩, 0, -12, 0⟩ }

/-- As `env_ok`, but the VM bind of the sample-positions buffer fails with -12. -/
def env_samples_bind_fail : DeviceEnv :=
  { env_ok with sample_positions := ⟨0x60000, some ⟨2, 4096⟩, 0x7f0000, -12, 0⟩ }

/-- As `env_ok`, but the allocation of the queue array fails. -/
def env_queue_alloc_fails : DeviceEnv :=
  { env_ok with queues := fun _ => 0 }

/-- As `env_ok`, but the initialisation of queue 1 fails with -3. -/
def env_qinit_fails : DeviceEnv :=
  { env_ok with qinit := fun _ q => if q = 1 then -3 else VK_SUCCESS }

/-- As `env_ok`, but `vk_device_init` fails with -3. -/
def env_device_init_fails : DeviceEnv :=
  { env_ok with vk_device_init := -3 }

/-- As `env_ok`, but the allocation of the device structure fails. -/
def env_device_alloc_fails : DeviceEnv :=
  { env_ok with device := 0 }

/-- As `env_ok`, but only the queue array of the first create info is
allocated: the allocation for every later create info fails. -/
def env_second_queue_alloc_fails : DeviceEnv :=
  { env_ok with queues := fun i => if i = 0 then 0x70000 else 0 }

/-! ## The kernel VM, as the private BOs of one device see it -/

/-- The device-address interval `[start, start + size)` of a private BO. -/
def va_interval (b : Ref panvk_priv_bo) : Nat × Nat :=
  (b.obj.addr_dev, pan_kmod_bo_size b.obj.bo)

/-- Two intervals `(start, size)` have no address in common. -/
def va_disjoint (a b : Nat × Nat) : Prop :=
  a.2 = 0 ∨ b.2 = 0 ∨ a.1 + a.2 ≤ b.1 ∨ b.1 + b.2 ≤ a.1

instance (a b : Nat × Nat) : Decidable (va_disjoint a b) :=
  inferInstanceAs (Decidable (a.2 = 0 ∨ b.2 = 0 ∨ a.1 + a.2 ≤ b.1 ∨ b.1 + b.2 ≤ a.1))

/-- Modelled from the spec: the VM object of the kernel-mode-driver layer is
outside the translated sources.  It is the VA range reserved at device
creation together with the intervals that are currently bound. -/
structure pan_kmod_vm where
  va_start : Nat
  va_size : Nat
  mapped : List (Nat × Nat)
  deriving DecidableEq, Repr

/-- An interval lies inside the VA range of the VM. -/
def vm_inside (vm : pan_kmod_vm) (a : Nat × Nat) : Prop :=
  vm.va_start ≤ a.1 ∧ a.1 + a.2 ≤ vm.va_start + vm.va_size

instance (vm : pan_kmod_vm) (a : Nat × Nat) : Decidable (vm_inside vm a) :=
  inferInstanceAs (Decidable (vm.va_start ≤ a.1 ∧ a.1 + a.2 ≤ vm.va_start + vm.va_size))

/-- An interval is free in the VM: inside its range and disjoint from every
bound interval. -/
def vm_free (vm : pan_kmod_vm) (a : Nat × Nat) : Prop :=
  vm_inside vm a ∧ ∀ m ∈ vm.mapped, va_disjoint a m

instance (vm : pan_kmod_vm) (a : Nat × Nat) : Decidable (vm_free vm a) :=
  inferInstanceAs (Decidable (vm_inside vm a ∧ ∀ m ∈ vm.mapped, va_disjoint a m))

/-- The bound intervals without the first occurrence of the interval `m`. -/
def unmap_interval (m : Nat × Nat) : List (Nat × Nat) → List (Nat × Nat)
  | [] => []
  | x :: xs => if x = m then xs else x :: unmap_interval m xs

/-- Modelled from the spec: the effect of one `pan_kmod_vm_bind` operation on
the VM.  A failed operation changes nothing; a MAP binds the interval of the
given size at the address left in `op.va.start` (`va_out` when the operation
asked for `PAN_KMOD_VM_MAP_AUTO_VA`); an UNMAP frees exactly its interval. -/
def vm_bind_effect (c : Consts) (vm : pan_kmod_vm) (va_out : Nat) (op : pan_kmod_vm_op)
    (ret : Int) : pan_kmod_vm :=
  if ret ≠ 0 then vm
  else
    match op.type with
    | .PAN_KMOD_VM_OP_TYPE_MAP =>
      let start := if op.va_start = c.PAN_KMOD_VM_MAP_AUTO_VA then va_out else op.va_start
      { vm with mapped := (start, op.va_size) :: vm.mapped }
    | .PAN_KMOD_VM_OP_TYPE_UNMAP =>
      { vm with mapped := unmap_interval (op.va_start, op.va_size) vm.mapped }
    | .PAN_KMOD_VM_OP_TYPE_SYNC_ONLY => vm

/-- The VM after the VM operations of a trace; `va_out` is the address an
auto-VA MAP of the trace is given. -/
def vm_after (c : Consts) (vm : pan_kmod_vm) (va_out : Nat) (t : List Event) : pan_kmod_vm :=
  (vm_binds t).foldl (fun vm b => vm_bind_effect c vm va_out b.2.2.1 b.2.2.2.2) vm

/-- The VM of a device and its live private BOs. -/
structure DeviceState where
  vm : pan_kmod_vm
  live : List (Ref panvk_priv_bo)
  deriving DecidableEq, Repr

/-- A call on the private BOs of a device: a creation, with what its calls
return, or the destruction of the live BO number `i`. -/
inductive Call where
  | create (k : CreateEnv) (size flags alloc scope : Nat)
  | destroy (i alloc : Nat)
  deriving DecidableEq, Repr

/-- One call: the VM follows the VM operations of the call's trace, a BO that
`panvk_priv_bo_create` returns becomes live, a destroyed BO stops being live.
A destruction of a BO that is not live is not a call of the sequence. -/
def step (c : Consts) (dev : panvk_device) (s : DeviceState) : Call → DeviceState
  | .create k size flags alloc scope =>
    let r := panvk_priv_bo_create c k dev size flags alloc scope
    { vm := vm_after c s.vm k.bind_va r.2,
      live := match r.1 with
        | some b => b :: s.live
        | none => s.live }
  | .destroy i alloc =>
    match s.live[i]? with
    | none => s
    | some b =>
      { vm := vm_after c s.vm 0 (panvk_priv_bo_destroy (some b) alloc),
        live := s.live.eraseIdx i }

/-- A sequence of calls. -/
def run (c : Consts) (dev : panvk_device) (s : DeviceState) (calls : List Call) :
    DeviceState :=
  calls.foldl (step c dev) s

/-- The assumption on the kernel for what a creation returned: the interval a
returned BO was bound at was free in the VM when the call was made. -/
def bound_free (vm : pan_kmod_vm) : Option (Ref panvk_priv_bo) → Prop
  | some b => vm_free vm (va_interval b)
  | none => True

instance (vm : pan_kmod_vm) : (r : Option (Ref panvk_priv_bo)) → Decidable (bound_free vm r)
  | some b => inferInstanceAs (Decidable (vm_free vm (va_interval b)))
  | none => isTrue trivial

/-- The assumption on the kernel for one call. -/
def kernel_ok (c : Consts) (dev : panvk_device) (s : DeviceState) : Call → Prop
  | .create k size flags alloc scope =>
    bound_free s.vm (panvk_priv_bo_create c k dev size flags alloc scope).1
  | .destroy _ _ => True

instance (c : Consts) (dev : panvk_device) (s : DeviceState) :
    (call : Call) → Decidable (kernel_ok c dev s call)
  | .create k size flags alloc scope =>
    inferInstanceAs (Decidable
      (bound_free s.vm (panvk_priv_bo_create c k dev size flags alloc scope).1))
  | .destroy _ _ => isTrue trivial

/-- The assumption on the kernel along a sequence of calls. -/
def kernel_ok_all (c : Consts) (dev : panvk_device) : DeviceState → List Call → Prop
  | _, [] => True
  | s, call :: rest => kernel_ok c dev s call ∧ kernel_ok_all c dev (step c dev s call) rest

/-- Decision procedure for `kernel_ok_all`. -/
def kernel_ok_all_dec (c : Consts) (dev : panvk_device) :
    (s : DeviceState) → (calls : List Call) → Decidable (kernel_ok_all c dev s calls)
  | _, [] => isTrue trivial
  | s, call :: rest =>
    @instDecidableAnd _ _ (inferInstanceAs (Decidable (kernel_ok c dev s call)))
      (kernel_ok_all_dec c dev (step c dev s call) rest)

instance (c : Consts) (dev : panvk_device) (s : DeviceState) (calls : List Call) :
    Decidable (kernel_ok_all c dev s calls) :=
  kernel_ok_all_dec c dev s calls

/-- The live BOs are pairwise disjoint and inside the VA range of the VM. -/
def live_ok (s : DeviceState) : Prop :=
  s.live.Pairwise (fun a b => va_disjoint (va_interval a) (va_interval b)) ∧
  ∀ b ∈ s.live, vm_inside s.vm (va_interval b)

instance (s : DeviceState) : Decidable (live_ok s) :=
  inferInstanceAs (Decidable
    (s.live.Pairwise (fun a b => va_disjoint (va_interval a) (va_interval b)) ∧
      ∀ b ∈ s.live, vm_inside s.vm (va_interval b)))

/-- A sequence with an interleaved destroy: two creations, the destruction of
the first BO, a creation that reuses its address, and a creation whose bind
fails. -/
def demo_calls : List Call :=
  [.create ⟨0x1000, some ⟨1, 4096⟩, 0x7f0000, 0, 0x2000000⟩ 4096 0 1 3,
   .create ⟨0x2000, some ⟨2, 8192⟩, 0x7f8000, 0, 0x2001000⟩ 8192 0 1 3,
   .destroy 1 1,
   .create ⟨0x3000, some ⟨3, 4096⟩, 0x7f9000, 0, 0x2000000⟩ 4096 4 1 3,
   .create ⟨0x4000, some ⟨4, 4096⟩, 0x7fa000, -12, 0x2000000⟩ 4096 4 1 3]

/-! ## Classes of calls -/

/-- Whether an event is one of the calls `panvk_priv_bo_create` and
`panvk_priv_bo_destroy` make. -/
def Event.is_bo_call : Event → Bool
  | .vk_zalloc2 _ _ _ => true
  | .pan_kmod_bo_alloc _ _ _ _ _ => true
  | .pan_kmod_bo_mmap _ _ _ _ => true
  | .pan_kmod_vm_bind _ _ _ _ _ => true
  | .pandecode_inject_mmap _ _ _ _ => true
  | .pandecode_inject_free _ _ _ => true
  | .os_munmap _ _ => true
  | .pan_kmod_bo_put _ => true
  | .vk_free2 _ _ => true
  | _ => false

/-- Whether an event is one of the calls the queue loop and the queue part of
the teardown make. -/
def Event.is_queue_call : Event → Bool
  | .vk_alloc _ _ => true
  | .qinit _ _ _ _ => true
  | .panvk_queue_finish _ _ => true
  | .vk_object_free _ => true
  | _ => false

/-- Whether an event is one of the calls `panvk_CreateDevice` makes once the
VM exists: those of the private BOs and of the queues, the upload of the
sample positions, `vk_device_set_drm_fd`, the meta init and cleanup, and the
destruction of the VM, of the kmod device and of the device structure. -/
def Event.follows_setup (e : Event) : Bool :=
  e.is_bo_call || e.is_queue_call ||
  match e with
  | .panfrost_upload_sample_positions _ => true
  | .vk_device_set_drm_fd _ => true
  | .meta_init _ => true
  | .meta_cleanup _ => true
  | .pan_kmod_vm_destroy _ => true
  | .pan_kmod_dev_destroy _ => true
  | .vk_free _ => true
  | _ => false

/-! ## Calls into the trace decoder -/

/-- The `pandecode_inject_mmap` calls of a trace: context, device address,
host address and size, in order. -/
def inject_mmaps (t : List Event) : List (Nat × Nat × Nat × Nat) :=
  t.filterMap fun e =>
    match e with
    | .pandecode_inject_mmap ctx gpu_va host size => some (ctx, gpu_va, host, size)
    | _ => none

/-- The `pandecode_inject_free` calls of a trace: context, device address and
size, in order. -/
def inject_frees (t : List Event) : List (Nat × Nat × Nat) :=
  t.filterMap fun e =>
    match e with
    | .pandecode_inject_free ctx gpu_va size => some (ctx, gpu_va, size)
    | _ => none

/-- The decode contexts a trace creates: what every
`pandecode_create_context` returned. -/
def ctx_creates (t : List Event) : List Nat :=
  t.filterMap fun e =>
    match e with
    | .pandecode_create_context ret => some ret
    | _ => none

/-! ## Queue calls -/

/-- The queue initialisations of a trace: queue-init function, family, index
and result of every call, in order. -/
def queue_inits (t : List Event) : List (Nat × Nat × Nat × VkResult) :=
  t.filterMap fun e =>
    match e with
    | .qinit arch family idx ret => some (arch, family, idx, ret)
    | _ => none

/-- The `panvk_queue_finish` calls of a trace: family and index, in order. -/
def queue_finishes (t : List Event) : List (Nat × Nat) :=
  t.filterMap fun e =>
    match e with
    | .panvk_queue_finish family idx => some (family, idx)
    | _ => none

/-! ## panvk_DestroyDevice -/

/-- How a call of `panvk_DestroyDevice` ends: it returns, or it dereferences
a null device. -/
inductive DestroyOutcome where
  | returned
  | null_deref
  deriving DecidableEq, Repr

/-- Function `panvk_DestroyDevice`.  `arch` is `pan_arch` of the GPU of
`device->physical_device`.  The statements are in the order of the source:
the initialiser `physical_device = device->physical_device` reads through
`device`, then comes `if (!device) return;`, then the teardown. -/
def panvk_DestroyDevice (device : Option Device) (arch : Nat) :
    DestroyOutcome × List Event :=
  match device with
  | none => (.null_deref, [])
  | some _ =>
    match device with
    | none => (.returned, [])
    | some d =>
      (.returned,
        (if d.core.decode_ctx ≠ 0 then [Event.pandecode_destroy_context d.core.decode_ctx]
          else []) ++
        finish_queues d.qa ++
        [Event.meta_cleanup arch] ++
        panvk_priv_bo_destroy d.tiler_heap d.core.vk_alloc ++
        panvk_priv_bo_destroy d.sample_positions d.core.vk_alloc ++
        [Event.pan_kmod_vm_destroy d.core.kmod_vm,
         Event.pan_kmod_dev_destroy d.core.kmod_dev,
         Event.vk_free d.ptr])

/-! ## Descriptor pools (panvk_descriptor_pool.c) -/

/-- Enumerator of `VkDescriptorType` (Vulkan headers). -/
def VK_DESCRIPTOR_TYPE_SAMPLER : Nat := 0

/-- Enumerator of `VkDescriptorType` (Vulkan headers). -/
def VK_DESCRIPTOR_TYPE_COMBINED_IMAGE_SAMPLER : Nat := 1

/-- Enumerator of `VkDescriptorType` (Vulkan headers). -/
def VK_DESCRIPTOR_TYPE_SAMPLED_IMAGE : Nat := 2

/-- Enumerator of `VkDescriptorType` (Vulkan headers). -/
def VK_DESCRIPTOR_TYPE_STORAGE_IMAGE : Nat := 3

/-- Enumerator of `VkDescriptorType` (Vulkan headers). -/
def VK_DESCRIPTOR_TYPE_UNIFORM_TEXEL_BUFFER : Nat := 4

/-- Enumerator of `VkDescriptorType` (Vulkan headers). -/
def VK_DESCRIPTOR_TYPE_STORAGE_TEXEL_BUFFER : Nat := 5

/-- Enumerator of `VkDescriptorType` (Vulkan headers). -/
def VK_DESCRIPTOR_TYPE_UNIFORM_BUFFER : Nat := 6

/-- Enumerator of `VkDescriptorType` (Vulkan headers). -/
def VK_DESCRIPTOR_TYPE_STORAGE_BUFFER : Nat := 7

/-- Enumerator of `VkDescriptorType` (Vulkan headers). -/
def VK_DESCRIPTOR_TYPE_UNIFORM_BUFFER_DYNAMIC : Nat := 8

/-- Enumerator of `VkDescriptorType` (Vulkan headers). -/
def VK_DESCRIPTOR_TYPE_STORAGE_BUFFER_DYNAMIC : Nat := 9

/-- Enumerator of `VkDescriptorType` (Vulkan headers). -/
def VK_DESCRIPTOR_TYPE_INPUT_ATTACHMENT : Nat := 10

/-- The counters of a descriptor pool, the type of `pool->max` and
`pool->cur`.  The structure is declared in panvk_descriptor_pool.h, outside
the translated sources; its fields are the ones panvk_descriptor_pool.c
names, each an `unsigned` like the `desc_count` that is added to them. -/
structure panvk_desc_pool_counters where
  samplers : Nat
  combined_image_samplers : Nat
  sampled_images : Nat
  storage_images : Nat
  uniform_texel_bufs : Nat
  storage_texel_bufs : Nat
  input_attachments : Nat
  uniform_bufs : Nat
  storage_bufs : Nat
  uniform_dyn_bufs : Nat
  storage_dyn_bufs : Nat
  sets : Nat
  deriving DecidableEq, Repr

/-- All counters zero, as `vk_object_zalloc` and `memset` leave them. -/
def counters_zero : panvk_desc_pool_counters :=
  ⟨0, 0, 0, 0, 0, 0, 0, 0, 0, 0, 0, 0⟩

/-- The fields `max` and `cur` of `struct panvk_descriptor_pool`. -/
structure panvk_descriptor_pool where
  max : panvk_desc_pool_counters
  cur : panvk_desc_pool_counters
  deriving DecidableEq, Repr

/-- One element of `pCreateInfo->pPoolSizes`. -/
structure VkDescriptorPoolSize where
  type : Nat
  descriptorCount : Nat
  deriving DecidableEq, Repr

/-- Addition of `unsigned` values. -/
def u32_add (a b : Nat) : Nat := (a + b) % 2 ^ 32

/-- The body of the loop of `panvk_CreateDescriptorPool`: the `switch` on the
descriptor type adds `desc_count` to one counter of `pool->max`; `none` is
the `default:` branch, `unreachable("Invalid descriptor type")`. -/
def pool_size_add (max : panvk_desc_pool_counters) (s : VkDescriptorPoolSize) :
    Option panvk_desc_pool_counters :=
  let desc_count := s.descriptorCount
  if s.type = VK_DESCRIPTOR_TYPE_SAMPLER then
    some { max with samplers := u32_add max.samplers desc_count }
  else if s.type = VK_DESCRIPTOR_TYPE_COMBINED_IMAGE_SAMPLER then
    some { max with combined_image_samplers := u32_add max.combined_image_samplers desc_count }
  else if s.type = VK_DESCRIPTOR_TYPE_SAMPLED_IMAGE then
    some { max with sampled_images := u32_add max.sampled_images desc_count }
  else if s.type = VK_DESCRIPTOR_TYPE_STORAGE_IMAGE then
    some { max with storage_images := u32_add max.storage_images desc_count }
  else if s.type = VK_DESCRIPTOR_TYPE_UNIFORM_TEXEL_BUFFER then
    some { max with uniform_texel_bufs := u32_add max.uniform_texel_bufs desc_count }
  else if s.type = VK_DESCRIPTOR_TYPE_STORAGE_TEXEL_BUFFER then
    some { max with storage_texel_bufs := u32_add max.storage_texel_bufs desc_count }
  else if s.type = VK_DESCRIPTOR_TYPE_INPUT_ATTACHMENT then
    some { max with input_attachments := u32_add max.input_attachments desc_count }
  else if s.type = VK_DESCRIPTOR_TYPE_UNIFORM_BUFFER then
    some { max with uniform_bufs := u32_add max.uniform_bufs desc_count }
  else if s.type = VK_DESCRIPTOR_TYPE_STORAGE_BUFFER then
    some { max with storage_bufs := u32_add max.storage_bufs desc_count }
  else if s.type = VK_DESCRIPTOR_TYPE_UNIFORM_BUFFER_DYNAMIC then
    some { max with uniform_dyn_bufs := u32_add max.uniform_dyn_bufs desc_count }
  else if s.type = VK_DESCRIPTOR_TYPE_STORAGE_BUFFER_DYNAMIC then
    some { max with storage_dyn_bufs := u32_add max.storage_dyn_bufs desc_count }
  else none

/-- The loop `for (i = 0; i < poolSizeCount; ++i)` of
`panvk_CreateDescriptorPool` over the pool sizes that are left. -/
def pool_sizes_loop :
    panvk_desc_pool_counters → List VkDescriptorPoolSize → Option panvk_desc_pool_counters
  | max, [] => some max
  | max, s :: rest =>
    match pool_size_add max s with
    | none => none
    | some max1 => pool_sizes_loop max1 rest

/-- How a call of `panvk_CreateDescriptorPool` ends: it returns a result,
having written `*pDescriptorPool` or not, or it runs into the `unreachable`
of the switch. -/
inductive PoolOutcome where
  | returned (result : VkResult) (pDescriptorPool : Option (Ref panvk_descriptor_pool))
  | hit_unreachable
  deriving DecidableEq, Repr

/-- Function `panvk_CreateDescriptorPool`.  `pool_ptr` is what
`vk_object_zalloc` returns (`0` on failure), `maxSets` and `pPoolSizes` are
the fields of `pCreateInfo`; the list holds `poolSizeCount` elements. -/
def panvk_CreateDescriptorPool (pool_ptr maxSets : Nat)
    (pPoolSizes : List VkDescriptorPoolSize) : PoolOutcome × List Event :=
  let t := [Event.vk_object_zalloc pool_ptr]
  if pool_ptr = 0 then (.returned VK_ERROR_OUT_OF_HOST_MEMORY none, t)
  else
    match pool_sizes_loop { counters_zero with sets := maxSets } pPoolSizes with
    | none => (.hit_unreachable, t)
    | some max =>
      (.returned VK_SUCCESS (some ⟨pool_ptr, { max := max, cur := counters_zero }⟩), t)

/-- Whether a descriptor type is one of the 11 the switch handles. -/
def handled_type (type : Nat) : Prop := type ≤ 10

instance (type : Nat) : Decidable (handled_type type) :=
  inferInstanceAs (Decidable (type ≤ 10))

/-- The sum of `descriptorCount` over the pool sizes of one descriptor type. -/
def type_total (type : Nat) (sizes : List VkDescriptorPoolSize) : Nat :=
  ((sizes.filter (fun s => s.type = type)).map (fun s => s.descriptorCount)).sum

/-- Function `panvk_ResetDescriptorPool`: `memset(&pool->cur, 0, ...)`. -/
def panvk_ResetDescriptorPool (pool : panvk_descriptor_pool) (flags : Nat) :
    VkResult × panvk_descriptor_pool :=
  let _ := flags
  (VK_SUCCESS, { pool with cur := counters_zero })

/-- The fields of `struct panvk_descriptor_set` that
`panvk_descriptor_set_destroy` reads: seven host arrays and the descriptor
BO. -/
structure panvk_descriptor_set where
  textures : Nat
  samplers : Nat
  ubos : Nat
  dyn_ubos : Nat
  dyn_ssbos : Nat
  img_fmts : Nat
  img_attrib_bufs : Nat
  desc_bo : Option (Ref panvk_priv_bo)
  deriving DecidableEq, Repr

/-- Function `panvk_descriptor_set_destroy`: the trace of calls. -/
def panvk_descriptor_set_destroy (set : Ref panvk_descriptor_set) : List Event :=
  [Event.vk_free set.obj.textures,
   Event.vk_free set.obj.samplers,
   Event.vk_free set.obj.ubos,
   Event.vk_free set.obj.dyn_ubos,
   Event.vk_free set.obj.dyn_ssbos,
   Event.vk_free set.obj.img_fmts,
   Event.vk_free set.obj.img_attrib_bufs] ++
  (if set.obj.desc_bo.isSome then panvk_priv_bo_destroy set.obj.desc_bo 0 else []) ++
  [Event.vk_object_free set.ptr]

/-- Function `panvk_FreeDescriptorSets`: the result, the pool as the call
leaves it, and the trace of calls.  `pDescriptorSets` holds `count` handles,
`none` for a null handle. -/
def panvk_FreeDescriptorSets (pool : panvk_descriptor_pool)
    (pDescriptorSets : List (Option (Ref panvk_descriptor_set))) :
    VkResult × panvk_descriptor_pool × List Event :=
  (VK_SUCCESS, pool,
    pDescriptorSets.flatMap fun handle =>
      match handle with
      | some set => panvk_descriptor_set_destroy set
      | none => [])

/-- The `vk_object_free` calls of a trace: the pointers, in order. -/
def object_frees (t : List Event) : List Nat :=
  t.filterMap fun e =>
    match e with
    | .vk_object_free ptr => some ptr
    | _ => none

/-- The counters after the loop, from the counters before it and the totals
per descriptor type. -/
def add_totals (max : panvk_desc_pool_counters) (sizes : List VkDescriptorPoolSize) :
    panvk_desc_pool_counters where
  samplers := (max.samplers + type_total VK_DESCRIPTOR_TYPE_SAMPLER sizes) % 2 ^ 32
  combined_image_samplers := (max.combined_image_samplers +
    type_total VK_DESCRIPTOR_TYPE_COMBINED_IMAGE_SAMPLER sizes) % 2 ^ 32
  sampled_images := (max.sampled_images +
    type_total VK_DESCRIPTOR_TYPE_SAMPLED_IMAGE sizes) % 2 ^ 32
  storage_images := (max.storage_images +
    type_total VK_DESCRIPTOR_TYPE_STORAGE_IMAGE sizes) % 2 ^ 32
  uniform_texel_bufs := (max.uniform_texel_bufs +
    type_total VK_DESCRIPTOR_TYPE_UNIFORM_TEXEL_BUFFER sizes) % 2 ^ 32
  storage_texel_bufs := (max.storage_texel_bufs +
    type_total VK_DESCRIPTOR_TYPE_STORAGE_TEXEL_BUFFER sizes) % 2 ^ 32
  input_attachments := (max.input_attachments +
    type_total VK_DESCRIPTOR_TYPE_INPUT_ATTACHMENT sizes) % 2 ^ 32
  uniform_bufs := (max.uniform_bufs +
    type_total VK_DESCRIPTOR_TYPE_UNIFORM_BUFFER sizes) % 2 ^ 32
  storage_bufs := (max.storage_bufs +
    type_total VK_DESCRIPTOR_TYPE_STORAGE_BUFFER sizes) % 2 ^ 32
  uniform_dyn_bufs := (max.uniform_dyn_bufs +
    type_total VK_DESCRIPTOR_TYPE_UNIFORM_BUFFER_DYNAMIC sizes) % 2 ^ 32
  storage_dyn_bufs := (max.storage_dyn_bufs +
    type_total VK_DESCRIPTOR_TYPE_STORAGE_BUFFER_DYNAMIC sizes) % 2 ^ 32
  sets := max.sets

/-- Every descriptor counter fits an `unsigned`. -/
def counters_in_range (m : panvk_desc_pool_counters) : Prop :=
  m.samplers < 2 ^ 32 ∧ m.combined_image_samplers < 2 ^ 32 ∧ m.sampled_images < 2 ^ 32 ∧
  m.storage_images < 2 ^ 32 ∧ m.uniform_texel_bufs < 2 ^ 32 ∧
  m.storage_texel_bufs < 2 ^ 32 ∧ m.input_attachments < 2 ^ 32 ∧ m.uniform_bufs < 2 ^ 32 ∧
  m.storage_bufs < 2 ^ 32 ∧ m.uniform_dyn_bufs < 2 ^ 32 ∧ m.storage_dyn_bufs < 2 ^ 32


/-! ## Dynamic state bits (panvk_cmd_buffer.h, panvk_private.h) -/

namespace cmd_buffer_h

/-- Enumerator of `enum panvk_dynamic_state_bits`, panvk_cmd_buffer.h. -/
def PANVK_DYNAMIC_VIEWPORT : Nat := 1 <<< 0

/-- Enumerator of `enum panvk_dynamic_state_bits`, panvk_cmd_buffer.h. -/
def PANVK_DYNAMIC_SCISSOR : Nat := 1 <<< 1

/-- Enumerator of `enum panvk_dynamic_state_bits`, panvk_cmd_buffer.h. -/
def PANVK_DYNAMIC_LINE_WIDTH : Nat := 1 <<< 2

/-- Enumerator of `enum panvk_dynamic_state_bits`, panvk_cmd_buffer.h. -/
def PANVK_DYNAMIC_DEPTH_BIAS : Nat := 1 <<< 3

/-- Enumerator of `enum panvk_dynamic_state_bits`, panvk_cmd_buffer.h. -/
def PANVK_DYNAMIC_BLEND_CONSTANTS : Nat := 1 <<< 4

/-- Enumerator of `enum panvk_dynamic_state_bits`, panvk_cmd_buffer.h. -/
def PANVK_DYNAMIC_DEPTH_BOUNDS : Nat := 1 <<< 5

/-- Enumerator of `enum panvk_dynamic_state_bits`, panvk_cmd_buffer.h. -/
def PANVK_DYNAMIC_STENCIL_COMPARE_MASK : Nat := 1 <<< 6

/-- Enumerator of `enum panvk_dynamic_state_bits`, panvk_cmd_buffer.h. -/
def PANVK_DYNAMIC_STENCIL_WRITE_MASK : Nat := 1 <<< 7

/-- Enumerator of `enum panvk_dynamic_state_bits`, panvk_cmd_buffer.h. -/
def PANVK_DYNAMIC_STENCIL_REFERENCE : Nat := 1 <<< 8

/-- Enumerator of `enum panvk_dynamic_state_bits`, panvk_cmd_buffer.h. -/
def PANVK_DYNAMIC_DISCARD_RECTANGLE : Nat := 1 <<< 9

/-- Enumerator of `enum panvk_dynamic_state_bits`, panvk_cmd_buffer.h. -/
def PANVK_DYNAMIC_SSBO : Nat := 1 <<< 10

/-- Enumerator of `enum panvk_dynamic_state_bits`, panvk_cmd_buffer.h. -/
def PANVK_DYNAMIC_VERTEX_INSTANCE_OFFSETS : Nat := 1 <<< 11

/-- Enumerator of `enum panvk_dynamic_state_bits`, panvk_cmd_buffer.h. -/
def PANVK_DYNAMIC_ALL : Nat := (1 <<< 12) - 1

/-- The 12 named values of the enum, in declaration order. -/
def dynamic_state_bits : List Nat :=
  [PANVK_DYNAMIC_VIEWPORT, PANVK_DYNAMIC_SCISSOR, PANVK_DYNAMIC_LINE_WIDTH,
   PANVK_DYNAMIC_DEPTH_BIAS, PANVK_DYNAMIC_BLEND_CONSTANTS, PANVK_DYNAMIC_DEPTH_BOUNDS,
   PANVK_DYNAMIC_STENCIL_COMPARE_MASK, PANVK_DYNAMIC_STENCIL_WRITE_MASK,
   PANVK_DYNAMIC_STENCIL_REFERENCE, PANVK_DYNAMIC_DISCARD_RECTANGLE, PANVK_DYNAMIC_SSBO,
   PANVK_DYNAMIC_VERTEX_INSTANCE_OFFSETS]

end cmd_buffer_h

namespace private_h

/-- Enumerator of `enum panvk_dynamic_state_bits`, panvk_private.h. -/
def PANVK_DYNAMIC_VIEWPORT : Nat := 1 <<< 0

/-- Enumerator of `enum panvk_dynamic_state_bits`, panvk_private.h. -/
def PANVK_DYNAMIC_SCISSOR : Nat := 1 <<< 1

/-- Enumerator of `enum panvk_dynamic_state_bits`, panvk_private.h. -/
def PANVK_DYNAMIC_LINE_WIDTH : Nat := 1 <<< 2

/-- Enumerator of `enum panvk_dynamic_state_bits`, panvk_private.h. -/
def PANVK_DYNAMIC_DEPTH_BIAS : Nat := 1 <<< 3

/-- Enumerator of `enum panvk_dynamic_state_bits`, panvk_private.h. -/
def PANVK_DYNAMIC_BLEND_CONSTANTS : Nat := 1 <<< 4

/-- Enumerator of `enum panvk_dynamic_state_bits`, panvk_private.h. -/
def PANVK_DYNAMIC_DEPTH_BOUNDS : Nat := 1 <<< 5

/-- Enumerator of `enum panvk_dynamic_state_bits`, panvk_private.h. -/
def PANVK_DYNAMIC_STENCIL_COMPARE_MASK : Nat := 1 <<< 6

/-- Enumerator of `enum panvk_dynamic_state_bits`, panvk_private.h. -/
def PANVK_DYNAMIC_STENCIL_WRITE_MASK : Nat := 1 <<< 7

/-- Enumerator of `enum panvk_dynamic_state_bits`, panvk_private.h. -/
def PANVK_DYNAMIC_STENCIL_REFERENCE : Nat := 1 <<< 8

/-- Enumerator of `enum panvk_dynamic_state_bits`, panvk_private.h. -/
def PANVK_DYNAMIC_DISCARD_RECTANGLE : Nat := 1 <<< 9

/-- Enumerator of `enum panvk_dynamic_state_bits`, panvk_private.h. -/
def PANVK_DYNAMIC_SSBO : Nat := 1 <<< 10

/-- Enumerator of `enum panvk_dynamic_state_bits`, panvk_private.h. -/
def PANVK_DYNAMIC_VERTEX_INSTANCE_OFFSETS : Nat := 1 <<< 11

/-- Enumerator of `enum panvk_dynamic_state_bits`, panvk_private.h. -/
def PANVK_DYNAMIC_ALL : Nat := (1 <<< 12) - 1

/-- The 12 named values of the enum, in declaration order. -/
def dynamic_state_bits : List Nat :=
  [PANVK_DYNAMIC_VIEWPORT, PANVK_DYNAMIC_SCISSOR, PANVK_DYNAMIC_LINE_WIDTH,
   PANVK_DYNAMIC_DEPTH_BIAS, PANVK_DYNAMIC_BLEND_CONSTANTS, PANVK_DYNAMIC_DEPTH_BOUNDS,
   PANVK_DYNAMIC_STENCIL_COMPARE_MASK, PANVK_DYNAMIC_STENCIL_WRITE_MASK,
   PANVK_DYNAMIC_STENCIL_REFERENCE, PANVK_DYNAMIC_DISCARD_RECTANGLE, PANVK_DYNAMIC_SSBO,
   PANVK_DYNAMIC_VERTEX_INSTANCE_OFFSETS]

end private_h

/-! ## Batch manager (panvk_cmd_buffer.h) -/

/-- Enum `panvk_cmd_event_op_type`. -/
inductive panvk_cmd_event_op_type where
  | PANVK_EVENT_OP_SET
  | PANVK_EVENT_OP_RESET
  | PANVK_EVENT_OP_WAIT
  deriving DecidableEq, Repr

/-- Struct `panvk_cmd_event_op`: the kind of operation and the event. -/
structure panvk_cmd_event_op where
  type : panvk_cmd_event_op_type
  event : Nat
  deriving DecidableEq, Repr

/-- The fields of `struct panvk_batch` that recording fills and submission
marks: the jobs, the event operations and the flag `issued`. -/
structure panvk_batch where
  jobs : List Nat
  event_ops : List panvk_cmd_event_op
  issued : Bool
  deriving DecidableEq, Repr

/-- The fields of `struct panvk_cmd_buffer` the batch manager uses: the list
`batches` and the pointer `state.batch`, `none` for `NULL`. -/
structure panvk_cmd_buffer where
  batches : List panvk_batch
  state_batch : Option panvk_batch
  deriving DecidableEq, Repr

/-- Modelled from the spec: `panvk_cmd_open_batch` is only declared in
panvk_cmd_buffer.h.  Section 4.4, transition no-batch to open: a batch without
jobs or event operations that was not issued becomes the current batch; with
a batch already open the call changes nothing. -/
def panvk_cmd_open_batch (cmdbuf : panvk_cmd_buffer) : panvk_cmd_buffer :=
  match cmdbuf.state_batch with
  | some _ => cmdbuf
  | none => { cmdbuf with state_batch := some ⟨[], [], false⟩ }

/-- Modelled from the spec: `cmd_close_batch` is only declared in
panvk_cmd_buffer.h.  Section 4.4, on close: the current batch is appended to
the ordered batch list of the command buffer and no new batch is opened. -/
def cmd_close_batch (cmdbuf : panvk_cmd_buffer) : panvk_cmd_buffer :=
  match cmdbuf.state_batch with
  | none => cmdbuf
  | some batch => { batches := cmdbuf.batches ++ [batch], state_batch := none }

/-- Modelled from the spec: what drives the batch manager (section 4.4 and
the submission layer of section 4.5): an operation requiring GPU work, a
synchronization-event operation, an explicit split request, a boundary that
closes the batch (render-pass end, end of recording), and the submission
layer issuing one batch of the list. -/
inductive RecordOp where
  | gpu_work (job : Nat)
  | event_op (op : panvk_cmd_event_op)
  | split
  | close
  | issue (idx : Nat)
  deriving DecidableEq, Repr

/-- Modelled from the spec: issuing sets the flag `issued`; issuing a batch
that was issued already is a no-op (section 8). -/
def issue_batch (batch : panvk_batch) : panvk_batch :=
  if batch.issued then batch else { batch with issued := true }

/-- Modelled from the spec: one operation on a command buffer.  GPU work and
event operations go to the current batch, which is opened first when there is
none; an event operation is a boundary, so the batch is closed after it; a
split closes the current batch and opens the next one; the submission layer
only sees the batches of the list. -/
def record_step (cmdbuf : panvk_cmd_buffer) : RecordOp → panvk_cmd_buffer
  | .gpu_work job =>
    match (panvk_cmd_open_batch cmdbuf).state_batch with
    | none => cmdbuf
    | some batch =>
      { cmdbuf with state_batch := some { batch with jobs := batch.jobs ++ [job] } }
  | .event_op op =>
    match (panvk_cmd_open_batch cmdbuf).state_batch with
    | none => cmdbuf
    | some batch =>
      cmd_close_batch
        { cmdbuf with state_batch := some { batch with event_ops := batch.event_ops ++ [op] } }
  | .split => panvk_cmd_open_batch (cmd_close_batch cmdbuf)
  | .close => cmd_close_batch cmdbuf
  | .issue idx =>
    match cmdbuf.batches[idx]? with
    | none => cmdbuf
    | some batch => { cmdbuf with batches := cmdbuf.batches.set idx (issue_batch batch) }

/-- Modelled from the spec: a sequence of operations, in order. -/
def record (cmdbuf : panvk_cmd_buffer) (ops : List RecordOp) : panvk_cmd_buffer :=
  ops.foldl record_step cmdbuf

/-- Modelled from the spec: a command buffer when recording begins, with no
batch in the list and none open. -/
def cmd_buffer_begin : panvk_cmd_buffer := ⟨[], none⟩

/-- The batches that are open, that is, receive new jobs: the one
`state.batch` points to, if it is not `NULL`. -/
def open_batches (cmdbuf : panvk_cmd_buffer) : List panvk_batch :=
  cmdbuf.state_batch.toList

/-! ## Meta copy texture types (panvk_private.h) -/

/-- Macro `PANVK_META_COPY_IMG2BUF_NUM_FORMATS`. -/
def PANVK_META_COPY_IMG2BUF_NUM_FORMATS : Nat := 12

/-- Macro `PANVK_META_COPY_IMG2IMG_NUM_FORMATS`. -/
def PANVK_META_COPY_IMG2IMG_NUM_FORMATS : Nat := 14

/-- Macro `PANVK_META_COPY_NUM_TEX_TYPES`. -/
def PANVK_META_COPY_NUM_TEX_TYPES : Nat := 5

/-- The two asserts of `panvk_meta_copy_tex_type`:
`dim > 0 && dim <= 3` and `dim < 3 || !isarray`. -/
def tex_type_asserts (dim : Nat) (isarray : Bool) : Bool :=
  (decide (dim > 0) && decide (dim ≤ 3)) && (decide (dim < 3) || !isarray)

/-- Function `panvk_meta_copy_tex_type`: `none` when an assert fails,
otherwise `((dim - 1) << 1) | (isarray ? 1 : 0)` in `unsigned` arithmetic. -/
def panvk_meta_copy_tex_type (dim : Nat) (isarray : Bool) : Option Nat :=
  if tex_type_asserts dim isarray then
    some (((((dim + 2 ^ 32 - 1) % 2 ^ 32) <<< 1) % 2 ^ 32) ||| (if isarray then 1 else 0))
  else none

/-- The dimensions of the array `copy.img2buf` of `struct panvk_meta`,
outermost first. -/
def img2buf_dims : List Nat :=
  [PANVK_META_COPY_NUM_TEX_TYPES, PANVK_META_COPY_IMG2BUF_NUM_FORMATS]

/-- The dimensions of the array `copy.img2img` of `struct panvk_meta`,
outermost first. -/
def img2img_dims : List Nat :=
  [2, PANVK_META_COPY_NUM_TEX_TYPES, PANVK_META_COPY_IMG2IMG_NUM_FORMATS]

/-- The five inputs that pass the asserts. -/
def valid_tex_types : List (Nat × Bool) :=
  [(1, false), (1, true), (2, false), (2, true), (3, false)]

/-! ## Binding memory to images (panvk_device.c) -/

/-- What `panvk_BindImageMemory2` uses and the translated sources do not
define: the predicate `drm_is_afbc` on layout modifiers and the constant
`MAP_FAILED` of `sys/mman.h`. -/
structure ImageConsts where
  drm_is_afbc : Nat → Bool
  MAP_FAILED : Nat

/-- Width in bits of the field `offset` of `struct pan_image_mem`, the type
of `pimage.data`: the field is an `unsigned` (pan_texture.h, a header outside
the translated sources), so the 64-bit `memoryOffset` is converted modulo
2^32 when it is assigned to it. -/
def data_offset_bits : Nat := 32

/-- The fields of `struct panvk_device_memory` the function reads: `bo` and
`addr.dev`. -/
structure panvk_device_memory where
  bo : pan_kmod_bo
  addr_dev : Nat
  deriving DecidableEq, Repr

/-- The fields of one element of `layout.slices` the function reads: `offset`
and `afbc.header_size`. -/
structure pan_image_slice_layout where
  offset : Nat
  afbc_header_size : Nat
  deriving DecidableEq, Repr

/-- The fields of `pimage.layout` the function reads. -/
structure pan_image_layout where
  modifier : Nat
  array_size : Nat
  nr_slices : Nat
  array_stride : Nat
  slices : List pan_image_slice_layout
  deriving DecidableEq, Repr

/-- The field `pimage.data`: `base` and `offset`. -/
structure pan_image_mem where
  base : Nat
  offset : Nat
  deriving DecidableEq, Repr

/-- The field `pimage` of an image: `data` and `layout`. -/
structure pan_image where
  data : pan_image_mem
  layout : pan_image_layout
  deriving DecidableEq, Repr

/-- The fields of `struct panvk_image` the function uses: `bo`, `none` for
`NULL`, and `pimage`. -/
structure panvk_image where
  bo : Option pan_kmod_bo
  pimage : pan_image
  deriving DecidableEq, Repr

/-- One element of `pBindInfos`: the image handle (`0` for a null handle),
the memory object behind the memory handle (`none` for a null handle) and
`memoryOffset`. -/
structure VkBindImageMemoryInfo where
  image : Nat
  memory : Option panvk_device_memory
  memoryOffset : Nat
  deriving DecidableEq, Repr

/-- The calls `panvk_BindImageMemory2` makes, with their arguments and, for
the mapping and the unmapping, what they return. -/
inductive ImageEvent where
  | pan_kmod_bo_get (bo : pan_kmod_bo)
  | pan_kmod_bo_mmap (bo : pan_kmod_bo) (offset size ret : Nat)
  | memset (dst val size : Nat)
  | os_munmap (addr size : Nat) (ret : Int)
  | pan_kmod_bo_put (bo : Option pan_kmod_bo)
  deriving DecidableEq, Repr

/-- The two loops over `layer` and `level` that clear the AFBC headers:
one `memset` per layer and level, at
`base + data.offset + layer * array_stride + slices[level].offset`. -/
def afbc_header_memsets (image : panvk_image) (base : Nat) : List ImageEvent :=
  (List.range image.pimage.layout.array_size).flatMap fun layer =>
    (List.range image.pimage.layout.nr_slices).map fun level =>
      let slice := image.pimage.layout.slices.getD level ⟨0, 0⟩
      ImageEvent.memset
        (base + image.pimage.data.offset + layer * image.pimage.layout.array_stride +
          slice.offset)
        0 slice.afbc_header_size

/-- The body of the loop of `panvk_BindImageMemory2` for one bind info, on
the image its handle names: whether the body runs to its end (`false` when
`assert(base != MAP_FAILED)` or `assert(!ret)` fails), the image as the body
leaves it and the calls made.  `base` is what `pan_kmod_bo_mmap` returns and
`unmap_ret` what `os_munmap` returns, if they are called. -/
def bind_image_memory_entry (c : ImageConsts) (base : Nat) (unmap_ret : Int)
    (image : panvk_image) (info : VkBindImageMemoryInfo) :
    Bool × panvk_image × List ImageEvent :=
  let old_bo := image.bo
  match info.memory with
  | some mem =>
    let image1 : panvk_image :=
      ⟨some mem.bo,
        ⟨⟨mem.addr_dev, info.memoryOffset % 2 ^ data_offset_bits⟩, image.pimage.layout⟩⟩
    let t1 := [ImageEvent.pan_kmod_bo_get mem.bo]
    if c.drm_is_afbc image1.pimage.layout.modifier then
      let t2 := t1 ++ [ImageEvent.pan_kmod_bo_mmap mem.bo 0 (pan_kmod_bo_size mem.bo) base]
      if base = c.MAP_FAILED then (false, image1, t2)
      else
        let t3 := t2 ++ afbc_header_memsets image1 base ++
          [ImageEvent.os_munmap base (pan_kmod_bo_size mem.bo) unmap_ret]
        if unmap_ret ≠ 0 then (false, image1, t3)
        else (true, image1, t3 ++ [ImageEvent.pan_kmod_bo_put old_bo])
    else (true, image1, t1 ++ [ImageEvent.pan_kmod_bo_put old_bo])
  | none =>
    (true,
      ⟨none,
        ⟨⟨image.pimage.data.base, info.memoryOffset % 2 ^ data_offset_bits⟩,
          image.pimage.layout⟩⟩,
      [ImageEvent.pan_kmod_bo_put old_bo])

/-- How a call of `panvk_BindImageMemory2` ends: it returns a result, it
reads `image->bo` through a null image handle, or one of the two asserts on
the transient mapping fails. -/
inductive BindOutcome where
  | returned (result : VkResult)
  | null_deref
  | assert_failed
  deriving DecidableEq, Repr

/-- The loop `for (i = 0; i < bindInfoCount; ++i)` of `panvk_BindImageMemory2`
from index `i` on, over the bind infos that are left.  `images` gives the
image behind each handle, `mmaps i` is what `pan_kmod_bo_mmap` and
`munmaps i` what `os_munmap` returns in iteration `i`. -/
def bind_image_memory_loop (c : ImageConsts) (mmaps : Nat → Nat) (munmaps : Nat → Int) :
    Nat → (Nat → panvk_image) → List VkBindImageMemoryInfo →
      BindOutcome × (Nat → panvk_image) × List ImageEvent
  | _, images, [] => (.returned VK_SUCCESS, images, [])
  | i, images, info :: rest =>
    if info.image = 0 then (.null_deref, images, [])
    else
      let r := bind_image_memory_entry c (mmaps i) (munmaps i) (images info.image) info
      let images1 : Nat → panvk_image := fun h => if h = info.image then r.2.1 else images h
      if r.1 then
        let rr := bind_image_memory_loop c mmaps munmaps (i + 1) images1 rest
        (rr.1, rr.2.1, r.2.2 ++ rr.2.2)
      else (.assert_failed, images1, r.2.2)

/-- Function `panvk_BindImageMemory2`: how it ends, the images as it leaves
them and the calls made.  The list holds `bindInfoCount` elements. -/
def panvk_BindImageMemory2 (c : ImageConsts) (mmaps : Nat → Nat) (munmaps : Nat → Int)
    (images : Nat → panvk_image) (pBindInfos : List VkBindImageMemoryInfo) :
    BindOutcome × (Nat → panvk_image) × List ImageEvent :=
  bind_image_memory_loop c mmaps munmaps 0 images pBindInfos

/-- The BOs a trace takes a reference to with `pan_kmod_bo_get`, in order. -/
def bo_gets (t : List ImageEvent) : List pan_kmod_bo :=
  t.filterMap fun e =>
    match e with
    | .pan_kmod_bo_get bo => some bo
    | _ => none

/-- The arguments of the `pan_kmod_bo_put` calls of a trace, in order. -/
def bo_puts (t : List ImageEvent) : List (Option pan_kmod_bo) :=
  t.filterMap fun e =>
    match e with
    | .pan_kmod_bo_put bo => some bo
    | _ => none

/-- By how much an event changes the reference count of a BO: one up for a
`pan_kmod_bo_get` of it, one down for a `pan_kmod_bo_put` of it. -/
def ImageEvent.ref_change (bo : pan_kmod_bo) : ImageEvent → Int
  | .pan_kmod_bo_get b => if b = bo then 1 else 0
  | .pan_kmod_bo_put b => if b = some bo then -1 else 0
  | _ => 0

/-- By how much a trace changes the reference count of a BO. -/
def ref_delta (bo : pan_kmod_bo) (t : List ImageEvent) : Int :=
  (t.map (ImageEvent.ref_change bo)).sum

/-- An image with no BO bound, a linear layout and one slice. -/
def image_unbound : panvk_image :=
  ⟨none, ⟨⟨0, 0⟩, ⟨0, 1, 1, 0, [⟨0, 0⟩]⟩⟩⟩

/-- An image bound to the BO with handle 7, with an AFBC layout (modifier 1)
of two layers and two slices. -/
def image_afbc : panvk_image :=
  ⟨some ⟨7, 8192⟩, ⟨⟨0x3000000, 0⟩, ⟨1, 2, 2, 4096, [⟨0, 64⟩, ⟨2048, 32⟩]⟩⟩⟩

/-- The images behind the handles 1 (unbound) and 2 (AFBC, bound). -/
def images_demo : Nat → panvk_image :=
  fun h => if h = 2 then image_afbc else image_unbound

/-- Constants for the examples: modifier 1 is the AFBC one, `MAP_FAILED` is
`(void *)-1` on a 64-bit host. -/
def image_consts_demo : ImageConsts := ⟨fun m => m == 1, 2 ^ 64 - 1⟩
/-! ## Theorems -/

/-! ### How a private-BO creation unfolds -/

theorem create_eq_of_struct_fail (c : Consts) (k : CreateEnv) (dev : panvk_device)
    (size flags alloc scope : Nat) (h : k.priv_bo = 0) :
    panvk_priv_bo_create c k dev size flags alloc scope =
      (none, [Event.vk_zalloc2 alloc scope k.priv_bo]) := by
  simp [panvk_priv_bo_create, h]

theorem create_eq_of_bo_fail (c : Consts) (k : CreateEnv) (dev : panvk_device)
    (size flags alloc scope : Nat) (h : k.priv_bo ≠ 0) (hb : k.bo = none) :
    panvk_priv_bo_create c k dev size flags alloc scope =
      (none, [Event.vk_zalloc2 alloc scope k.priv_bo,
              Event.pan_kmod_bo_alloc dev.kmod_dev dev.kmod_vm size flags none,
              Event.vk_free2 alloc k.priv_bo]) := by
  simp [panvk_priv_bo_create, h, hb]

theorem create_eq_of_mmap_fail (c : Consts) (k : CreateEnv) (dev : panvk_device)
    (size flags alloc scope : Nat) (bo : pan_kmod_bo) (h : k.priv_bo ≠ 0)
    (hb : k.bo = some bo) (hf : flags &&& c.PAN_KMOD_BO_FLAG_NO_MMAP = 0)
    (hm : k.mmap = c.MAP_FAILED) :
    panvk_priv_bo_create c k dev size flags alloc scope =
      (none, [Event.vk_zalloc2 alloc scope k.priv_bo,
              Event.pan_kmod_bo_alloc dev.kmod_dev dev.kmod_vm size flags (some bo),
              Event.pan_kmod_bo_mmap bo 0 bo.size k.mmap,
              Event.pan_kmod_bo_put bo,
              Event.vk_free2 alloc k.priv_bo]) := by
  simp [panvk_priv_bo_create, h, hb, hf, hm, pan_kmod_bo_size]

theorem create_eq_of_bind_fail (c : Consts) (k : CreateEnv) (dev : panvk_device)
    (size flags alloc scope : Nat) (bo : pan_kmod_bo) (h : k.priv_bo ≠ 0)
    (hb : k.bo = some bo)
    (hm : flags &&& c.PAN_KMOD_BO_FLAG_NO_MMAP = 0 → k.mmap ≠ c.MAP_FAILED)
    (hr : k.bind_ret ≠ 0) :
    panvk_priv_bo_create c k dev size flags alloc scope =
      (none, create_upto_bind c k dev size flags alloc scope bo ++
        (if (if flags &&& c.PAN_KMOD_BO_FLAG_NO_MMAP = 0 then k.mmap else 0) ≠ 0 then
          [Event.os_munmap k.mmap bo.size] else []) ++
        [Event.pan_kmod_bo_put bo, Event.vk_free2 alloc k.priv_bo]) := by
  unfold panvk_priv_bo_create create_upto_bind
  by_cases hf : flags &&& c.PAN_KMOD_BO_FLAG_NO_MMAP = 0
  · have hm2 := hm hf
    simp only [if_neg h, hb, if_pos hf, hm2, and_false, if_false, pan_kmod_bo_size]
    by_cases hz : k.mmap = 0
    · simp [hz, hr]
    · simp [hz, hr]
  · simp only [if_neg h, hb, if_neg hf, false_and, if_false, pan_kmod_bo_size]
    simp [hr, hf]

theorem create_eq_of_success (c : Consts) (k : CreateEnv) (dev : panvk_device)
    (size flags alloc scope : Nat) (bo : pan_kmod_bo) (h : k.priv_bo ≠ 0)
    (hb : k.bo = some bo)
    (hm : flags &&& c.PAN_KMOD_BO_FLAG_NO_MMAP = 0 → k.mmap ≠ c.MAP_FAILED)
    (hr : k.bind_ret = 0) :
    panvk_priv_bo_create c k dev size flags alloc scope =
      (some ⟨k.priv_bo,
        { dev := dev, bo := bo, addr_dev := k.bind_va,
          addr_host := if flags &&& c.PAN_KMOD_BO_FLAG_NO_MMAP = 0 then k.mmap else 0 }⟩,
       create_upto_bind c k dev size flags alloc scope bo ++
        (if dev.decode_ctx ≠ 0 then
          [Event.pandecode_inject_mmap dev.decode_ctx k.bind_va
            (if flags &&& c.PAN_KMOD_BO_FLAG_NO_MMAP = 0 then k.mmap else 0) bo.size]
         else [])) := by
  unfold panvk_priv_bo_create create_upto_bind
  by_cases hf : flags &&& c.PAN_KMOD_BO_FLAG_NO_MMAP = 0
  · have hm2 := hm hf
    simp only [if_neg h, hb, if_pos hf, hm2, and_false, if_false, pan_kmod_bo_size]
    by_cases hd : dev.decode_ctx = 0
    · simp [hd, hr]
    · simp [hd, hr]
  · simp only [if_neg h, hb, if_neg hf, false_and, if_false, pan_kmod_bo_size]
    by_cases hd : dev.decode_ctx = 0
    · simp [hd, hr, hf]
    · simp [hd, hr, hf]

/-- The five ways a `panvk_priv_bo_create` can go. -/
theorem create_cases (c : Consts) (k : CreateEnv) (flags : Nat) :
    k.priv_bo = 0 ∨
    (k.priv_bo ≠ 0 ∧ k.bo = none) ∨
    (∃ bo, k.priv_bo ≠ 0 ∧ k.bo = some bo ∧
      flags &&& c.PAN_KMOD_BO_FLAG_NO_MMAP = 0 ∧ k.mmap = c.MAP_FAILED) ∨
    (∃ bo, k.priv_bo ≠ 0 ∧ k.bo = some bo ∧
      (flags &&& c.PAN_KMOD_BO_FLAG_NO_MMAP = 0 → k.mmap ≠ c.MAP_FAILED) ∧ k.bind_ret ≠ 0) ∨
    (∃ bo, k.priv_bo ≠ 0 ∧ k.bo = some bo ∧
      (flags &&& c.PAN_KMOD_BO_FLAG_NO_MMAP = 0 → k.mmap ≠ c.MAP_FAILED) ∧ k.bind_ret = 0) := by
  by_cases h : k.priv_bo = 0
  · exact Or.inl h
  · cases hb : k.bo with
    | none => exact Or.inr (Or.inl ⟨h, rfl⟩)
    | some bo =>
      by_cases hm : flags &&& c.PAN_KMOD_BO_FLAG_NO_MMAP = 0 ∧ k.mmap = c.MAP_FAILED
      · exact Or.inr (Or.inr (Or.inl ⟨bo, h, rfl, hm.1, hm.2⟩))
      · have hm2 : flags &&& c.PAN_KMOD_BO_FLAG_NO_MMAP = 0 → k.mmap ≠ c.MAP_FAILED :=
          fun hf he => hm ⟨hf, he⟩
        by_cases hr : k.bind_ret = 0
        · exact Or.inr (Or.inr (Or.inr (Or.inr ⟨bo, h, rfl, hm2, hr⟩)))
        · exact Or.inr (Or.inr (Or.inr (Or.inl ⟨bo, h, rfl, hm2, hr⟩)))


/-! ### Resources of a private-BO creation and destruction -/

theorem released_append (t u : List Event) : released (t ++ u) = released t ++ released u := by
  simp [released, List.filterMap_append]

theorem acquired_append (c : Consts) (t u : List Event) :
    acquired c (t ++ u) = acquired c t ++ acquired c u := by
  simp [acquired, List.filterMap_append]

/-- A creation that succeeds releases nothing. -/
theorem released_create_of_some (c : Consts) (k : CreateEnv) (dev : panvk_device)
    (size flags alloc scope : Nat) (b : Ref panvk_priv_bo)
    (h : (panvk_priv_bo_create c k dev size flags alloc scope).1 = some b) :
    released (panvk_priv_bo_create c k dev size flags alloc scope).2 = [] := by
  rcases create_cases c k flags with h0 | ⟨h0, hb⟩ | ⟨bo, h0, hb, hf, hm⟩ |
      ⟨bo, h0, hb, hm, hr⟩ | ⟨bo, h0, hb, hm, hr⟩
  · rw [create_eq_of_struct_fail c k dev size flags alloc scope h0] at h
    simp at h
  · rw [create_eq_of_bo_fail c k dev size flags alloc scope h0 hb] at h
    simp at h
  · rw [create_eq_of_mmap_fail c k dev size flags alloc scope bo h0 hb hf hm] at h
    simp at h
  · rw [create_eq_of_bind_fail c k dev size flags alloc scope bo h0 hb hm hr] at h
    simp at h
  · rw [create_eq_of_success c k dev size flags alloc scope bo h0 hb hm hr]
    by_cases hf : flags &&& c.PAN_KMOD_BO_FLAG_NO_MMAP = 0 <;>
      by_cases hd : dev.decode_ctx = 0 <;>
      simp [create_upto_bind, hf, hd, released, Event.releases]

/-- A creation that fails releases what it acquired, in reverse order. -/
theorem released_create_of_none (c : Consts) (k : CreateEnv) (dev : panvk_device)
    (size flags alloc scope : Nat) (h_map : flags &&& c.PAN_KMOD_BO_FLAG_NO_MMAP = 0 → k.mmap ≠ 0)
    (h : (panvk_priv_bo_create c k dev size flags alloc scope).1 = none) :
    released (panvk_priv_bo_create c k dev size flags alloc scope).2 =
      (acquired c (panvk_priv_bo_create c k dev size flags alloc scope).2).reverse := by
  rcases create_cases c k flags with h0 | ⟨h0, hb⟩ | ⟨bo, h0, hb, hf, hm⟩ |
      ⟨bo, h0, hb, hm, hr⟩ | ⟨bo, h0, hb, hm, hr⟩
  · rw [create_eq_of_struct_fail c k dev size flags alloc scope h0]
    simp [released, acquired, Event.releases, Event.acquires, h0]
  · rw [create_eq_of_bo_fail c k dev size flags alloc scope h0 hb]
    simp [released, acquired, Event.releases, Event.acquires, h0]
  · rw [create_eq_of_mmap_fail c k dev size flags alloc scope bo h0 hb hf hm]
    simp [released, acquired, Event.releases, Event.acquires, h0, hm]
  · rw [create_eq_of_bind_fail c k dev size flags alloc scope bo h0 hb hm hr]
    by_cases hf : flags &&& c.PAN_KMOD_BO_FLAG_NO_MMAP = 0
    · have hm2 := hm hf
      have hm3 := h_map hf
      simp [create_upto_bind, hf, hm2, hm3, h0, released, acquired, Event.releases,
        Event.acquires]
    · simp [create_upto_bind, hf, h0, released, acquired, Event.releases, Event.acquires]
  · rw [create_eq_of_success c k dev size flags alloc scope bo h0 hb hm hr] at h
    simp at h

/-- Destroying the BO a creation returned releases what the creation
acquired, in reverse order. -/
theorem released_destroy_of_create (c : Consts) (k : CreateEnv) (dev : panvk_device)
    (size flags alloc scope alloc2 : Nat) (b : Ref panvk_priv_bo) (h_map : flags &&& c.PAN_KMOD_BO_FLAG_NO_MMAP = 0 → k.mmap ≠ 0)
    (h : (panvk_priv_bo_create c k dev size flags alloc scope).1 = some b) :
    released (panvk_priv_bo_destroy (some b) alloc2) =
      (acquired c (panvk_priv_bo_create c k dev size flags alloc scope).2).reverse := by
  rcases create_cases c k flags with h0 | ⟨h0, hb⟩ | ⟨bo, h0, hb, hf, hm⟩ |
      ⟨bo, h0, hb, hm, hr⟩ | ⟨bo, h0, hb, hm, hr⟩
  · rw [create_eq_of_struct_fail c k dev size flags alloc scope h0] at h
    simp at h
  · rw [create_eq_of_bo_fail c k dev size flags alloc scope h0 hb] at h
    simp at h
  · rw [create_eq_of_mmap_fail c k dev size flags alloc scope bo h0 hb hf hm] at h
    simp at h
  · rw [create_eq_of_bind_fail c k dev size flags alloc scope bo h0 hb hm hr] at h
    simp at h
  · rw [create_eq_of_success c k dev size flags alloc scope bo h0 hb hm hr] at h ⊢
    simp only [Option.some.injEq] at h
    subst h
    by_cases hf : flags &&& c.PAN_KMOD_BO_FLAG_NO_MMAP = 0
    · have hm2 := hm hf
      by_cases hd : dev.decode_ctx = 0 <;>
        simp [create_upto_bind, hf, hm2, hd, h_map hf, h0, panvk_priv_bo_destroy,
          pan_kmod_bo_size, released, acquired, Event.acquires, Event.releases]
    · by_cases hd : dev.decode_ctx = 0 <;>
        simp [create_upto_bind, hf, hd, h0, panvk_priv_bo_destroy,
          pan_kmod_bo_size, released, acquired, Event.acquires, Event.releases]

/-- Over a creation and the destruction of what it returned, the releases are
the acquisitions reversed, whether the creation succeeded or not. -/
theorem released_create_then_destroy (c : Consts) (k : CreateEnv) (dev : panvk_device)
    (size flags alloc scope alloc2 : Nat) (h_map : flags &&& c.PAN_KMOD_BO_FLAG_NO_MMAP = 0 → k.mmap ≠ 0) :
    released (panvk_priv_bo_create c k dev size flags alloc scope).2 ++
      released (panvk_priv_bo_destroy
        (panvk_priv_bo_create c k dev size flags alloc scope).1 alloc2) =
      (acquired c (panvk_priv_bo_create c k dev size flags alloc scope).2).reverse := by
  cases h : (panvk_priv_bo_create c k dev size flags alloc scope).1 with
  | none =>
    rw [released_create_of_none c k dev size flags alloc scope h_map h]
    simp [panvk_priv_bo_destroy, released]
  | some b =>
    rw [released_create_of_some c k dev size flags alloc scope b h,
      released_destroy_of_create c k dev size flags alloc scope alloc2 b h_map h]
    simp

/-- A destruction acquires nothing. -/
theorem acquired_destroy (c : Consts) (b : Option (Ref panvk_priv_bo)) (alloc : Nat) :
    acquired c (panvk_priv_bo_destroy b alloc) = [] := by
  cases b with
  | none => rfl
  | some r =>
    by_cases hd : r.obj.dev.decode_ctx = 0 <;> by_cases hh : r.obj.addr_host = 0 <;>
      simp [panvk_priv_bo_destroy, acquired, Event.acquires, hd, hh]


/-! ### Private buffer objects -/


/-- C1: when the tracking-struct allocation, the kernel BO allocation, the host
mmap (if requested) and the VM bind all succeed, `panvk_priv_bo_create` returns
a non-null BO whose `dev` is the given device, whose `bo` is the kernel BO just
allocated, whose `addr.dev` is the address the bind wrote back, and whose
`addr.host` is the mmap result without `PAN_KMOD_BO_FLAG_NO_MMAP` and null with
it. -/
theorem priv_bo_create_success (c : Consts) (k : CreateEnv) (dev : panvk_device)
    (size flags alloc scope : Nat) (bo : pan_kmod_bo)
    (h_struct : k.priv_bo ≠ 0) (h_bo : k.bo = some bo)
    (h_mmap : flags &&& c.PAN_KMOD_BO_FLAG_NO_MMAP = 0 → k.mmap ≠ c.MAP_FAILED)
    (h_bind : k.bind_ret = 0) :
    (panvk_priv_bo_create c k dev size flags alloc scope).1 =
      some ⟨k.priv_bo,
        { dev := dev, bo := bo, addr_dev := k.bind_va,
          addr_host := if flags &&& c.PAN_KMOD_BO_FLAG_NO_MMAP = 0 then k.mmap else 0 }⟩ := by
  unfold panvk_priv_bo_create
  simp only [h_bo, h_bind, if_neg h_struct]
  by_cases hf : flags &&& c.PAN_KMOD_BO_FLAG_NO_MMAP = 0
  · have := h_mmap hf
    simp [hf, this]
  · simp [hf]

/-- Witness for C1: a mappable BO of 4096 bytes bound at 0x2000000. -/
theorem priv_bo_create_success_witness :
    ((0x1000 : Nat) ≠ 0 ∧ (0 : Int) = 0) ∧
    (panvk_priv_bo_create mesa_consts ⟨0x1000, some ⟨1, 4096⟩, 0x7f0000, 0, 0x2000000⟩
        ⟨1, 2, 3, 0⟩ 4096 0 1 3).1 =
      some ⟨0x1000, { dev := ⟨1, 2, 3, 0⟩, bo := ⟨1, 4096⟩, addr_dev := 0x2000000,
                      addr_host := 0x7f0000 }⟩ :=
  ⟨by decide,
   priv_bo_create_success mesa_consts ⟨0x1000, some ⟨1, 4096⟩, 0x7f0000, 0, 0x2000000⟩
    ⟨1, 2, 3, 0⟩ 4096 0 1 3 ⟨1, 4096⟩ (by decide) rfl (by decide) rfl⟩

/-- C2: every failure point of `panvk_priv_bo_create` returns `NULL` after
releasing what was acquired, in reverse order: a failed struct allocation
releases nothing; a failed kernel allocation frees the struct; a failed mmap
puts the kernel BO and frees the struct, without munmap; a failed bind unmaps
the host mapping if one was made, puts the kernel BO and frees the struct.  In
every failing call the released resources are the acquired ones, reversed.
A successful mmap is taken not to return the null address. -/
theorem priv_bo_create_failure_unwinds (c : Consts) (k : CreateEnv) (dev : panvk_device)
    (size flags alloc scope : Nat)
    (h_map : flags &&& c.PAN_KMOD_BO_FLAG_NO_MMAP = 0 → k.mmap ≠ 0) :
    (k.priv_bo = 0 →
      panvk_priv_bo_create c k dev size flags alloc scope =
        (none, [Event.vk_zalloc2 alloc scope k.priv_bo])) ∧
    (k.priv_bo ≠ 0 → k.bo = none →
      panvk_priv_bo_create c k dev size flags alloc scope =
        (none, [Event.vk_zalloc2 alloc scope k.priv_bo,
                Event.pan_kmod_bo_alloc dev.kmod_dev dev.kmod_vm size flags none,
                Event.vk_free2 alloc k.priv_bo])) ∧
    (∀ bo, k.priv_bo ≠ 0 → k.bo = some bo →
      flags &&& c.PAN_KMOD_BO_FLAG_NO_MMAP = 0 → k.mmap = c.MAP_FAILED →
      panvk_priv_bo_create c k dev size flags alloc scope =
        (none, [Event.vk_zalloc2 alloc scope k.priv_bo,
                Event.pan_kmod_bo_alloc dev.kmod_dev dev.kmod_vm size flags (some bo),
                Event.pan_kmod_bo_mmap bo 0 bo.size c.MAP_FAILED,
                Event.pan_kmod_bo_put bo,
                Event.vk_free2 alloc k.priv_bo])) ∧
    (∀ bo, k.priv_bo ≠ 0 → k.bo = some bo →
      flags &&& c.PAN_KMOD_BO_FLAG_NO_MMAP = 0 → k.mmap ≠ c.MAP_FAILED → k.bind_ret ≠ 0 →
      panvk_priv_bo_create c k dev size flags alloc scope =
        (none, [Event.vk_zalloc2 alloc scope k.priv_bo,
                Event.pan_kmod_bo_alloc dev.kmod_dev dev.kmod_vm size flags (some bo),
                Event.pan_kmod_bo_mmap bo 0 bo.size k.mmap,
                Event.pan_kmod_vm_bind dev.kmod_vm .PAN_KMOD_VM_OP_MODE_IMMEDIATE
                  (create_op c bo) 1 k.bind_ret,
                Event.os_munmap k.mmap bo.size,
                Event.pan_kmod_bo_put bo,
                Event.vk_free2 alloc k.priv_bo])) ∧
    (∀ bo, k.priv_bo ≠ 0 → k.bo = some bo →
      flags &&& c.PAN_KMOD_BO_FLAG_NO_MMAP ≠ 0 → k.bind_ret ≠ 0 →
      panvk_priv_bo_create c k dev size flags alloc scope =
        (none, [Event.vk_zalloc2 alloc scope k.priv_bo,
                Event.pan_kmod_bo_alloc dev.kmod_dev dev.kmod_vm size flags (some bo),
                Event.pan_kmod_vm_bind dev.kmod_vm .PAN_KMOD_VM_OP_MODE_IMMEDIATE
                  (create_op c bo) 1 k.bind_ret,
                Event.pan_kmod_bo_put bo,
                Event.vk_free2 alloc k.priv_bo])) ∧
    ((panvk_priv_bo_create c k dev size flags alloc scope).1 = none →
      released (panvk_priv_bo_create c k dev size flags alloc scope).2 =
        (acquired c (panvk_priv_bo_create c k dev size flags alloc scope).2).reverse) := by
  refine ⟨?_, ?_, ?_, ?_, ?_, ?_⟩
  · intro h
    simp [panvk_priv_bo_create, h]
  · intro h hb
    simp [panvk_priv_bo_create, h, hb]
  · intro bo h hb hf hm
    simp [panvk_priv_bo_create, h, hb, hf, hm, pan_kmod_bo_size]
  · intro bo h hb hf hm hr
    simp [panvk_priv_bo_create, h, hb, hf, hm, hr, h_map hf, pan_kmod_bo_size]
  · intro bo h hb hf hr
    simp [panvk_priv_bo_create, h, hb, hf, hr]
  · exact released_create_of_none c k dev size flags alloc scope h_map

/-- Witness for C2: a mappable BO whose bind fails with -12. -/
theorem priv_bo_create_failure_unwinds_witness :
    (0x7f0000 : Nat) ≠ 0 ∧
    released (panvk_priv_bo_create mesa_consts ⟨0x1000, some ⟨1, 4096⟩, 0x7f0000, -12, 0⟩
        ⟨1, 2, 3, 0⟩ 4096 0 1 3).2 =
      [Resource.host_map 0x7f0000 4096, Resource.kernel_bo ⟨1, 4096⟩,
       Resource.memory 0x1000] :=
  ⟨by decide,
   ((priv_bo_create_failure_unwinds mesa_consts ⟨0x1000, some ⟨1, 4096⟩, 0x7f0000, -12, 0⟩
      ⟨1, 2, 3, 0⟩ 4096 0 1 3 (by decide)).2.2.2.2.2 (by decide)).trans (by decide)⟩

/-- C3: when a creation failed before or at the VM bind (struct allocation,
kernel allocation, mmap or the bind itself), what `panvk_priv_bo_create`
returned is `NULL`, and `panvk_priv_bo_destroy` of it makes no call at all: in
particular it issues no VM operation. -/
theorem priv_bo_destroy_of_failed_create (c : Consts) (k : CreateEnv) (dev : panvk_device)
    (size flags alloc scope alloc2 : Nat)
    (h : k.priv_bo = 0 ∨ k.bo = none ∨
      (flags &&& c.PAN_KMOD_BO_FLAG_NO_MMAP = 0 ∧ k.mmap = c.MAP_FAILED) ∨
      k.bind_ret ≠ 0) :
    (panvk_priv_bo_create c k dev size flags alloc scope).1 = none ∧
    panvk_priv_bo_destroy (panvk_priv_bo_create c k dev size flags alloc scope).1 alloc2 = [] ∧
    vm_binds (panvk_priv_bo_destroy
      (panvk_priv_bo_create c k dev size flags alloc scope).1 alloc2) = [] := by
  have hnone : (panvk_priv_bo_create c k dev size flags alloc scope).1 = none := by
    unfold panvk_priv_bo_create
    by_cases h0 : k.priv_bo = 0
    · simp [h0]
    · cases hb : k.bo with
      | none => simp [h0]
      | some bo =>
        by_cases hf : flags &&& c.PAN_KMOD_BO_FLAG_NO_MMAP = 0
        · by_cases hm : k.mmap = c.MAP_FAILED
          · simp [h0, hf, hm]
          · have hr : k.bind_ret ≠ 0 := by
              rcases h with h | h | h | h
              · exact absurd h h0
              · simp [hb] at h
              · exact absurd h.2 hm
              · exact h
            simp [h0, hf, hm, hr]
        · have hr : k.bind_ret ≠ 0 := by
            rcases h with h | h | h | h
            · exact absurd h h0
            · simp [hb] at h
            · exact absurd h.1 hf
            · exact h
          simp [h0, hf, hr]
  simp [hnone, panvk_priv_bo_destroy, vm_binds]

/-- Witness for C3: a creation whose bind fails with -12. -/
theorem priv_bo_destroy_of_failed_create_witness :
    ((-12 : Int) ≠ 0) ∧
    panvk_priv_bo_destroy (panvk_priv_bo_create mesa_consts
      ⟨0x1000, some ⟨1, 4096⟩, 0x7f0000, -12, 0⟩ ⟨1, 2, 3, 0⟩ 4096 0 1 3).1 1 = [] :=
  ⟨by decide,
   (priv_bo_destroy_of_failed_create mesa_consts ⟨0x1000, some ⟨1, 4096⟩, 0x7f0000, -12, 0⟩
      ⟨1, 2, 3, 0⟩ 4096 0 1 3 1 (Or.inr (Or.inr (Or.inr (by decide))))).2.1⟩


/-- C6: for a non-null BO, `panvk_priv_bo_destroy` issues exactly one VM
operation, immediate and of type UNMAP, over `addr.dev` and the size of the
kernel BO; apart from the call into the trace decoder its calls are, in order,
that unmap, an `os_munmap` of the same size exactly when `addr.host` is not
null, one put of the kernel BO and one free of the tracking struct.  For a
null BO it makes no call. -/
theorem priv_bo_destroy_sequence (r : Ref panvk_priv_bo) (alloc : Nat) :
    vm_binds (panvk_priv_bo_destroy (some r) alloc) =
      [(r.obj.dev.kmod_vm, pan_kmod_vm_op_mode.PAN_KMOD_VM_OP_MODE_IMMEDIATE,
        { type := pan_kmod_vm_op_type.PAN_KMOD_VM_OP_TYPE_UNMAP,
          va_start := r.obj.addr_dev, va_size := r.obj.bo.size,
          map_bo := none, map_bo_offset := 0 }, 1, 0)] ∧
    (panvk_priv_bo_destroy (some r) alloc).filter (fun e => !e.is_pandecode) =
      [Event.pan_kmod_vm_bind r.obj.dev.kmod_vm
        pan_kmod_vm_op_mode.PAN_KMOD_VM_OP_MODE_IMMEDIATE
        { type := pan_kmod_vm_op_type.PAN_KMOD_VM_OP_TYPE_UNMAP,
          va_start := r.obj.addr_dev, va_size := r.obj.bo.size,
          map_bo := none, map_bo_offset := 0 } 1 0] ++
      (if r.obj.addr_host ≠ 0 then [Event.os_munmap r.obj.addr_host r.obj.bo.size]
        else []) ++
      [Event.pan_kmod_bo_put r.obj.bo, Event.vk_free2 alloc r.ptr] ∧
    panvk_priv_bo_destroy none alloc = [] := by
  refine ⟨?_, ?_, rfl⟩
  · by_cases hd : r.obj.dev.decode_ctx = 0 <;> by_cases hh : r.obj.addr_host = 0 <;>
      simp [panvk_priv_bo_destroy, vm_binds, destroy_op, pan_kmod_bo_size, hd, hh]
  · by_cases hd : r.obj.dev.decode_ctx = 0 <;> by_cases hh : r.obj.addr_host = 0 <;>
      simp [panvk_priv_bo_destroy, destroy_op, pan_kmod_bo_size, hd, hh,
        Event.is_pandecode]

/-- C9: a successful `panvk_priv_bo_create` followed by `panvk_priv_bo_destroy`
of the BO it returned undoes what was done: the UNMAP operation covers the
start the MAP operation wrote back and the size the MAP operation carried, the
munmaps are the mmaps (same address, same length), and what destroy releases
is what create acquired, reversed.  The BO value passes unchanged from one
call to the other; a successful mmap is taken not to return the null
address. -/
theorem priv_bo_create_destroy_undo (c : Consts) (k : CreateEnv) (dev : panvk_device)
    (size flags alloc scope alloc2 : Nat) (b : Ref panvk_priv_bo)
    (h_map : flags &&& c.PAN_KMOD_BO_FLAG_NO_MMAP = 0 → k.mmap ≠ 0)
    (h : (panvk_priv_bo_create c k dev size flags alloc scope).1 = some b) :
    ∃ bo, k.bo = some bo ∧ b.obj.addr_dev = k.bind_va ∧
      vm_binds (panvk_priv_bo_create c k dev size flags alloc scope).2 =
        [(dev.kmod_vm, pan_kmod_vm_op_mode.PAN_KMOD_VM_OP_MODE_IMMEDIATE,
          create_op c bo, 1, 0)] ∧
      vm_binds (panvk_priv_bo_destroy (some b) alloc2) =
        [(dev.kmod_vm, pan_kmod_vm_op_mode.PAN_KMOD_VM_OP_MODE_IMMEDIATE,
          { type := pan_kmod_vm_op_type.PAN_KMOD_VM_OP_TYPE_UNMAP,
            va_start := k.bind_va, va_size := (create_op c bo).va_size,
            map_bo := none, map_bo_offset := 0 }, 1, 0)] ∧
      host_munmaps (panvk_priv_bo_destroy (some b) alloc2) =
        host_mmaps c (panvk_priv_bo_create c k dev size flags alloc scope).2 ∧
      released (panvk_priv_bo_destroy (some b) alloc2) =
        (acquired c (panvk_priv_bo_create c k dev size flags alloc scope).2).reverse := by
  rcases create_cases c k flags with h0 | ⟨h0, hb⟩ | ⟨bo, h0, hb, hf, hm⟩ |
      ⟨bo, h0, hb, hm, hr⟩ | ⟨bo, h0, hb, hm, hr⟩
  · rw [create_eq_of_struct_fail c k dev size flags alloc scope h0] at h
    simp at h
  · rw [create_eq_of_bo_fail c k dev size flags alloc scope h0 hb] at h
    simp at h
  · rw [create_eq_of_mmap_fail c k dev size flags alloc scope bo h0 hb hf hm] at h
    simp at h
  · rw [create_eq_of_bind_fail c k dev size flags alloc scope bo h0 hb hm hr] at h
    simp at h
  · rw [create_eq_of_success c k dev size flags alloc scope bo h0 hb hm hr] at h ⊢
    simp only [Option.some.injEq] at h
    subst h
    refine ⟨bo, hb, rfl, ?_⟩
    by_cases hf : flags &&& c.PAN_KMOD_BO_FLAG_NO_MMAP = 0
    · have hm2 := hm hf
      by_cases hd : dev.decode_ctx = 0 <;>
        simp [create_upto_bind, hf, hm2, hr, hd, h_map hf, h0, panvk_priv_bo_destroy, vm_binds,
          destroy_op, create_op, pan_kmod_bo_size, host_munmaps, host_mmaps,
          released, acquired, Event.acquires, Event.releases]
    · by_cases hd : dev.decode_ctx = 0 <;>
        simp [create_upto_bind, hf, hr, hd, h0, panvk_priv_bo_destroy, vm_binds,
          destroy_op, create_op, pan_kmod_bo_size, host_munmaps, host_mmaps,
          released, acquired, Event.acquires, Event.releases]

/-- Witness for C9: a mappable BO of 4096 bytes bound at 0x2000000. -/
theorem priv_bo_create_destroy_undo_witness :
    (0x7f0000 : Nat) ≠ 0 ∧
    ∃ bo, (some ⟨1, 4096⟩ : Option pan_kmod_bo) = some bo ∧ (0x2000000 : Nat) = 0x2000000 ∧
      vm_binds (panvk_priv_bo_create mesa_consts
          ⟨0x1000, some ⟨1, 4096⟩, 0x7f0000, 0, 0x2000000⟩ ⟨1, 2, 3, 0⟩ 4096 0 1 3).2 =
        [(2, pan_kmod_vm_op_mode.PAN_KMOD_VM_OP_MODE_IMMEDIATE,
          create_op mesa_consts bo, 1, 0)] ∧
      vm_binds (panvk_priv_bo_destroy (some
          ⟨0x1000, ⟨⟨1, 2, 3, 0⟩, ⟨1, 4096⟩, 0x2000000, 0x7f0000⟩⟩) 1) =
        [(2, pan_kmod_vm_op_mode.PAN_KMOD_VM_OP_MODE_IMMEDIATE,
          { type := pan_kmod_vm_op_type.PAN_KMOD_VM_OP_TYPE_UNMAP,
            va_start := 0x2000000, va_size := (create_op mesa_consts bo).va_size,
            map_bo := none, map_bo_offset := 0 }, 1, 0)] ∧
      host_munmaps (panvk_priv_bo_destroy (some
          ⟨0x1000, ⟨⟨1, 2, 3, 0⟩, ⟨1, 4096⟩, 0x2000000, 0x7f0000⟩⟩) 1) =
        host_mmaps mesa_consts (panvk_priv_bo_create mesa_consts
          ⟨0x1000, some ⟨1, 4096⟩, 0x7f0000, 0, 0x2000000⟩ ⟨1, 2, 3, 0⟩ 4096 0 1 3).2 ∧
      released (panvk_priv_bo_destroy (some
          ⟨0x1000, ⟨⟨1, 2, 3, 0⟩, ⟨1, 4096⟩, 0x2000000, 0x7f0000⟩⟩) 1) =
        (acquired mesa_consts (panvk_priv_bo_create mesa_consts
          ⟨0x1000, some ⟨1, 4096⟩, 0x7f0000, 0, 0x2000000⟩ ⟨1, 2, 3, 0⟩ 4096 0 1 3).2).reverse :=
  ⟨by decide,
   priv_bo_create_destroy_undo mesa_consts ⟨0x1000, some ⟨1, 4096⟩, 0x7f0000, 0, 0x2000000⟩
     ⟨1, 2, 3, 0⟩ 4096 0 1 3 1 _ (by decide) rfl⟩

/-- C10: once the struct, the kernel BO and the host mapping (if requested)
are there, `panvk_priv_bo_create` issues exactly one VM bind: in immediate
mode, one operation, of type MAP, with the start `PAN_KMOD_VM_MAP_AUTO_VA`,
the size of the kernel BO (whatever the requested size), the BO just
allocated as backing and offset 0; when the bind returns non-zero the create
returns `NULL`. -/
theorem priv_bo_create_bind_op (c : Consts) (k : CreateEnv) (dev : panvk_device)
    (size flags alloc scope : Nat) (bo : pan_kmod_bo)
    (h_struct : k.priv_bo ≠ 0) (h_bo : k.bo = some bo)
    (h_mmap : flags &&& c.PAN_KMOD_BO_FLAG_NO_MMAP = 0 → k.mmap ≠ c.MAP_FAILED) :
    vm_binds (panvk_priv_bo_create c k dev size flags alloc scope).2 =
      [(dev.kmod_vm, pan_kmod_vm_op_mode.PAN_KMOD_VM_OP_MODE_IMMEDIATE,
        { type := pan_kmod_vm_op_type.PAN_KMOD_VM_OP_TYPE_MAP,
          va_start := c.PAN_KMOD_VM_MAP_AUTO_VA, va_size := bo.size,
          map_bo := some bo, map_bo_offset := 0 }, 1, k.bind_ret)] ∧
    (k.bind_ret ≠ 0 → (panvk_priv_bo_create c k dev size flags alloc scope).1 = none) := by
  by_cases hr : k.bind_ret = 0
  · rw [create_eq_of_success c k dev size flags alloc scope bo h_struct h_bo h_mmap hr]
    refine ⟨?_, fun h => absurd hr h⟩
    by_cases hf : flags &&& c.PAN_KMOD_BO_FLAG_NO_MMAP = 0 <;>
      by_cases hd : dev.decode_ctx = 0 <;>
      simp [create_upto_bind, hf, hd, vm_binds, create_op, pan_kmod_bo_size]
  · rw [create_eq_of_bind_fail c k dev size flags alloc scope bo h_struct h_bo h_mmap hr]
    refine ⟨?_, fun _ => rfl⟩
    by_cases hf : flags &&& c.PAN_KMOD_BO_FLAG_NO_MMAP = 0 <;>
      by_cases hz : k.mmap = 0 <;>
      simp [create_upto_bind, hf, hz, vm_binds, create_op, pan_kmod_bo_size]

/-- Witness for C10: a 4096-byte request served by a kernel BO of 8192 bytes
whose bind fails with -12. -/
theorem priv_bo_create_bind_op_witness :
    ((0x1000 : Nat) ≠ 0) ∧
    vm_binds (panvk_priv_bo_create mesa_consts ⟨0x1000, some ⟨1, 8192⟩, 0x7f0000, -12, 0⟩
        ⟨1, 2, 3, 0⟩ 4096 0 1 3).2 =
      [(2, pan_kmod_vm_op_mode.PAN_KMOD_VM_OP_MODE_IMMEDIATE,
        { type := pan_kmod_vm_op_type.PAN_KMOD_VM_OP_TYPE_MAP,
          va_start := 2 ^ 64 - 1, va_size := 8192,
          map_bo := some ⟨1, 8192⟩, map_bo_offset := 0 }, 1, -12)] :=
  ⟨by decide,
   (priv_bo_create_bind_op mesa_consts ⟨0x1000, some ⟨1, 8192⟩, 0x7f0000, -12, 0⟩
      ⟨1, 2, 3, 0⟩ 4096 0 1 3 ⟨1, 8192⟩ (by decide) rfl (by decide)).1⟩

/-! ### The architecture switch -/

theorem arch_switch_of_supported (arch : Nat) (h : arch = 6 ∨ arch = 7) :
    arch_switch arch =
      some { dev_entrypoints := arch, cmd_buffer_ops := arch, qinit := arch } := by
  rcases h with rfl | rfl <;> rfl

theorem arch_switch_of_unsupported (arch : Nat) (h : arch ≠ 6 ∧ arch ≠ 7) :
    arch_switch arch = none := by
  simp [arch_switch, h.1, h.2]

/-! ### Device creation: the VA range -/

theorem vm_creates_append (t u : List Event) :
    vm_creates (t ++ u) = vm_creates t ++ vm_creates u := by
  simp [vm_creates, List.filterMap_append]

theorem vm_creates_priv_bo_create (c : Consts) (k : CreateEnv) (dev : panvk_device)
    (size flags alloc scope : Nat) :
    vm_creates (panvk_priv_bo_create c k dev size flags alloc scope).2 = [] := by
  rcases create_cases c k flags with h0 | ⟨h0, hb⟩ | ⟨bo, h0, hb, hf, hm⟩ |
      ⟨bo, h0, hb, hm, hr⟩ | ⟨bo, h0, hb, hm, hr⟩
  · rw [create_eq_of_struct_fail c k dev size flags alloc scope h0]
    simp [vm_creates]
  · rw [create_eq_of_bo_fail c k dev size flags alloc scope h0 hb]
    simp [vm_creates]
  · rw [create_eq_of_mmap_fail c k dev size flags alloc scope bo h0 hb hf hm]
    simp [vm_creates]
  · rw [create_eq_of_bind_fail c k dev size flags alloc scope bo h0 hb hm hr]
    by_cases hf : flags &&& c.PAN_KMOD_BO_FLAG_NO_MMAP = 0 <;>
      by_cases hz : k.mmap = 0 <;> simp [vm_creates, create_upto_bind, hf, hz]
  · rw [create_eq_of_success c k dev size flags alloc scope bo h0 hb hm hr]
    by_cases hf : flags &&& c.PAN_KMOD_BO_FLAG_NO_MMAP = 0 <;>
      by_cases hd : dev.decode_ctx = 0 <;> simp [vm_creates, create_upto_bind, hf, hd]

theorem vm_creates_tiler_heap_create (c : Consts) (k : DeviceEnv) (debug_flags : Nat) :
    vm_creates (tiler_heap_create c k debug_flags).2 = [] :=
  vm_creates_priv_bo_create _ _ _ _ _ _ _

theorem vm_creates_sample_positions_create (c : Consts) (k : DeviceEnv) (debug_flags : Nat) :
    vm_creates (sample_positions_create c k debug_flags).2 = [] :=
  vm_creates_priv_bo_create _ _ _ _ _ _ _

theorem vm_creates_priv_bo_destroy (b : Option (Ref panvk_priv_bo)) (alloc : Nat) :
    vm_creates (panvk_priv_bo_destroy b alloc) = [] := by
  cases b with
  | none => rfl
  | some r =>
    by_cases hd : r.obj.dev.decode_ctx = 0 <;> by_cases hh : r.obj.addr_host = 0 <;>
      simp [panvk_priv_bo_destroy, vm_creates, hd, hh]

theorem vm_creates_qinit_loop (k : DeviceEnv) (arch i qfi n q : Nat) :
    vm_creates (qinit_loop k arch i qfi n q).2 = [] := by
  induction n generalizing q with
  | zero => rfl
  | succ n ih =>
    unfold qinit_loop
    by_cases hr : k.qinit i q = VK_SUCCESS
    · have := ih (q + 1)
      simp [hr, vm_creates] at this ⊢
      exact this
    · simp [hr, vm_creates]

theorem vm_creates_queue_loop (k : DeviceEnv) (arch : Nat)
    (infos : List VkDeviceQueueCreateInfo) (i : Nat) (qa : QueueArrays) :
    vm_creates (queue_loop k arch infos i qa).2.2 = [] := by
  induction infos generalizing i qa with
  | nil => rfl
  | cons info rest ih =>
    unfold queue_loop
    have hq := vm_creates_qinit_loop k arch i info.queueFamilyIndex info.queueCount 0
    by_cases hb : PANVK_MAX_QUEUE_FAMILIES ≤ info.queueFamilyIndex
    · simp [hb, vm_creates]
    · by_cases hz : k.queues i = 0
      · simp [hb, hz, vm_creates]
      · by_cases hr : (qinit_loop k arch i info.queueFamilyIndex info.queueCount 0).1
            = VK_SUCCESS
        · simp only [hb, hz, hr, if_false, ne_eq, not_true_eq_false]
          rw [List.cons_append, ← List.singleton_append, vm_creates_append,
            vm_creates_append, hq, ih]
          simp [vm_creates]
        · simp only [hb, hz, hr, if_false, ne_eq, not_false_eq_true, if_true]
          rw [← List.singleton_append, vm_creates_append, hq]
          simp [vm_creates]

theorem vm_creates_finish_queues (qa : QueueArrays) : vm_creates (finish_queues qa) = [] := by
  unfold finish_queues vm_creates
  rw [List.filterMap_eq_nil_iff]
  intro e he
  simp only [List.mem_flatMap, List.mem_range, List.mem_append, List.mem_map] at he
  obtain ⟨i, _, he | he⟩ := he
  · obtain ⟨q, _, rfl⟩ := he
    rfl
  · split_ifs at he
    · simp at he
      subst he
      rfl
    · simp at he

theorem vm_creates_fail_path (arch : Nat) (d : Device) : vm_creates (fail_path arch d) = [] := by
  unfold fail_path
  simp only [vm_creates_append, vm_creates_finish_queues, vm_creates_priv_bo_destroy]
  simp [vm_creates]

theorem vm_creates_setup (c : Consts) (k : DeviceEnv) (debug_flags pAllocator : Nat) :
    vm_creates (create_device_setup c k debug_flags pAllocator) =
      [(user_va_start k.user_va_range,
        u64_sub (user_va_end k.user_va_range) (user_va_start k.user_va_range))] := by
  by_cases ht : debug_flags &&& PANVK_DEBUG_TRACE = 0 <;>
    simp [create_device_setup, ht, vm_creates]

/-- Once `vk_device_init` has succeeded, `panvk_CreateDevice` creates exactly
one VM, whatever happens afterwards. -/
theorem vm_creates_create_device (c : Consts) (k : DeviceEnv) (arch debug_flags : Nat)
    (infos : List VkDeviceQueueCreateInfo) (pAllocator : Nat)
    (h_dev : k.device ≠ 0) (h_arch : arch = 6 ∨ arch = 7)
    (h_init : k.vk_device_init = VK_SUCCESS) :
    vm_creates (panvk_CreateDevice c k arch debug_flags infos pAllocator).2 =
      [(user_va_start k.user_va_range,
        u64_sub (user_va_end k.user_va_range) (user_va_start k.user_va_range))] := by
  unfold panvk_CreateDevice
  simp only [if_neg h_dev, arch_switch_of_supported arch h_arch, h_init, ne_eq,
    not_true_eq_false, if_false]
  cases hsp : (sample_positions_create c k debug_flags).1 with
  | none =>
    simp only [vm_creates_append, vm_creates_tiler_heap_create,
      vm_creates_sample_positions_create, vm_creates_setup, List.append_nil]
  | some s =>
    simp only []
    cases hql : (queue_loop k arch infos 0 queue_arrays_zero).1 with
    | done =>
      simp only [vm_creates_append, vm_creates_tiler_heap_create,
        vm_creates_sample_positions_create, vm_creates_queue_loop, vm_creates_setup]
      simp [vm_creates]
    | out_of_bounds =>
      simp only [vm_creates_append, vm_creates_tiler_heap_create,
        vm_creates_sample_positions_create, vm_creates_queue_loop, vm_creates_setup]
      simp [vm_creates]
    | fail result =>
      simp only [vm_creates_append, vm_creates_tiler_heap_create,
        vm_creates_sample_positions_create, vm_creates_queue_loop, vm_creates_setup,
        vm_creates_fail_path]
      simp [vm_creates]

/-- The clamp is monotone. -/
theorem clamp_mono (r : pan_kmod_va_range) (a b : Nat) (h : a ≤ b) :
    panfrost_clamp_to_usable_va_range r a ≤ panfrost_clamp_to_usable_va_range r b := by
  unfold panfrost_clamp_to_usable_va_range
  split_ifs <;> omega

/-- C8: the VM `panvk_CreateDevice` creates starts at the clamp of 32 MiB and
has the size clamp(2^32) - clamp(32 MiB), a subtraction of 64-bit values that
does not wrap; no address below 0x2000000 lies in the range
[start, start + size) it covers.  The usable VA range of the kmod device is
taken to end within the 64-bit address space. -/
theorem create_device_vm_range (c : Consts) (k : DeviceEnv) (arch debug_flags : Nat)
    (infos : List VkDeviceQueueCreateInfo) (pAllocator : Nat)
    (h_range : k.user_va_range.start + k.user_va_range.size < 2 ^ 64)
    (h_dev : k.device ≠ 0) (h_arch : arch = 6 ∨ arch = 7)
    (h_init : k.vk_device_init = VK_SUCCESS) :
    vm_creates (panvk_CreateDevice c k arch debug_flags infos pAllocator).2 =
      [(panfrost_clamp_to_usable_va_range k.user_va_range 0x2000000,
        panfrost_clamp_to_usable_va_range k.user_va_range (2 ^ 32) -
          panfrost_clamp_to_usable_va_range k.user_va_range 0x2000000)] ∧
    panfrost_clamp_to_usable_va_range k.user_va_range 0x2000000 ≤
      panfrost_clamp_to_usable_va_range k.user_va_range (2 ^ 32) ∧
    ∀ a, panfrost_clamp_to_usable_va_range k.user_va_range 0x2000000 ≤ a →
      a < panfrost_clamp_to_usable_va_range k.user_va_range 0x2000000 +
        (panfrost_clamp_to_usable_va_range k.user_va_range (2 ^ 32) -
          panfrost_clamp_to_usable_va_range k.user_va_range 0x2000000) →
      0x2000000 ≤ a := by
  have hmono : panfrost_clamp_to_usable_va_range k.user_va_range 0x2000000 ≤
      panfrost_clamp_to_usable_va_range k.user_va_range (2 ^ 32) :=
    clamp_mono _ _ _ (by norm_num)
  have h32 : (1 <<< 32 : Nat) = 2 ^ 32 := by decide
  have hsub : u64_sub (user_va_end k.user_va_range) (user_va_start k.user_va_range) =
      panfrost_clamp_to_usable_va_range k.user_va_range (2 ^ 32) -
        panfrost_clamp_to_usable_va_range k.user_va_range 0x2000000 := by
    have he : panfrost_clamp_to_usable_va_range k.user_va_range (2 ^ 32) < 2 ^ 64 := by
      unfold panfrost_clamp_to_usable_va_range
      split_ifs <;> omega
    unfold u64_sub user_va_end user_va_start PANVK_VA_RESERVE_BOTTOM
    rw [h32]
    omega
  refine ⟨?_, hmono, ?_⟩
  · rw [vm_creates_create_device c k arch debug_flags infos pAllocator h_dev h_arch h_init,
      hsub]
    rfl
  · intro a ha hlt
    have : a < panfrost_clamp_to_usable_va_range k.user_va_range (2 ^ 32) := by omega
    unfold panfrost_clamp_to_usable_va_range at ha this
    split_ifs at ha this <;> omega

/-- Witness for C8: a usable VA range of 4 GiB from address 0 gives the VM
the range from 32 MiB up to 4 GiB. -/
theorem create_device_vm_range_witness :
    ((0 : Nat) + 2 ^ 32 < 2 ^ 64 ∧ (0x10000 : Nat) ≠ 0) ∧
    vm_creates (panvk_CreateDevice mesa_consts env_ok 7 0 [⟨0, 1⟩] 0).2 =
      [(0x2000000, 2 ^ 32 - 0x2000000)] :=
  ⟨by decide,
   (create_device_vm_range mesa_consts env_ok 7 0 [⟨0, 1⟩] 0 (by decide) (by decide)
      (Or.inr rfl) rfl).1.trans (by decide)⟩

/-! ### Device creation: failures -/

/-- C4, evaluated: with a tiler heap whose VM bind fails, `panvk_CreateDevice`
goes on, returns `VK_SUCCESS` and writes a device whose `tiler_heap` is null;
with a sample-positions buffer whose VM bind fails it dereferences the null
`sample_positions`.  Neither takes the `fail` label: no teardown call is
made. -/
theorem create_device_ignores_bo_failure :
    (∃ d, (panvk_CreateDevice mesa_consts env_tiler_bind_fails 7 0 [⟨0, 1⟩] 0).1 =
        Outcome.returned VK_SUCCESS (some d) ∧ d.tiler_heap = none) ∧
    (panvk_CreateDevice mesa_consts env_samples_bind_fail 7 0 [⟨0, 1⟩] 0).1 =
      Outcome.null_deref ∧
    Event.pan_kmod_vm_destroy 0x40000 ∉
      (panvk_CreateDevice mesa_consts env_tiler_bind_fails 7 0 [⟨0, 1⟩] 0).2 ∧
    Event.pan_kmod_vm_destroy 0x40000 ∉
      (panvk_CreateDevice mesa_consts env_samples_bind_fail 7 0 [⟨0, 1⟩] 0).2 := by
  refine ⟨⟨_, rfl, rfl⟩, rfl, ?_, ?_⟩ <;> decide

/-- With one queue family, the queue part of the fail label is one run of
`panvk_queue_finish` and at most one `vk_object_free`. -/
theorem finish_queues_eq (qa : QueueArrays) :
    finish_queues qa =
      (List.range (qa.queue_count.getD 0 0)).map (fun q => Event.panvk_queue_finish 0 q) ++
      (if qa.queue_count.getD 0 0 ≠ 0 then [Event.vk_object_free (qa.queues.getD 0 0)]
        else []) := by
  simp [finish_queues, PANVK_MAX_QUEUE_FAMILIES, List.range_succ]

theorem released_finish_queues (qa : QueueArrays) :
    released (finish_queues qa) =
      (List.range (qa.queue_count.getD 0 0)).map (Resource.queue 0) ++
      (if qa.queue_count.getD 0 0 ≠ 0 then [Resource.memory (qa.queues.getD 0 0)]
        else []) := by
  rw [finish_queues_eq, released_append]
  congr 1
  · generalize List.range (qa.queue_count.getD 0 0) = l
    induction l with
    | nil => rfl
    | cons a l ih =>
      simp only [List.map_cons, released, List.filterMap_cons, Event.releases] at ih ⊢
      rw [ih]
  · split_ifs <;> simp [released, Event.releases]

theorem acquired_finish_queues (c : Consts) (qa : QueueArrays) :
    acquired c (finish_queues qa) = [] := by
  rw [finish_queues_eq, acquired_append]
  have h1 : acquired c ((List.range (qa.queue_count.getD 0 0)).map
      (fun q => Event.panvk_queue_finish 0 q)) = [] := by
    simp [acquired, List.filterMap_map, Function.comp_def, Event.acquires]
  rw [h1]
  split_ifs <;> simp [acquired, Event.acquires]

/-- With one queue family, create infos with distinct families are at most
one create info, for family 0. -/
theorem distinct_queue_families_cases (infos : List VkDeviceQueueCreateInfo)
    (h : distinct_queue_families infos) :
    infos = [] ∨ ∃ info, infos = [info] ∧ info.queueFamilyIndex = 0 := by
  obtain ⟨hnd, hall⟩ := h
  match infos, hnd, hall with
  | [], _, _ => exact Or.inl rfl
  | [info], _, hall =>
    have := hall info (List.mem_singleton.mpr rfl)
    unfold PANVK_MAX_QUEUE_FAMILIES at this
    exact Or.inr ⟨info, rfl, by omega⟩
  | a :: b :: rest, hnd, hall =>
    have ha := hall a (by simp)
    have hb := hall b (by simp)
    unfold PANVK_MAX_QUEUE_FAMILIES at ha hb
    have : a.queueFamilyIndex = b.queueFamilyIndex := by omega
    simp [this] at hnd

/-- The queue inits release nothing, and the resources they acquire are
queues of the family with indices in the range of the loop. -/
theorem qinit_loop_resources (c : Consts) (k : DeviceEnv) (arch i qfi n q0 : Nat) :
    released (qinit_loop k arch i qfi n q0).2 = [] ∧
    ∀ r ∈ acquired c (qinit_loop k arch i qfi n q0).2,
      ∃ q, q0 ≤ q ∧ q < q0 + n ∧ r = Resource.queue qfi q := by
  induction n generalizing q0 with
  | zero => simp [qinit_loop, released, acquired]
  | succ n ih =>
    unfold qinit_loop
    by_cases hr : k.qinit i q0 = VK_SUCCESS
    · obtain ⟨h1, h2⟩ := ih (q0 + 1)
      simp only [hr, ne_eq, not_true_eq_false, if_false]
      constructor
      · rw [← List.singleton_append, released_append, h1]
        simp [released, Event.releases]
      · intro r hmem
        rw [← List.singleton_append, acquired_append] at hmem
        rcases List.mem_append.mp hmem with hm | hm
        · simp [acquired, Event.acquires] at hm
          exact ⟨q0, le_refl _, by omega, hm⟩
        · obtain ⟨q, hq1, hq2, rfl⟩ := h2 r hm
          exact ⟨q, by omega, by omega, rfl⟩
    · simp [hr, released, acquired, Event.releases, Event.acquires]

theorem released_setup (c : Consts) (k : DeviceEnv) (debug_flags pAllocator : Nat) :
    released (create_device_setup c k debug_flags pAllocator) = [] := by
  by_cases ht : debug_flags &&& PANVK_DEBUG_TRACE = 0 <;>
    simp [create_device_setup, ht, released, Event.releases]

theorem acquired_setup (c : Consts) (k : DeviceEnv) (debug_flags pAllocator : Nat)
    (h_dev : k.device ≠ 0) :
    acquired c (create_device_setup c k debug_flags pAllocator) =
      [Resource.memory k.device, Resource.kmod_dev k.kmod_dev] ++
      (if debug_flags &&& PANVK_DEBUG_TRACE ≠ 0 then [Resource.decode_ctx k.decode_ctx]
        else []) ++
      [Resource.kmod_vm k.kmod_vm] := by
  by_cases ht : debug_flags &&& PANVK_DEBUG_TRACE = 0 <;>
    simp [create_device_setup, ht, acquired, Event.acquires, h_dev]

/-- The queue loop over one create info of family 0. -/
theorem queue_loop_single (k : DeviceEnv) (arch : Nat) (info : VkDeviceQueueCreateInfo)
    (h0 : info.queueFamilyIndex = 0) :
    queue_loop k arch [info] 0 queue_arrays_zero =
      if k.queues 0 = 0 then
        (.fail VK_ERROR_OUT_OF_HOST_MEMORY, ⟨[0], [0]⟩, [Event.vk_alloc info.queueCount 0])
      else if (qinit_loop k arch 0 0 info.queueCount 0).1 ≠ VK_SUCCESS then
        (.fail (qinit_loop k arch 0 0 info.queueCount 0).1,
          ⟨[k.queues 0], [info.queueCount]⟩,
          Event.vk_alloc info.queueCount (k.queues 0) ::
            (qinit_loop k arch 0 0 info.queueCount 0).2)
      else
        (.done, ⟨[k.queues 0], [info.queueCount]⟩,
          Event.vk_alloc info.queueCount (k.queues 0) ::
            (qinit_loop k arch 0 0 info.queueCount 0).2) := by
  unfold queue_loop
  simp only [h0, PANVK_MAX_QUEUE_FAMILIES, queue_arrays_zero]
  by_cases hz : k.queues 0 = 0
  · simp [hz]
  · by_cases hr : (qinit_loop k arch 0 0 info.queueCount 0).1 = VK_SUCCESS
    · simp [hz, hr, queue_loop]
    · simp [hz, hr]

/-- How `panvk_CreateDevice` goes once `vk_device_init` has succeeded and the
sample-positions buffer exists. -/
theorem create_device_eq_of_sample_positions (c : Consts) (k : DeviceEnv)
    (arch debug_flags : Nat) (infos : List VkDeviceQueueCreateInfo) (pAllocator : Nat)
    (s : Ref panvk_priv_bo)
    (h_dev : k.device ≠ 0) (h_arch : arch = 6 ∨ arch = 7)
    (h_init : k.vk_device_init = VK_SUCCESS)
    (h_sp : (sample_positions_create c k debug_flags).1 = some s) :
    panvk_CreateDevice c k arch debug_flags infos pAllocator =
      (match (queue_loop k arch infos 0 queue_arrays_zero).1 with
        | .out_of_bounds => Outcome.out_of_bounds
        | .done => Outcome.returned VK_SUCCESS (some
            { ptr := k.device, core := device_core k debug_flags, dev_entrypoints := arch,
              cmd_buffer_ops := arch, qinit := arch,
              tiler_heap := (tiler_heap_create c k debug_flags).1,
              sample_positions := some s,
              qa := (queue_loop k arch infos 0 queue_arrays_zero).2.1 })
        | .fail result => Outcome.returned result none,
       create_device_setup c k debug_flags pAllocator ++
        (tiler_heap_create c k debug_flags).2 ++
        (sample_positions_create c k debug_flags).2 ++
        [Event.panfrost_upload_sample_positions s.obj.addr_host,
          Event.vk_device_set_drm_fd k.kmod_dev, Event.meta_init arch] ++
        (queue_loop k arch infos 0 queue_arrays_zero).2.2 ++
        (match (queue_loop k arch infos 0 queue_arrays_zero).1 with
          | .fail _ => fail_path arch
            { ptr := k.device, core := device_core k debug_flags, dev_entrypoints := arch,
              cmd_buffer_ops := arch, qinit := arch,
              tiler_heap := (tiler_heap_create c k debug_flags).1,
              sample_positions := some s,
              qa := (queue_loop k arch infos 0 queue_arrays_zero).2.1 }
          | _ => [])) := by
  unfold panvk_CreateDevice
  simp only [if_neg h_dev, arch_switch_of_supported arch h_arch, h_init, ne_eq,
    not_true_eq_false, if_false, h_sp]
  cases (queue_loop k arch infos 0 queue_arrays_zero).1 <;> simp

/-- What the trace of the fail label releases, for the queue arrays and the
queue-loop trace the label is reached with. -/
theorem released_fail_trace (c : Consts) (k : DeviceEnv) (arch debug_flags pAllocator : Nat)
    (s : Ref panvk_priv_bo) (qa : QueueArrays) (tq : List Event)
    (h_sp_map : k.sample_positions.mmap ≠ 0)
    (h_sp : (sample_positions_create c k debug_flags).1 = some s)
    (h_tq : released tq = []) :
    released (create_device_setup c k debug_flags pAllocator ++
        (tiler_heap_create c k debug_flags).2 ++
        (sample_positions_create c k debug_flags).2 ++
        [Event.panfrost_upload_sample_positions s.obj.addr_host,
          Event.vk_device_set_drm_fd k.kmod_dev, Event.meta_init arch] ++
        tq ++
        fail_path arch
          { ptr := k.device, core := device_core k debug_flags, dev_entrypoints := arch,
            cmd_buffer_ops := arch, qinit := arch,
            tiler_heap := (tiler_heap_create c k debug_flags).1,
            sample_positions := some s, qa := qa }) =
      released (tiler_heap_create c k debug_flags).2 ++
        released (finish_queues qa) ++
        [Resource.meta_state arch] ++
        released (panvk_priv_bo_destroy (tiler_heap_create c k debug_flags).1 k.device) ++
        (acquired c (sample_positions_create c k debug_flags).2).reverse ++
        [Resource.kmod_vm k.kmod_vm, Resource.kmod_dev k.kmod_dev,
          Resource.memory k.device] := by
  have h_sp_rel : released (sample_positions_create c k debug_flags).2 = [] :=
    released_create_of_some _ _ _ _ _ _ _ s h_sp
  have h_sp_des : released (panvk_priv_bo_destroy (some s) k.device) =
      (acquired c (sample_positions_create c k debug_flags).2).reverse :=
    released_destroy_of_create _ _ _ _ _ _ _ _ s (fun _ => h_sp_map) h_sp
  have h3 : released [Event.panfrost_upload_sample_positions s.obj.addr_host,
      Event.vk_device_set_drm_fd k.kmod_dev, Event.meta_init arch] = [] := rfl
  have h1 : released [Event.meta_cleanup arch] = [Resource.meta_state arch] := rfl
  have h2 : released [Event.pan_kmod_vm_destroy k.kmod_vm,
      Event.pan_kmod_dev_destroy k.kmod_dev, Event.vk_free k.device] =
      [Resource.kmod_vm k.kmod_vm, Resource.kmod_dev k.kmod_dev,
        Resource.memory k.device] := rfl
  unfold fail_path
  show released (_ ++ _ ++ _ ++ _ ++ _ ++ (finish_queues qa ++ [Event.meta_cleanup arch] ++
    panvk_priv_bo_destroy (tiler_heap_create c k debug_flags).1 k.device ++
    panvk_priv_bo_destroy (some s) k.device ++
    [Event.pan_kmod_vm_destroy k.kmod_vm, Event.pan_kmod_dev_destroy k.kmod_dev,
      Event.vk_free k.device])) = _
  simp only [released_append, released_setup, h_sp_rel, h3, h_tq, h1, h2, h_sp_des,
    List.append_nil, List.nil_append, List.append_assoc]

/-- What the trace of the fail label acquires. -/
theorem acquired_fail_trace (c : Consts) (k : DeviceEnv) (arch debug_flags pAllocator : Nat)
    (s : Ref panvk_priv_bo) (qa : QueueArrays) (tq : List Event) (h_dev : k.device ≠ 0) :
    acquired c (create_device_setup c k debug_flags pAllocator ++
        (tiler_heap_create c k debug_flags).2 ++
        (sample_positions_create c k debug_flags).2 ++
        [Event.panfrost_upload_sample_positions s.obj.addr_host,
          Event.vk_device_set_drm_fd k.kmod_dev, Event.meta_init arch] ++
        tq ++
        fail_path arch
          { ptr := k.device, core := device_core k debug_flags, dev_entrypoints := arch,
            cmd_buffer_ops := arch, qinit := arch,
            tiler_heap := (tiler_heap_create c k debug_flags).1,
            sample_positions := some s, qa := qa }) =
      [Resource.memory k.device, Resource.kmod_dev k.kmod_dev] ++
        (if debug_flags &&& PANVK_DEBUG_TRACE ≠ 0 then [Resource.decode_ctx k.decode_ctx]
          else []) ++
        [Resource.kmod_vm k.kmod_vm] ++
        acquired c (tiler_heap_create c k debug_flags).2 ++
        acquired c (sample_positions_create c k debug_flags).2 ++
        [Resource.meta_state arch] ++
        acquired c tq := by
  have h3 : acquired c [Event.panfrost_upload_sample_positions s.obj.addr_host,
      Event.vk_device_set_drm_fd k.kmod_dev, Event.meta_init arch] =
      [Resource.meta_state arch] := rfl
  have h1 : acquired c [Event.meta_cleanup arch] = [] := rfl
  have h2 : acquired c [Event.pan_kmod_vm_destroy k.kmod_vm,
      Event.pan_kmod_dev_destroy k.kmod_dev, Event.vk_free k.device] = [] := rfl
  unfold fail_path
  show acquired c (_ ++ _ ++ _ ++ _ ++ _ ++ (finish_queues qa ++ [Event.meta_cleanup arch] ++
    panvk_priv_bo_destroy (tiler_heap_create c k debug_flags).1 k.device ++
    panvk_priv_bo_destroy (some s) k.device ++
    [Event.pan_kmod_vm_destroy k.kmod_vm, Event.pan_kmod_dev_destroy k.kmod_dev,
      Event.vk_free k.device])) = _
  simp only [acquired_append, acquired_setup c k debug_flags pAllocator h_dev, h3, h1, h2,
    acquired_finish_queues, acquired_destroy, List.append_nil, List.append_assoc]

/-- Every resource the fail-label trace acquires, except the decode context,
is among those it releases, provided the queue-loop trace acquires only the
queue array and queues the label finishes. -/
theorem fail_trace_covered (c : Consts) (k : DeviceEnv) (arch debug_flags : Nat)
    (s : Option (Ref panvk_priv_bo)) (Q AQ : List Resource) (r : Resource)
    (h_th : released (tiler_heap_create c k debug_flags).2 ++
        released (panvk_priv_bo_destroy (tiler_heap_create c k debug_flags).1 k.device) =
        (acquired c (tiler_heap_create c k debug_flags).2).reverse)
    (h_q : ∀ x ∈ AQ, x ∈ Q)
    (hr : r ∈ [Resource.memory k.device, Resource.kmod_dev k.kmod_dev] ++
        (if debug_flags &&& PANVK_DEBUG_TRACE ≠ 0 then [Resource.decode_ctx k.decode_ctx]
          else []) ++
        [Resource.kmod_vm k.kmod_vm] ++
        acquired c (tiler_heap_create c k debug_flags).2 ++
        acquired c (sample_positions_create c k debug_flags).2 ++
        [Resource.meta_state arch] ++ AQ)
    (hctx : ∀ ctx, r ≠ Resource.decode_ctx ctx) :
    r ∈ released (tiler_heap_create c k debug_flags).2 ++ Q ++
        [Resource.meta_state arch] ++
        released (panvk_priv_bo_destroy (tiler_heap_create c k debug_flags).1 k.device) ++
        (acquired c (sample_positions_create c k debug_flags).2).reverse ++
        [Resource.kmod_vm k.kmod_vm, Resource.kmod_dev k.kmod_dev,
          Resource.memory k.device] := by
  have _ := s
  simp only [List.mem_append, List.mem_cons, List.mem_singleton, List.mem_reverse,
    List.not_mem_nil, or_false] at hr ⊢
  rcases hr with (((((hr | hr) | hr) | hr) | hr) | hr) | hr
  · rcases hr with hr | hr
    · exact Or.inr (Or.inr (Or.inr hr))
    · exact Or.inr (Or.inr (Or.inl hr))
  · split_ifs at hr
    · simp only [List.mem_singleton] at hr
      exact absurd hr (hctx _)
    · simp at hr
  · exact Or.inr (Or.inl hr)
  · have : r ∈ (acquired c (tiler_heap_create c k debug_flags).2).reverse :=
      List.mem_reverse.mpr hr
    rw [← h_th] at this
    rcases List.mem_append.mp this with h | h
    · exact Or.inl (Or.inl (Or.inl (Or.inl (Or.inl h))))
    · exact Or.inl (Or.inl (Or.inr h))
  · exact Or.inl (Or.inr hr)
  · exact Or.inl (Or.inl (Or.inl (Or.inr hr)))
  · exact Or.inl (Or.inl (Or.inl (Or.inl (Or.inr (h_q r hr)))))

/-! ### Which calls a trace can hold -/

theorem all_create_is_bo_call (c : Consts) (k : CreateEnv) (dev : panvk_device)
    (size flags alloc scope : Nat) :
    (panvk_priv_bo_create c k dev size flags alloc scope).2.all Event.is_bo_call = true := by
  rcases create_cases c k flags with h0 | ⟨h0, hb⟩ | ⟨bo, h0, hb, hf, hm⟩ |
      ⟨bo, h0, hb, hm, hr⟩ | ⟨bo, h0, hb, hm, hr⟩
  · rw [create_eq_of_struct_fail c k dev size flags alloc scope h0]
    rfl
  · rw [create_eq_of_bo_fail c k dev size flags alloc scope h0 hb]
    rfl
  · rw [create_eq_of_mmap_fail c k dev size flags alloc scope bo h0 hb hf hm]
    rfl
  · rw [create_eq_of_bind_fail c k dev size flags alloc scope bo h0 hb hm hr]
    by_cases hf : flags &&& c.PAN_KMOD_BO_FLAG_NO_MMAP = 0 <;>
      by_cases hz : k.mmap = 0 <;>
      simp [create_upto_bind, hf, hz, Event.is_bo_call]
  · rw [create_eq_of_success c k dev size flags alloc scope bo h0 hb hm hr]
    by_cases hf : flags &&& c.PAN_KMOD_BO_FLAG_NO_MMAP = 0 <;>
      by_cases hd : dev.decode_ctx = 0 <;>
      simp [create_upto_bind, hf, hd, Event.is_bo_call]

theorem all_destroy_is_bo_call (b : Option (Ref panvk_priv_bo)) (alloc : Nat) :
    (panvk_priv_bo_destroy b alloc).all Event.is_bo_call = true := by
  cases b with
  | none => rfl
  | some r =>
    by_cases hd : r.obj.dev.decode_ctx = 0 <;> by_cases hh : r.obj.addr_host = 0 <;>
      simp [panvk_priv_bo_destroy, hd, hh, Event.is_bo_call]

theorem all_qinit_loop_is_queue_call (k : DeviceEnv) (arch i qfi n q : Nat) :
    (qinit_loop k arch i qfi n q).2.all Event.is_queue_call = true := by
  induction n generalizing q with
  | zero => rfl
  | succ n ih =>
    unfold qinit_loop
    by_cases hr : k.qinit i q = VK_SUCCESS
    · simp only [hr, ne_eq, not_true_eq_false, if_false, List.all_cons, ih (q + 1),
        Event.is_queue_call, Bool.and_self]
    · simp [hr, Event.is_queue_call]

theorem all_queue_loop_is_queue_call (k : DeviceEnv) (arch : Nat)
    (infos : List VkDeviceQueueCreateInfo) (i : Nat) (qa : QueueArrays) :
    (queue_loop k arch infos i qa).2.2.all Event.is_queue_call = true := by
  induction infos generalizing i qa with
  | nil => rfl
  | cons info rest ih =>
    unfold queue_loop
    have hq := all_qinit_loop_is_queue_call k arch i info.queueFamilyIndex info.queueCount 0
    by_cases hb : PANVK_MAX_QUEUE_FAMILIES ≤ info.queueFamilyIndex
    · simp [hb, Event.is_queue_call]
    · by_cases hz : k.queues i = 0
      · simp [hb, hz, Event.is_queue_call]
      · by_cases hr : (qinit_loop k arch i info.queueFamilyIndex info.queueCount 0).1
            = VK_SUCCESS
        · simp only [hb, hz, hr, if_false, ne_eq, not_true_eq_false, List.all_cons,
            List.all_append, hq, ih, Event.is_queue_call, Bool.and_self]
        · simp only [hb, hz, hr, if_false, ne_eq, not_false_eq_true, if_true,
            List.all_cons, hq, Event.is_queue_call, Bool.and_self]

theorem all_finish_queues_is_queue_call (qa : QueueArrays) :
    (finish_queues qa).all Event.is_queue_call = true := by
  rw [finish_queues_eq, List.all_append]
  have h1 : ((List.range (qa.queue_count.getD 0 0)).map
      (fun q => Event.panvk_queue_finish 0 q)).all Event.is_queue_call = true := by
    rw [List.all_eq_true]
    intro e he
    obtain ⟨q, _, rfl⟩ := List.mem_map.mp he
    rfl
  rw [h1]
  split_ifs <;> rfl

theorem follows_setup_of_bo_call (t : List Event) (h : t.all Event.is_bo_call = true) :
    t.all Event.follows_setup = true := by
  rw [List.all_eq_true] at h ⊢
  intro e he
  simp [Event.follows_setup, h e he]

theorem follows_setup_of_queue_call (t : List Event) (h : t.all Event.is_queue_call = true) :
    t.all Event.follows_setup = true := by
  rw [List.all_eq_true] at h ⊢
  intro e he
  simp [Event.follows_setup, h e he]

theorem all_fail_path_follows_setup (arch : Nat) (d : Device) :
    (fail_path arch d).all Event.follows_setup = true := by
  unfold fail_path
  simp only [List.all_append,
    follows_setup_of_queue_call _ (all_finish_queues_is_queue_call d.qa),
    follows_setup_of_bo_call _ (all_destroy_is_bo_call _ _)]
  rfl

/-- Once `vk_device_init` has succeeded, the trace of `panvk_CreateDevice` is
the setup up to the creation of the VM, followed by calls of the classes that
come after it. -/
theorem create_device_trace_shape (c : Consts) (k : DeviceEnv) (arch debug_flags : Nat)
    (infos : List VkDeviceQueueCreateInfo) (pAllocator : Nat)
    (h_dev : k.device ≠ 0) (h_arch : arch = 6 ∨ arch = 7)
    (h_init : k.vk_device_init = VK_SUCCESS) :
    ∃ rest, (panvk_CreateDevice c k arch debug_flags infos pAllocator).2 =
        create_device_setup c k debug_flags pAllocator ++ rest ∧
      rest.all Event.follows_setup = true := by
  have h_th : (tiler_heap_create c k debug_flags).2.all Event.follows_setup = true :=
    follows_setup_of_bo_call _ (all_create_is_bo_call _ _ _ _ _ _ _)
  have h_spc : (sample_positions_create c k debug_flags).2.all Event.follows_setup = true :=
    follows_setup_of_bo_call _ (all_create_is_bo_call _ _ _ _ _ _ _)
  cases hsp : (sample_positions_create c k debug_flags).1 with
  | none =>
    refine ⟨(tiler_heap_create c k debug_flags).2 ++
      (sample_positions_create c k debug_flags).2, ?_, ?_⟩
    · unfold panvk_CreateDevice
      simp only [if_neg h_dev, arch_switch_of_supported arch h_arch, h_init, ne_eq,
        not_true_eq_false, if_false, hsp, List.append_assoc]
    · simp only [List.all_append, h_th, h_spc, Bool.and_self]
  | some s =>
    rw [create_device_eq_of_sample_positions c k arch debug_flags infos pAllocator s h_dev
      h_arch h_init hsp]
    have h_ql := follows_setup_of_queue_call _
      (all_queue_loop_is_queue_call k arch infos 0 queue_arrays_zero)
    refine ⟨_, by simp only [List.append_assoc]; rfl, ?_⟩
    simp only [List.all_append, h_th, h_spc, h_ql, Bool.and_self, Bool.true_and]
    cases (queue_loop k arch infos 0 queue_arrays_zero).1 with
    | done => rfl
    | out_of_bounds => rfl
    | fail result =>
      simp only [all_fail_path_follows_setup]
      rfl

/-- Device creation never destroys a decode context. -/
theorem no_ctx_destroy_create_device (c : Consts) (k : DeviceEnv) (arch debug_flags : Nat)
    (infos : List VkDeviceQueueCreateInfo) (pAllocator : Nat)
    (h_dev : k.device ≠ 0) (h_arch : arch = 6 ∨ arch = 7)
    (h_init : k.vk_device_init = VK_SUCCESS) (ctx : Nat) :
    Event.pandecode_destroy_context ctx ∉
      (panvk_CreateDevice c k arch debug_flags infos pAllocator).2 := by
  obtain ⟨rest, hT, hrest⟩ :=
    create_device_trace_shape c k arch debug_flags infos pAllocator h_dev h_arch h_init
  rw [hT]
  intro hmem
  rcases List.mem_append.mp hmem with h | h
  · by_cases ht : debug_flags &&& PANVK_DEBUG_TRACE = 0 <;>
      simp [create_device_setup, ht] at h
  · have := List.all_eq_true.mp hrest _ h
    simp [Event.follows_setup, Event.is_bo_call, Event.is_queue_call] at this

/-- A trace without a `pandecode_destroy_context` releases no decode
context. -/
theorem released_filter_decode (t : List Event)
    (h : ∀ ctx, Event.pandecode_destroy_context ctx ∉ t) :
    (released t).filter (fun r => !r.is_decode_ctx) = released t := by
  rw [List.filter_eq_self]
  intro r hr
  unfold released at hr
  obtain ⟨e, hmem, he⟩ := List.mem_filterMap.mp hr
  cases e <;> simp [Event.releases] at he <;> subst he <;>
    first
      | rfl
      | exact absurd hmem (h _)

/-- The queue initialisations stop at the first one that fails, and its
result is the result of the loop. -/
theorem qinit_loop_first_failure (k : DeviceEnv) (arch i qfi : Nat) :
    ∀ (n q0 : Nat), (∃ q, q < n ∧ k.qinit i (q0 + q) ≠ VK_SUCCESS) →
      ∃ q1, q1 < n ∧ (qinit_loop k arch i qfi n q0).1 = k.qinit i (q0 + q1) ∧
        k.qinit i (q0 + q1) ≠ VK_SUCCESS ∧
        ∀ q, q < q1 → k.qinit i (q0 + q) = VK_SUCCESS := by
  intro n
  induction n with
  | zero =>
    rintro q0 ⟨q, hq, _⟩
    omega
  | succ n ih =>
    rintro q0 ⟨q, hq, hne⟩
    by_cases hr : k.qinit i q0 = VK_SUCCESS
    · have hq0 : q ≠ 0 := by
        rintro rfl
        exact hne (by simpa using hr)
      have hex : ∃ q', q' < n ∧ k.qinit i (q0 + 1 + q') ≠ VK_SUCCESS := by
        refine ⟨q - 1, by omega, ?_⟩
        have e : q0 + 1 + (q - 1) = q0 + q := by omega
        rw [e]
        exact hne
      obtain ⟨q1, h1, h2, h3, h4⟩ := ih (q0 + 1) hex
      have e1 : q0 + 1 + q1 = q0 + (q1 + 1) := by omega
      rw [e1] at h2 h3
      refine ⟨q1 + 1, by omega, ?_, h3, ?_⟩
      · simp only [qinit_loop, hr, ne_eq, not_true_eq_false, if_false]
        exact h2
      · intro x hx
        cases x with
        | zero => simpa using hr
        | succ y =>
          have h5 := h4 y (by omega)
          have e2 : q0 + 1 + y = q0 + (y + 1) := by omega
          rw [e2] at h5
          exact h5
    · refine ⟨0, by omega, ?_, by simpa using hr, ?_⟩
      · simp [qinit_loop, hr]
      · intro x hx
        omega

/-- Disjointness of intervals is symmetric. -/
theorem va_disjoint_symm {a b : Nat × Nat} (h : va_disjoint a b) : va_disjoint b a := by
  unfold va_disjoint at h ⊢
  omega

/-- Disjoint intervals are those that share no address. -/
theorem va_disjoint_iff (a b : Nat × Nat) :
    va_disjoint a b ↔ ∀ x, ¬ (a.1 ≤ x ∧ x < a.1 + a.2 ∧ b.1 ≤ x ∧ x < b.1 + b.2) := by
  unfold va_disjoint
  constructor
  · intro h x hx
    omega
  · intro h
    by_contra hcon
    have h1 := h a.1
    have h2 := h b.1
    omega

/-- The VM after a creation that returned a BO: the interval of the BO is
bound, nothing else changed. -/
theorem vm_after_create_of_some (c : Consts) (k : CreateEnv) (dev : panvk_device)
    (size flags alloc scope : Nat) (vm : pan_kmod_vm) (b : Ref panvk_priv_bo)
    (h : (panvk_priv_bo_create c k dev size flags alloc scope).1 = some b) :
    vm_after c vm k.bind_va (panvk_priv_bo_create c k dev size flags alloc scope).2 =
      { vm with mapped := va_interval b :: vm.mapped } := by
  rcases create_cases c k flags with h0 | ⟨h0, hb⟩ | ⟨bo, h0, hb, hf, hm⟩ |
      ⟨bo, h0, hb, hm, hr⟩ | ⟨bo, h0, hb, hm, hr⟩
  · rw [create_eq_of_struct_fail c k dev size flags alloc scope h0] at h
    simp at h
  · rw [create_eq_of_bo_fail c k dev size flags alloc scope h0 hb] at h
    simp at h
  · rw [create_eq_of_mmap_fail c k dev size flags alloc scope bo h0 hb hf hm] at h
    simp at h
  · rw [create_eq_of_bind_fail c k dev size flags alloc scope bo h0 hb hm hr] at h
    simp at h
  · rw [create_eq_of_success c k dev size flags alloc scope bo h0 hb hm hr] at h ⊢
    simp only [Option.some.injEq] at h
    subst h
    by_cases hf : flags &&& c.PAN_KMOD_BO_FLAG_NO_MMAP = 0 <;>
      by_cases hd : dev.decode_ctx = 0 <;>
      simp [create_upto_bind, hf, hd, hr, vm_after, vm_binds, vm_bind_effect, create_op,
        va_interval]

/-- The VM after a creation that returned `NULL`: unchanged. -/
theorem vm_after_create_of_none (c : Consts) (k : CreateEnv) (dev : panvk_device)
    (size flags alloc scope : Nat) (vm : pan_kmod_vm)
    (h : (panvk_priv_bo_create c k dev size flags alloc scope).1 = none) :
    vm_after c vm k.bind_va (panvk_priv_bo_create c k dev size flags alloc scope).2 = vm := by
  rcases create_cases c k flags with h0 | ⟨h0, hb⟩ | ⟨bo, h0, hb, hf, hm⟩ |
      ⟨bo, h0, hb, hm, hr⟩ | ⟨bo, h0, hb, hm, hr⟩
  · rw [create_eq_of_struct_fail c k dev size flags alloc scope h0]
    simp [vm_after, vm_binds]
  · rw [create_eq_of_bo_fail c k dev size flags alloc scope h0 hb]
    simp [vm_after, vm_binds]
  · rw [create_eq_of_mmap_fail c k dev size flags alloc scope bo h0 hb hf hm]
    simp [vm_after, vm_binds]
  · rw [create_eq_of_bind_fail c k dev size flags alloc scope bo h0 hb hm hr]
    by_cases hf : flags &&& c.PAN_KMOD_BO_FLAG_NO_MMAP = 0 <;>
      by_cases hz : k.mmap = 0 <;>
      simp [create_upto_bind, hf, hz, hr, vm_after, vm_binds, vm_bind_effect]
  · rw [create_eq_of_success c k dev size flags alloc scope bo h0 hb hm hr] at h
    simp at h

/-- The VM after the destruction of a BO: the interval of the BO is freed. -/
theorem vm_after_destroy (c : Consts) (vm : pan_kmod_vm) (va_out : Nat)
    (b : Ref panvk_priv_bo) (alloc : Nat) :
    vm_after c vm va_out (panvk_priv_bo_destroy (some b) alloc) =
      { vm with mapped := unmap_interval (va_interval b) vm.mapped } := by
  by_cases hd : b.obj.dev.decode_ctx = 0 <;> by_cases hh : b.obj.addr_host = 0 <;>
    simp [panvk_priv_bo_destroy, hd, hh, vm_after, vm_binds, vm_bind_effect, destroy_op,
      va_interval]

/-- Unmapping an interval that is bound leaves the other bound intervals. -/
theorem perm_cons_unmap_interval (m : Nat × Nat) (l : List (Nat × Nat)) (h : m ∈ l) :
    l.Perm (m :: unmap_interval m l) := by
  induction l with
  | nil => simp at h
  | cons x xs ih =>
    unfold unmap_interval
    by_cases hx : x = m
    · simp [hx]
    · simp only [hx, if_false]
      have hm : m ∈ xs := by
        rcases List.mem_cons.mp h with h | h
        · exact absurd h.symm hx
        · exact h
      exact (List.Perm.cons x (ih hm)).trans (List.Perm.swap m x _)

/-- Unmapping an interval that is not bound changes nothing. -/
theorem unmap_interval_of_not_mem (m : Nat × Nat) (l : List (Nat × Nat)) (h : m ∉ l) :
    unmap_interval m l = l := by
  induction l with
  | nil => rfl
  | cons x xs ih =>
    unfold unmap_interval
    have hx : x ≠ m := fun e => h (by simp [e])
    have hm : m ∉ xs := fun e => h (List.mem_cons_of_mem _ e)
    simp [hx, ih hm]

/-- Unmapping respects reordering of the bound intervals. -/
theorem perm_unmap_interval (m : Nat × Nat) {l₁ l₂ : List (Nat × Nat)} (p : l₁.Perm l₂) :
    (unmap_interval m l₁).Perm (unmap_interval m l₂) := by
  by_cases h₁ : m ∈ l₁
  · have h₂ : m ∈ l₂ := p.subset h₁
    exact List.Perm.cons_inv
      ((perm_cons_unmap_interval m l₁ h₁).symm.trans (p.trans (perm_cons_unmap_interval m l₂ h₂)))
  · have h₂ : m ∉ l₂ := fun h => h₁ (p.symm.subset h)
    rw [unmap_interval_of_not_mem m l₁ h₁, unmap_interval_of_not_mem m l₂ h₂]
    exact p

/-- Removing the live BO at position `i` and unmapping its interval agree up
to order. -/
theorem map_eraseIdx_perm (l : List (Ref panvk_priv_bo)) (i : Nat)
    (b : Ref panvk_priv_bo) (h : l[i]? = some b) :
    ((l.eraseIdx i).map va_interval).Perm
      (unmap_interval (va_interval b) (l.map va_interval)) := by
  induction l generalizing i with
  | nil => simp at h
  | cons a l ih =>
    cases i with
    | zero =>
      simp only [List.getElem?_cons_zero, Option.some.injEq] at h
      subst h
      simp [unmap_interval]
    | succ j =>
      simp only [List.getElem?_cons_succ] at h
      have ih2 := ih j h
      simp only [List.eraseIdx_cons_succ, List.map_cons, unmap_interval]
      by_cases hab : va_interval a = va_interval b
      · simp only [hab, if_true]
        have hmem : va_interval b ∈ l.map va_interval :=
          List.mem_map_of_mem va_interval (List.getElem?_mem h)
        exact (List.Perm.cons _ ih2).trans (perm_cons_unmap_interval _ _ hmem).symm
      · simp only [hab, if_false]
        exact List.Perm.cons _ ih2

theorem step_create_of_some (c : Consts) (dev : panvk_device) (s : DeviceState)
    (k : CreateEnv) (size flags alloc scope : Nat) (b : Ref panvk_priv_bo)
    (h : (panvk_priv_bo_create c k dev size flags alloc scope).1 = some b) :
    step c dev s (.create k size flags alloc scope) =
      { vm := { s.vm with mapped := va_interval b :: s.vm.mapped }, live := b :: s.live } := by
  simp only [step, h, vm_after_create_of_some c k dev size flags alloc scope s.vm b h]

theorem step_create_of_none (c : Consts) (dev : panvk_device) (s : DeviceState)
    (k : CreateEnv) (size flags alloc scope : Nat)
    (h : (panvk_priv_bo_create c k dev size flags alloc scope).1 = none) :
    step c dev s (.create k size flags alloc scope) = s := by
  simp only [step, h, vm_after_create_of_none c k dev size flags alloc scope s.vm h]

theorem step_destroy_of_some (c : Consts) (dev : panvk_device) (s : DeviceState)
    (i alloc : Nat) (b : Ref panvk_priv_bo) (h : s.live[i]? = some b) :
    step c dev s (.destroy i alloc) =
      { vm := { s.vm with mapped := unmap_interval (va_interval b) s.vm.mapped },
        live := s.live.eraseIdx i } := by
  simp only [step, h, vm_after_destroy]

theorem step_destroy_of_none (c : Consts) (dev : panvk_device) (s : DeviceState)
    (i alloc : Nat) (h : s.live[i]? = none) :
    step c dev s (.destroy i alloc) = s := by
  simp only [step, h]

/-- The invariant of a device state over the VA range fixed at device
creation: the range is unchanged, the live BOs are pairwise disjoint and
inside it, and their intervals are the bound intervals of the VM. -/
theorem step_invariant (c : Consts) (dev : panvk_device) (va_start va_size : Nat)
    (s : DeviceState) (call : Call)
    (h_range : s.vm.va_start = va_start ∧ s.vm.va_size = va_size)
    (h_live : live_ok s)
    (h_perm : (s.live.map va_interval).Perm s.vm.mapped)
    (h_ok : kernel_ok c dev s call) :
    ((step c dev s call).vm.va_start = va_start ∧ (step c dev s call).vm.va_size = va_size) ∧
    live_ok (step c dev s call) ∧
    ((step c dev s call).live.map va_interval).Perm (step c dev s call).vm.mapped := by
  cases call with
  | create k size flags alloc scope =>
    cases hr : (panvk_priv_bo_create c k dev size flags alloc scope).1 with
    | none =>
      rw [step_create_of_none c dev s k size flags alloc scope hr]
      exact ⟨h_range, h_live, h_perm⟩
    | some b =>
      rw [step_create_of_some c dev s k size flags alloc scope b hr]
      have h_free : vm_free s.vm (va_interval b) := by
        have := h_ok
        simp only [kernel_ok, hr, bound_free] at this
        exact this
      obtain ⟨h_in, h_dis⟩ := h_free
      refine ⟨h_range, ⟨?_, ?_⟩, ?_⟩
      · refine List.Pairwise.cons ?_ h_live.1
        intro a ha
        exact h_dis _ (h_perm.subset (List.mem_map_of_mem va_interval ha))
      · intro x hx
        rcases List.mem_cons.mp hx with rfl | hx
        · exact h_in
        · exact h_live.2 x hx
      · exact List.Perm.cons _ h_perm
  | destroy i alloc =>
    cases hi : s.live[i]? with
    | none =>
      rw [step_destroy_of_none c dev s i alloc hi]
      exact ⟨h_range, h_live, h_perm⟩
    | some b =>
      rw [step_destroy_of_some c dev s i alloc b hi]
      refine ⟨h_range, ⟨?_, ?_⟩, ?_⟩
      · exact List.Pairwise.sublist (List.eraseIdx_sublist _ _) h_live.1
      · intro x hx
        exact h_live.2 x ((List.eraseIdx_sublist _ _).subset hx)
      · exact (map_eraseIdx_perm s.live i b hi).trans (perm_unmap_interval _ h_perm)

/-- The invariant holds after every sequence of calls. -/
theorem run_invariant (c : Consts) (dev : panvk_device) (va_start va_size : Nat)
    (calls : List Call) (s : DeviceState)
    (h_range : s.vm.va_start = va_start ∧ s.vm.va_size = va_size)
    (h_live : live_ok s)
    (h_perm : (s.live.map va_interval).Perm s.vm.mapped)
    (h_ok : kernel_ok_all c dev s calls) :
    ((run c dev s calls).vm.va_start = va_start ∧ (run c dev s calls).vm.va_size = va_size) ∧
    live_ok (run c dev s calls) := by
  induction calls generalizing s with
  | nil => exact ⟨h_range, h_live⟩
  | cons call rest ih =>
    obtain ⟨h1, h2⟩ := h_ok
    obtain ⟨g1, g2, g3⟩ := step_invariant c dev va_start va_size s call h_range h_live h_perm h1
    exact ih (step c dev s call) g1 g2 g3 h2

/-- The assumption on the kernel along a sequence holds along its beginnings. -/
theorem kernel_ok_all_take (c : Consts) (dev : panvk_device) (calls : List Call)
    (s : DeviceState) (n : Nat) (h : kernel_ok_all c dev s calls) :
    kernel_ok_all c dev s (calls.take n) := by
  induction calls generalizing s n with
  | nil => simpa using h
  | cons call rest ih =>
    cases n with
    | zero => trivial
    | succ n => exact ⟨h.1, ih _ n h.2⟩

/-- C7: over any sequence of `panvk_priv_bo_create` and `panvk_priv_bo_destroy`
calls on one device, interleaved in any way, starting from the empty VM that
device creation reserved, the intervals `[addr.dev, addr.dev + size)` of the
BOs that are live after any number of the calls are pairwise disjoint and lie
inside the reserved VA range, provided every successful auto-VA bind returned
an interval that was free in the VM at that moment (an unmap frees exactly its
interval). -/
theorem live_bos_disjoint (c : Consts) (dev : panvk_device) (va_start va_size : Nat)
    (calls : List Call)
    (h_kernel : kernel_ok_all c dev ⟨⟨va_start, va_size, []⟩, []⟩ calls) (n : Nat) :
    (run c dev ⟨⟨va_start, va_size, []⟩, []⟩ (calls.take n)).live.Pairwise
      (fun a b => va_disjoint (a.obj.addr_dev, a.obj.bo.size) (b.obj.addr_dev, b.obj.bo.size)) ∧
    ∀ b ∈ (run c dev ⟨⟨va_start, va_size, []⟩, []⟩ (calls.take n)).live,
      va_start ≤ b.obj.addr_dev ∧ b.obj.addr_dev + b.obj.bo.size ≤ va_start + va_size := by
  have h := run_invariant c dev va_start va_size (calls.take n)
    ⟨⟨va_start, va_size, []⟩, []⟩ ⟨rfl, rfl⟩
    ⟨List.Pairwise.nil, fun _ hb => absurd hb (List.not_mem_nil _)⟩ (List.Perm.refl _)
    (kernel_ok_all_take c dev calls _ n h_kernel)
  obtain ⟨⟨hs, hz⟩, hp, hin⟩ := h
  refine ⟨hp, ?_⟩
  intro b hb
  have := hin b hb
  unfold vm_inside at this
  rw [hs, hz] at this
  exact this

/-- Witness for C7: after four calls of `demo_calls` two BOs are live, one of
them at the address of a BO destroyed before. -/
theorem live_bos_disjoint_witness :
    kernel_ok_all mesa_consts ⟨1, 2, 3, 0⟩ ⟨⟨0x2000000, 0xfe000000, []⟩, []⟩ demo_calls ∧
    (run mesa_consts ⟨1, 2, 3, 0⟩ ⟨⟨0x2000000, 0xfe000000, []⟩, []⟩
        (demo_calls.take 4)).live.length = 2 ∧
    (run mesa_consts ⟨1, 2, 3, 0⟩ ⟨⟨0x2000000, 0xfe000000, []⟩, []⟩
        (demo_calls.take 4)).live.Pairwise
      (fun a b => va_disjoint (a.obj.addr_dev, a.obj.bo.size)
        (b.obj.addr_dev, b.obj.bo.size)) :=
  ⟨by decide, by decide,
   (live_bos_disjoint mesa_consts ⟨1, 2, 3, 0⟩ 0x2000000 0xfe000000 demo_calls
      (by decide) 4).1⟩

/-! ### Mirroring into the trace decoder -/

theorem ctx_creates_of_follows_setup (t : List Event)
    (h : t.all Event.follows_setup = true) : ctx_creates t = [] := by
  unfold ctx_creates
  rw [List.filterMap_eq_nil_iff]
  intro e he
  have := List.all_eq_true.mp h e he
  cases e <;> simp [Event.follows_setup, Event.is_bo_call, Event.is_queue_call] at this ⊢

/-- The decode contexts device creation creates: one, when the call gets past
`vk_device_init` and the debug flags contain `PANVK_DEBUG_TRACE`; none
otherwise. -/
theorem ctx_creates_create_device (c : Consts) (k : DeviceEnv) (arch debug_flags : Nat)
    (infos : List VkDeviceQueueCreateInfo) (pAllocator : Nat) :
    ctx_creates (panvk_CreateDevice c k arch debug_flags infos pAllocator).2 =
      if (k.device ≠ 0 ∧ (arch = 6 ∨ arch = 7) ∧ k.vk_device_init = VK_SUCCESS) ∧
          debug_flags &&& PANVK_DEBUG_TRACE ≠ 0 then [k.decode_ctx]
      else [] := by
  by_cases h_dev : k.device = 0
  · simp [panvk_CreateDevice, h_dev, ctx_creates]
  · by_cases h_arch : arch = 6 ∨ arch = 7
    · by_cases h_init : k.vk_device_init = VK_SUCCESS
      · obtain ⟨rest, hT, hrest⟩ :=
          create_device_trace_shape c k arch debug_flags infos pAllocator h_dev h_arch h_init
        rw [hT]
        have h1 : ctx_creates (create_device_setup c k debug_flags pAllocator ++ rest) =
            ctx_creates (create_device_setup c k debug_flags pAllocator) ++
              ctx_creates rest := by
          simp [ctx_creates, List.filterMap_append]
        rw [h1, ctx_creates_of_follows_setup rest hrest]
        by_cases ht : debug_flags &&& PANVK_DEBUG_TRACE = 0 <;>
          simp [create_device_setup, ctx_creates, ht, h_dev, h_arch, h_init]
      · simp [panvk_CreateDevice, h_dev, arch_switch_of_supported arch h_arch, h_init,
          ctx_creates]
    · have harch : arch ≠ 6 ∧ arch ≠ 7 := by omega
      simp [panvk_CreateDevice, h_dev, arch_switch_of_unsupported arch harch, ctx_creates,
        h_arch]

/-- Case analysis on a creation: it returns `NULL` after a trace without
decoder calls, or the BO after the calls up to the bind and the mirroring
call. -/
theorem create_elim (c : Consts) (k : CreateEnv) (dev : panvk_device)
    (size flags alloc scope : Nat)
    (P : Option (Ref panvk_priv_bo) × List Event → Prop)
    (hnone : ∀ t, inject_mmaps t = [] → inject_frees t = [] → P (none, t))
    (hsome : ∀ bo, k.bo = some bo →
      P (some ⟨k.priv_bo, ⟨dev, bo, k.bind_va,
            if flags &&& c.PAN_KMOD_BO_FLAG_NO_MMAP = 0 then k.mmap else 0⟩⟩,
          create_upto_bind c k dev size flags alloc scope bo ++
            (if dev.decode_ctx ≠ 0 then
              [Event.pandecode_inject_mmap dev.decode_ctx k.bind_va
                (if flags &&& c.PAN_KMOD_BO_FLAG_NO_MMAP = 0 then k.mmap else 0) bo.size]
             else []))) :
    P (panvk_priv_bo_create c k dev size flags alloc scope) := by
  rcases create_cases c k flags with h0 | ⟨h0, hb⟩ | ⟨bo, h0, hb, hf, hm⟩ |
      ⟨bo, h0, hb, hm, hr⟩ | ⟨bo, h0, hb, hm, hr⟩
  · rw [create_eq_of_struct_fail c k dev size flags alloc scope h0]
    exact hnone _ rfl rfl
  · rw [create_eq_of_bo_fail c k dev size flags alloc scope h0 hb]
    exact hnone _ rfl rfl
  · rw [create_eq_of_mmap_fail c k dev size flags alloc scope bo h0 hb hf hm]
    exact hnone _ rfl rfl
  · rw [create_eq_of_bind_fail c k dev size flags alloc scope bo h0 hb hm hr]
    apply hnone <;>
      by_cases hf : flags &&& c.PAN_KMOD_BO_FLAG_NO_MMAP = 0 <;>
      by_cases hz : k.mmap = 0 <;>
      simp [create_upto_bind, hf, hz, inject_mmaps, inject_frees]
  · rw [create_eq_of_success c k dev size flags alloc scope bo h0 hb hm hr]
    exact hsome bo hb

/-- C11, as stated, fails in its last part: with `PANVK_DEBUG_TRACE` in the
debug flags, a `panvk_CreateDevice` whose `vk_device_init` fails, or whose
device structure cannot be allocated, returns before the flag is tested and
creates no decode context. -/
theorem create_device_trace_without_context :
    (4 : Nat) &&& PANVK_DEBUG_TRACE ≠ 0 ∧
    (panvk_CreateDevice mesa_consts env_device_init_fails 7 4 [⟨0, 1⟩] 0).1 =
      Outcome.returned (-3) none ∧
    ctx_creates (panvk_CreateDevice mesa_consts env_device_init_fails 7 4 [⟨0, 1⟩] 0).2 = [] ∧
    (panvk_CreateDevice mesa_consts env_device_alloc_fails 7 4 [⟨0, 1⟩] 0).1 =
      Outcome.returned VK_ERROR_OUT_OF_HOST_MEMORY none ∧
    ctx_creates (panvk_CreateDevice mesa_consts env_device_alloc_fails 7 4 [⟨0, 1⟩] 0).2 = [] ∧
    ¬ (∀ (kd : DeviceEnv) (debug_flags : Nat),
      ctx_creates (panvk_CreateDevice mesa_consts kd 7 debug_flags [⟨0, 1⟩] 0).2 ≠ [] ↔
        debug_flags &&& PANVK_DEBUG_TRACE ≠ 0) := by
  refine ⟨by decide, by decide, by decide, by decide, by decide, fun h => ?_⟩
  exact absurd ((h env_device_init_fails 4).mpr (by decide)) (by decide)

/-- C11, amended: with a decode context on the device, a successful
`panvk_priv_bo_create` makes exactly one `pandecode_inject_mmap`, carrying
`addr.dev`, `addr.host` and the size of the kernel BO, and a
`panvk_priv_bo_destroy` of a non-null BO makes exactly one
`pandecode_inject_free`, carrying `addr.dev` and the size of the kernel BO;
without a context, or when the creation fails, neither call is made.
`panvk_CreateDevice` creates the decode context, once, exactly when the debug
flags contain `PANVK_DEBUG_TRACE` and the call gets as far as the test of the
flag: the device structure is allocated, the architecture is 6 or 7 and
`vk_device_init` succeeds.  It never creates one without that flag. -/
theorem decode_mirroring (c : Consts) (k : CreateEnv) (dev : panvk_device)
    (size flags alloc scope alloc2 : Nat) (r : Ref panvk_priv_bo)
    (kd : DeviceEnv) (arch debug_flags : Nat) (infos : List VkDeviceQueueCreateInfo)
    (pAllocator : Nat) :
    (∀ b, (panvk_priv_bo_create c k dev size flags alloc scope).1 = some b →
      dev.decode_ctx ≠ 0 →
      inject_mmaps (panvk_priv_bo_create c k dev size flags alloc scope).2 =
        [(dev.decode_ctx, b.obj.addr_dev, b.obj.addr_host, b.obj.bo.size)]) ∧
    (dev.decode_ctx = 0 ∨ (panvk_priv_bo_create c k dev size flags alloc scope).1 = none →
      inject_mmaps (panvk_priv_bo_create c k dev size flags alloc scope).2 = []) ∧
    inject_frees (panvk_priv_bo_create c k dev size flags alloc scope).2 = [] ∧
    (r.obj.dev.decode_ctx ≠ 0 →
      inject_frees (panvk_priv_bo_destroy (some r) alloc2) =
        [(r.obj.dev.decode_ctx, r.obj.addr_dev, r.obj.bo.size)]) ∧
    (r.obj.dev.decode_ctx = 0 →
      inject_frees (panvk_priv_bo_destroy (some r) alloc2) = []) ∧
    inject_mmaps (panvk_priv_bo_destroy (some r) alloc2) = [] ∧
    inject_frees (panvk_priv_bo_destroy none alloc2) = [] ∧
    (kd.device ≠ 0 → (arch = 6 ∨ arch = 7) → kd.vk_device_init = VK_SUCCESS →
      (ctx_creates (panvk_CreateDevice c kd arch debug_flags infos pAllocator).2 =
          [kd.decode_ctx] ↔ debug_flags &&& PANVK_DEBUG_TRACE ≠ 0) ∧
      (ctx_creates (panvk_CreateDevice c kd arch debug_flags infos pAllocator).2 = [] ↔
        debug_flags &&& PANVK_DEBUG_TRACE = 0)) ∧
    (ctx_creates (panvk_CreateDevice c kd arch debug_flags infos pAllocator).2 ≠ [] →
      debug_flags &&& PANVK_DEBUG_TRACE ≠ 0) ∧
    ctx_creates (panvk_CreateDevice c kd arch debug_flags infos pAllocator).2 =
      (if (kd.device ≠ 0 ∧ (arch = 6 ∨ arch = 7) ∧ kd.vk_device_init = VK_SUCCESS) ∧
          debug_flags &&& PANVK_DEBUG_TRACE ≠ 0 then [kd.decode_ctx] else []) := by
  have h_create := create_elim c k dev size flags alloc scope
  have h_upto : ∀ bo, inject_mmaps (create_upto_bind c k dev size flags alloc scope bo) = [] ∧
      inject_frees (create_upto_bind c k dev size flags alloc scope bo) = [] := by
    intro bo
    by_cases hf : flags &&& c.PAN_KMOD_BO_FLAG_NO_MMAP = 0 <;>
      simp [create_upto_bind, hf, inject_mmaps, inject_frees]
  have h_app_m : ∀ t u, inject_mmaps (t ++ u) = inject_mmaps t ++ inject_mmaps u := by
    intro t u
    simp [inject_mmaps, List.filterMap_append]
  have h_app_f : ∀ t u, inject_frees (t ++ u) = inject_frees t ++ inject_frees u := by
    intro t u
    simp [inject_frees, List.filterMap_append]
  have h_dev := ctx_creates_create_device c kd arch debug_flags infos pAllocator
  refine ⟨?_, ?_, ?_, ?_, ?_, ?_, rfl, ?_, ?_, h_dev⟩
  · refine h_create (fun p => ∀ b, p.1 = some b → dev.decode_ctx ≠ 0 →
      inject_mmaps p.2 = [(dev.decode_ctx, b.obj.addr_dev, b.obj.addr_host, b.obj.bo.size)])
      ?_ ?_
    · intro t _ _ b hb
      simp at hb
    · intro bo _ b hb hd
      simp only [Option.some.injEq] at hb
      subst hb
      simp only [h_app_m, (h_upto bo).1, hd, ne_eq, not_false_eq_true, if_true]
      rfl
  · refine h_create (fun p => dev.decode_ctx = 0 ∨ p.1 = none → inject_mmaps p.2 = []) ?_ ?_
    · intro t ht _ _
      exact ht
    · intro bo _ h
      rcases h with h | h
      · simp only [h_app_m, (h_upto bo).1, h, ne_eq, not_true_eq_false, if_false]
        rfl
      · simp at h
  · refine h_create (fun p => inject_frees p.2 = []) ?_ ?_
    · intro t _ ht
      exact ht
    · intro bo _
      simp only [h_app_f, (h_upto bo).2]
      split_ifs <;> rfl
  · intro hd
    by_cases hh : r.obj.addr_host = 0 <;>
      simp [panvk_priv_bo_destroy, hd, hh, inject_frees, pan_kmod_bo_size]
  · intro hd
    by_cases hh : r.obj.addr_host = 0 <;>
      simp [panvk_priv_bo_destroy, hd, hh, inject_frees]
  · by_cases hd : r.obj.dev.decode_ctx = 0 <;> by_cases hh : r.obj.addr_host = 0 <;>
      simp [panvk_priv_bo_destroy, hd, hh, inject_mmaps]
  · intro hk ha hi
    rw [h_dev]
    by_cases ht : debug_flags &&& PANVK_DEBUG_TRACE = 0 <;> simp [ht, hk, ha, hi]
  · intro hne
    rw [h_dev] at hne
    by_cases ht : debug_flags &&& PANVK_DEBUG_TRACE = 0
    · simp [ht] at hne
    · exact ht

/-- Witness for C11, amended: tracing on, a mappable BO of 4096 bytes bound at
0x2000000 on a device with decode context 0x30000. -/
theorem decode_mirroring_witness :
    ((0x30000 : Nat) ≠ 0 ∧ env_ok.device ≠ 0) ∧
    inject_mmaps (panvk_priv_bo_create mesa_consts
        ⟨0x1000, some ⟨1, 4096⟩, 0x7f0000, 0, 0x2000000⟩ ⟨1, 2, 3, 0x30000⟩ 4096 0 1 3).2 =
      [(0x30000, 0x2000000, 0x7f0000, 4096)] ∧
    ctx_creates (panvk_CreateDevice mesa_consts env_ok 7 4 [⟨0, 1⟩] 0).2 = [0x30000] :=
  ⟨by decide,
   (decode_mirroring mesa_consts ⟨0x1000, some ⟨1, 4096⟩, 0x7f0000, 0, 0x2000000⟩
      ⟨1, 2, 3, 0x30000⟩ 4096 0 1 3 1 ⟨0x1000, ⟨⟨1, 2, 3, 0x30000⟩, ⟨1, 4096⟩, 0x2000000,
        0x7f0000⟩⟩ env_ok 7 4 [⟨0, 1⟩] 0).1 _ rfl (by decide),
   ((decode_mirroring mesa_consts ⟨0x1000, some ⟨1, 4096⟩, 0x7f0000, 0, 0x2000000⟩
      ⟨1, 2, 3, 0x30000⟩ 4096 0 1 3 1 ⟨0x1000, ⟨⟨1, 2, 3, 0x30000⟩, ⟨1, 4096⟩, 0x2000000,
        0x7f0000⟩⟩ env_ok 7 4 [⟨0, 1⟩] 0).2.2.2.2.2.2.2.1 (by decide) (Or.inr rfl) rfl).1.mpr
      (by decide)⟩

/-! ### Device creation: the per-generation objects -/

theorem queue_inits_append (t u : List Event) :
    queue_inits (t ++ u) = queue_inits t ++ queue_inits u := by
  simp [queue_inits, List.filterMap_append]

theorem queue_inits_of_bo_call (t : List Event) (h : t.all Event.is_bo_call = true) :
    queue_inits t = [] := by
  unfold queue_inits
  rw [List.filterMap_eq_nil_iff]
  intro e he
  have := List.all_eq_true.mp h e he
  cases e <;> simp [Event.is_bo_call] at this ⊢

theorem queue_inits_qinit_loop (k : DeviceEnv) (arch i qfi n q : Nat) :
    ∀ x ∈ queue_inits (qinit_loop k arch i qfi n q).2, x.1 = arch := by
  induction n generalizing q with
  | zero => simp [qinit_loop, queue_inits]
  | succ n ih =>
    unfold qinit_loop
    by_cases hr : k.qinit i q = VK_SUCCESS
    · simp only [hr, ne_eq, not_true_eq_false, if_false]
      intro x hx
      rw [← List.singleton_append, queue_inits_append] at hx
      rcases List.mem_append.mp hx with h | h
      · simp [queue_inits] at h
        rw [h]
      · exact ih (q + 1) x h
    · simp only [hr, ne_eq, not_false_eq_true, if_true]
      intro x hx
      simp [queue_inits] at hx
      rw [hx]

theorem queue_inits_queue_loop (k : DeviceEnv) (arch : Nat)
    (infos : List VkDeviceQueueCreateInfo) (i : Nat) (qa : QueueArrays) :
    ∀ x ∈ queue_inits (queue_loop k arch infos i qa).2.2, x.1 = arch := by
  induction infos generalizing i qa with
  | nil => simp [queue_loop, queue_inits]
  | cons info rest ih =>
    unfold queue_loop
    have hq := queue_inits_qinit_loop k arch i info.queueFamilyIndex info.queueCount 0
    have he : queue_inits [Event.vk_alloc info.queueCount (k.queues i)] = [] := rfl
    by_cases hb : PANVK_MAX_QUEUE_FAMILIES ≤ info.queueFamilyIndex
    · simp only [hb, if_true, he]
      intro x hx
      simp at hx
    · by_cases hz : k.queues i = 0
      · simp only [hb, hz, if_false, if_true]
        intro x hx
        rw [hz] at he
        rw [he] at hx
        simp at hx
      · by_cases hr : (qinit_loop k arch i info.queueFamilyIndex info.queueCount 0).1
            = VK_SUCCESS
        · simp only [hb, hz, hr, if_false, ne_eq, not_true_eq_false]
          intro x hx
          rw [List.cons_append, ← List.singleton_append, queue_inits_append,
            queue_inits_append, he, List.nil_append] at hx
          rcases List.mem_append.mp hx with h | h
          · exact hq x h
          · exact ih _ _ x h
        · simp only [hb, hz, hr, if_false, ne_eq, not_false_eq_true, if_true]
          intro x hx
          rw [← List.singleton_append, queue_inits_append, he, List.nil_append] at hx
          exact hq x hx

theorem queue_inits_finish_queues (qa : QueueArrays) : queue_inits (finish_queues qa) = [] := by
  unfold queue_inits
  rw [List.filterMap_eq_nil_iff]
  intro e he
  rw [finish_queues_eq] at he
  rcases List.mem_append.mp he with h | h
  · obtain ⟨q, _, rfl⟩ := List.mem_map.mp h
    rfl
  · split_ifs at h
    · simp at h
      subst h
      rfl
    · simp at h

theorem queue_inits_fail_path (arch : Nat) (d : Device) :
    queue_inits (fail_path arch d) = [] := by
  unfold fail_path
  simp only [queue_inits_append, queue_inits_finish_queues,
    queue_inits_of_bo_call _ (all_destroy_is_bo_call _ _)]
  rfl

theorem queue_inits_setup (c : Consts) (k : DeviceEnv) (debug_flags pAllocator : Nat) :
    queue_inits (create_device_setup c k debug_flags pAllocator) = [] := by
  by_cases ht : debug_flags &&& PANVK_DEBUG_TRACE = 0 <;>
    simp [create_device_setup, ht, queue_inits]

/-- C16: the switch of `panvk_CreateDevice` selects the v6 entrypoint table,
command-buffer ops and queue-init function for architecture 6 and the three
v7 ones for architecture 7.  A device that the call returns carries the three
objects of its architecture, every queue initialisation of the call goes
through the queue-init function of that architecture, and for any other
architecture the call ends in the `unreachable` branch right after the
allocation of the device structure; it returns no device then. -/
theorem create_device_arch_dispatch (c : Consts) (k : DeviceEnv) (arch debug_flags : Nat)
    (infos : List VkDeviceQueueCreateInfo) (pAllocator : Nat) :
    arch_switch 6 = some { dev_entrypoints := 6, cmd_buffer_ops := 6, qinit := 6 } ∧
    arch_switch 7 = some { dev_entrypoints := 7, cmd_buffer_ops := 7, qinit := 7 } ∧
    (arch ≠ 6 → arch ≠ 7 → arch_switch arch = none) ∧
    (∀ result d, (panvk_CreateDevice c k arch debug_flags infos pAllocator).1 =
        Outcome.returned result (some d) →
      (arch = 6 ∨ arch = 7) ∧ d.dev_entrypoints = arch ∧ d.cmd_buffer_ops = arch ∧
        d.qinit = arch) ∧
    (∀ x ∈ queue_inits (panvk_CreateDevice c k arch debug_flags infos pAllocator).2,
      (arch = 6 ∨ arch = 7) ∧ x.1 = arch) ∧
    (arch ≠ 6 → arch ≠ 7 → k.device ≠ 0 →
      panvk_CreateDevice c k arch debug_flags infos pAllocator =
        (Outcome.hit_unreachable,
          [Event.vk_zalloc2 pAllocator VK_SYSTEM_ALLOCATION_SCOPE_DEVICE k.device])) ∧
    (arch ≠ 6 → arch ≠ 7 → ∀ result d,
      (panvk_CreateDevice c k arch debug_flags infos pAllocator).1 ≠
        Outcome.returned result (some d)) := by
  have h_unsup : arch ≠ 6 → arch ≠ 7 → k.device ≠ 0 →
      panvk_CreateDevice c k arch debug_flags infos pAllocator =
        (Outcome.hit_unreachable,
          [Event.vk_zalloc2 pAllocator VK_SYSTEM_ALLOCATION_SCOPE_DEVICE k.device]) := by
    intro h6 h7 hd
    simp [panvk_CreateDevice, hd, arch_switch_of_unsupported arch ⟨h6, h7⟩]
  -- every path, with what it returns and the queue initialisations it makes
  have h_paths : (∀ result d, (panvk_CreateDevice c k arch debug_flags infos pAllocator).1 =
        Outcome.returned result (some d) →
      (arch = 6 ∨ arch = 7) ∧ d.dev_entrypoints = arch ∧ d.cmd_buffer_ops = arch ∧
        d.qinit = arch) ∧
    (∀ x ∈ queue_inits (panvk_CreateDevice c k arch debug_flags infos pAllocator).2,
      (arch = 6 ∨ arch = 7) ∧ x.1 = arch) := by
    by_cases h_dev : k.device = 0
    · simp [panvk_CreateDevice, h_dev, queue_inits]
    · by_cases h_arch : arch = 6 ∨ arch = 7
      · by_cases h_init : k.vk_device_init = VK_SUCCESS
        · cases hsp : (sample_positions_create c k debug_flags).1 with
          | none =>
            have hT : panvk_CreateDevice c k arch debug_flags infos pAllocator =
                (Outcome.null_deref, create_device_setup c k debug_flags pAllocator ++
                  (tiler_heap_create c k debug_flags).2 ++
                  (sample_positions_create c k debug_flags).2) := by
              unfold panvk_CreateDevice
              simp only [if_neg h_dev, arch_switch_of_supported arch h_arch, h_init, ne_eq,
                not_true_eq_false, if_false, hsp]
            rw [hT]
            refine ⟨fun _ _ h => by simp at h, ?_⟩
            simp only [queue_inits_append, queue_inits_setup, tiler_heap_create,
              sample_positions_create,
              queue_inits_of_bo_call _ (all_create_is_bo_call _ _ _ _ _ _ _)]
            simp
          | some s =>
            rw [create_device_eq_of_sample_positions c k arch debug_flags infos pAllocator s
              h_dev h_arch h_init hsp]
            have hql := queue_inits_queue_loop k arch infos 0 queue_arrays_zero
            have h3 : queue_inits [Event.panfrost_upload_sample_positions s.obj.addr_host,
                Event.vk_device_set_drm_fd k.kmod_dev, Event.meta_init arch] = [] := rfl
            constructor
            · intro result d h
              cases hq : (queue_loop k arch infos 0 queue_arrays_zero).1 with
              | done =>
                simp only [hq, Outcome.returned.injEq, Option.some.injEq] at h
                obtain ⟨_, rfl⟩ := h
                exact ⟨h_arch, rfl, rfl, rfl⟩
              | out_of_bounds => simp [hq] at h
              | fail r => simp [hq] at h
            · intro x hx
              refine ⟨h_arch, ?_⟩
              simp only [queue_inits_append, queue_inits_setup, tiler_heap_create,
                sample_positions_create, h3,
                queue_inits_of_bo_call _ (all_create_is_bo_call _ _ _ _ _ _ _),
                List.nil_append, List.mem_append] at hx
              rcases hx with hx | hx
              · exact hql x hx
              · cases hq : (queue_loop k arch infos 0 queue_arrays_zero).1 with
                | done => simp [hq, queue_inits] at hx
                | out_of_bounds => simp [hq, queue_inits] at hx
                | fail r =>
                  simp only [hq, queue_inits_fail_path] at hx
                  simp at hx
        · simp [panvk_CreateDevice, h_dev, arch_switch_of_supported arch h_arch, h_init,
            queue_inits]
      · have harch : arch ≠ 6 ∧ arch ≠ 7 := by omega
        rw [h_unsup harch.1 harch.2 h_dev]
        simp [queue_inits]
  refine ⟨rfl, rfl, fun h6 h7 => arch_switch_of_unsupported arch ⟨h6, h7⟩, h_paths.1,
    h_paths.2, h_unsup, ?_⟩
  intro h6 h7 result d h
  have := (h_paths.1 result d h).1
  omega

/-- C16 at an unsupported architecture, 5, where the call ends in the
`unreachable` branch, and at architecture 7, where every queue initialisation
is the v7 one. -/
theorem create_device_arch_dispatch_witness :
    ((5 : Nat) ≠ 6 ∧ (5 : Nat) ≠ 7 ∧ env_ok.device ≠ 0) ∧
    panvk_CreateDevice mesa_consts env_ok 5 4 [⟨0, 2⟩] 0 =
      (Outcome.hit_unreachable,
        [Event.vk_zalloc2 0 VK_SYSTEM_ALLOCATION_SCOPE_DEVICE env_ok.device]) ∧
    (∀ x ∈ queue_inits (panvk_CreateDevice mesa_consts env_ok 7 4 [⟨0, 2⟩] 0).2,
      ((7 : Nat) = 6 ∨ (7 : Nat) = 7) ∧ x.1 = 7) ∧
    queue_inits (panvk_CreateDevice mesa_consts env_ok 7 4 [⟨0, 2⟩] 0).2 =
      [(7, 0, 0, 0), (7, 0, 1, 0)] :=
  ⟨by decide,
   (create_device_arch_dispatch mesa_consts env_ok 5 4 [⟨0, 2⟩] 0).2.2.2.2.2.1
      (by decide) (by decide) (by decide),
   (create_device_arch_dispatch mesa_consts env_ok 7 4 [⟨0, 2⟩] 0).2.2.2.2.1,
   by decide⟩

/-! ### Device creation and destruction: defects -/

/-- C18, evaluated: with three queues asked for and the initialisation of
queue 1 failing, the `fail` label calls `panvk_queue_finish` on the queues 0,
1 and 2: on the queue whose initialisation failed and on the queue that was
never initialised, not only on queue 0. -/
theorem create_device_finishes_uninitialised_queues :
    (panvk_CreateDevice mesa_consts env_qinit_fails 7 0 [⟨0, 3⟩] 0).1 =
      Outcome.returned (-3) none ∧
    queue_inits (panvk_CreateDevice mesa_consts env_qinit_fails 7 0 [⟨0, 3⟩] 0).2 =
      [(7, 0, 0, 0), (7, 0, 1, -3)] ∧
    queue_finishes (panvk_CreateDevice mesa_consts env_qinit_fails 7 0 [⟨0, 3⟩] 0).2 =
      [(0, 0), (0, 1), (0, 2)] := by
  refine ⟨?_, ?_, ?_⟩ <;> decide

/-- C19, evaluated: with a null device handle `panvk_DestroyDevice` reads
`device->physical_device` before it tests the handle, so the call ends in a
null dereference instead of returning; it makes no teardown call. -/
theorem destroy_device_null_deref (arch : Nat) :
    panvk_DestroyDevice none arch = (DestroyOutcome.null_deref, []) := rfl

/-! ### Descriptor pools -/

theorem type_total_cons (type : Nat) (s : VkDescriptorPoolSize)
    (rest : List VkDescriptorPoolSize) :
    type_total type (s :: rest) =
      (if s.type = type then s.descriptorCount else 0) + type_total type rest := by
  unfold type_total
  by_cases h : s.type = type <;> simp [List.filter_cons, h]

theorem type_total_nil (type : Nat) : type_total type [] = 0 := rfl

/-- The totals per type do not depend on the order of the pool sizes. -/
theorem type_total_perm (type : Nat) {l₁ l₂ : List VkDescriptorPoolSize} (p : l₁.Perm l₂) :
    type_total type l₁ = type_total type l₂ := by
  unfold type_total
  exact ((p.filter _).map _).sum_eq

theorem add_totals_perm (m : panvk_desc_pool_counters) {l₁ l₂ : List VkDescriptorPoolSize}
    (p : l₁.Perm l₂) : add_totals m l₁ = add_totals m l₂ := by
  unfold add_totals
  simp only [type_total_perm _ p]

/-- One pass of the loop body on a handled type: the counter of that type
grows by the count, modulo 2^32. -/
theorem pool_size_add_step (m : panvk_desc_pool_counters) (s : VkDescriptorPoolSize)
    (rest : List VkDescriptorPoolSize) (hm : counters_in_range m)
    (hs : handled_type s.type) :
    ∃ m1, pool_size_add m s = some m1 ∧ counters_in_range m1 ∧
      add_totals m1 rest = add_totals m (s :: rest) := by
  unfold handled_type at hs
  unfold counters_in_range at hm
  have hcases : s.type = 0 ∨ s.type = 1 ∨ s.type = 2 ∨ s.type = 3 ∨ s.type = 4 ∨
      s.type = 5 ∨ s.type = 6 ∨ s.type = 7 ∨ s.type = 8 ∨ s.type = 9 ∨ s.type = 10 := by
    omega
  rcases hcases with h | h | h | h | h | h | h | h | h | h | h <;>
    (refine ⟨_, by simp [pool_size_add, h, VK_DESCRIPTOR_TYPE_SAMPLER,
        VK_DESCRIPTOR_TYPE_COMBINED_IMAGE_SAMPLER, VK_DESCRIPTOR_TYPE_SAMPLED_IMAGE,
        VK_DESCRIPTOR_TYPE_STORAGE_IMAGE, VK_DESCRIPTOR_TYPE_UNIFORM_TEXEL_BUFFER,
        VK_DESCRIPTOR_TYPE_STORAGE_TEXEL_BUFFER, VK_DESCRIPTOR_TYPE_INPUT_ATTACHMENT,
        VK_DESCRIPTOR_TYPE_UNIFORM_BUFFER, VK_DESCRIPTOR_TYPE_STORAGE_BUFFER,
        VK_DESCRIPTOR_TYPE_UNIFORM_BUFFER_DYNAMIC, VK_DESCRIPTOR_TYPE_STORAGE_BUFFER_DYNAMIC]; rfl,
      ?_, ?_⟩
     · simp only [counters_in_range, u32_add]
       omega
     · simp only [add_totals, type_total_cons, h, u32_add,
         VK_DESCRIPTOR_TYPE_SAMPLER,
         VK_DESCRIPTOR_TYPE_COMBINED_IMAGE_SAMPLER, VK_DESCRIPTOR_TYPE_SAMPLED_IMAGE,
         VK_DESCRIPTOR_TYPE_STORAGE_IMAGE, VK_DESCRIPTOR_TYPE_UNIFORM_TEXEL_BUFFER,
         VK_DESCRIPTOR_TYPE_STORAGE_TEXEL_BUFFER, VK_DESCRIPTOR_TYPE_INPUT_ATTACHMENT,
         VK_DESCRIPTOR_TYPE_UNIFORM_BUFFER, VK_DESCRIPTOR_TYPE_STORAGE_BUFFER,
         VK_DESCRIPTOR_TYPE_UNIFORM_BUFFER_DYNAMIC, VK_DESCRIPTOR_TYPE_STORAGE_BUFFER_DYNAMIC,
         panvk_desc_pool_counters.mk.injEq]
       simp
       omega)

/-- The loop over handled types never reaches the `default:` branch and
leaves the totals per type, modulo 2^32, in the counters. -/
theorem pool_sizes_loop_eq (sizes : List VkDescriptorPoolSize) :
    ∀ m : panvk_desc_pool_counters, counters_in_range m →
      (∀ s ∈ sizes, handled_type s.type) →
      pool_sizes_loop m sizes = some (add_totals m sizes) := by
  induction sizes with
  | nil =>
    intro m hm _
    have hm1 := hm
    unfold counters_in_range at hm1
    obtain ⟨h1, h2, h3, h4, h5, h6, h7, h8, h9, h10, h11⟩ := hm1
    simp only [pool_sizes_loop, add_totals, type_total_nil, Nat.add_zero,
      Nat.mod_eq_of_lt h1, Nat.mod_eq_of_lt h2, Nat.mod_eq_of_lt h3, Nat.mod_eq_of_lt h4,
      Nat.mod_eq_of_lt h5, Nat.mod_eq_of_lt h6, Nat.mod_eq_of_lt h7, Nat.mod_eq_of_lt h8,
      Nat.mod_eq_of_lt h9, Nat.mod_eq_of_lt h10, Nat.mod_eq_of_lt h11]
  | cons s rest ih =>
    intro m hm hs
    obtain ⟨m1, h_add, h_range, h_tot⟩ :=
      pool_size_add_step m s rest hm (hs s (List.mem_cons_self _ _))
    simp only [pool_sizes_loop, h_add]
    rw [ih m1 h_range (fun x hx => hs x (List.mem_cons_of_mem _ hx)), h_tot]

theorem counters_in_range_initial (maxSets : Nat) :
    counters_in_range { counters_zero with sets := maxSets } := by
  simp [counters_in_range, counters_zero]

/-- With a pool object and handled types only, the call returns the pool
whose maxima are the totals per type. -/
theorem create_descriptor_pool_eq (pool_ptr maxSets : Nat)
    (sizes : List VkDescriptorPoolSize) (h_alloc : pool_ptr ≠ 0)
    (h_types : ∀ s ∈ sizes, handled_type s.type) :
    panvk_CreateDescriptorPool pool_ptr maxSets sizes =
      (.returned VK_SUCCESS (some ⟨pool_ptr,
          ⟨add_totals { counters_zero with sets := maxSets } sizes, counters_zero⟩⟩),
        [Event.vk_object_zalloc pool_ptr]) := by
  simp only [panvk_CreateDescriptorPool, h_alloc, if_false,
    pool_sizes_loop_eq sizes _ (counters_in_range_initial maxSets) h_types]

/-- Claim C12: when the pool object is allocated and every pool-size entry has
one of the 11 handled descriptor types, `panvk_CreateDescriptorPool` returns
`VK_SUCCESS` with a pool whose `max.sets` is `maxSets`, whose 11 descriptor
maxima are the sums of `descriptorCount` over the entries of that type, modulo
2^32, and whose current-usage counters are all zero; a permutation of the
entries gives the same result. -/
theorem create_descriptor_pool_counters (pool_ptr maxSets : Nat)
    (sizes : List VkDescriptorPoolSize) (h_alloc : pool_ptr ≠ 0)
    (h_types : ∀ s ∈ sizes, handled_type s.type) :
    ∃ pool : panvk_descriptor_pool,
      (panvk_CreateDescriptorPool pool_ptr maxSets sizes).1 =
        .returned VK_SUCCESS (some ⟨pool_ptr, pool⟩) ∧
      pool.max.sets = maxSets ∧
      pool.max.samplers = type_total VK_DESCRIPTOR_TYPE_SAMPLER sizes % 2 ^ 32 ∧
      pool.max.combined_image_samplers =
        type_total VK_DESCRIPTOR_TYPE_COMBINED_IMAGE_SAMPLER sizes % 2 ^ 32 ∧
      pool.max.sampled_images = type_total VK_DESCRIPTOR_TYPE_SAMPLED_IMAGE sizes % 2 ^ 32 ∧
      pool.max.storage_images = type_total VK_DESCRIPTOR_TYPE_STORAGE_IMAGE sizes % 2 ^ 32 ∧
      pool.max.uniform_texel_bufs =
        type_total VK_DESCRIPTOR_TYPE_UNIFORM_TEXEL_BUFFER sizes % 2 ^ 32 ∧
      pool.max.storage_texel_bufs =
        type_total VK_DESCRIPTOR_TYPE_STORAGE_TEXEL_BUFFER sizes % 2 ^ 32 ∧
      pool.max.input_attachments =
        type_total VK_DESCRIPTOR_TYPE_INPUT_ATTACHMENT sizes % 2 ^ 32 ∧
      pool.max.uniform_bufs = type_total VK_DESCRIPTOR_TYPE_UNIFORM_BUFFER sizes % 2 ^ 32 ∧
      pool.max.storage_bufs = type_total VK_DESCRIPTOR_TYPE_STORAGE_BUFFER sizes % 2 ^ 32 ∧
      pool.max.uniform_dyn_bufs =
        type_total VK_DESCRIPTOR_TYPE_UNIFORM_BUFFER_DYNAMIC sizes % 2 ^ 32 ∧
      pool.max.storage_dyn_bufs =
        type_total VK_DESCRIPTOR_TYPE_STORAGE_BUFFER_DYNAMIC sizes % 2 ^ 32 ∧
      pool.cur = counters_zero ∧
      ∀ sizes1 : List VkDescriptorPoolSize, sizes1.Perm sizes →
        panvk_CreateDescriptorPool pool_ptr maxSets sizes1 =
          panvk_CreateDescriptorPool pool_ptr maxSets sizes := by
  refine ⟨⟨add_totals { counters_zero with sets := maxSets } sizes, counters_zero⟩,
    ?_, ?_, ?_, ?_, ?_, ?_, ?_, ?_, ?_, ?_, ?_, ?_, ?_, ?_, ?_⟩
  · rw [create_descriptor_pool_eq pool_ptr maxSets sizes h_alloc h_types]
  rotate_right
  · intro sizes1 hp
    rw [create_descriptor_pool_eq pool_ptr maxSets sizes h_alloc h_types,
      create_descriptor_pool_eq pool_ptr maxSets sizes1 h_alloc
        (fun s hs => h_types s (hp.mem_iff.mp hs)),
      add_totals_perm _ hp]
  all_goals simp [add_totals, counters_zero]

/-- Claim C12 at a create-info with repeated and interleaved types, one of
which wraps around 2^32. -/
theorem create_descriptor_pool_counters_witness :
    (1 : Nat) ≠ 0 ∧
    (∀ s ∈ ([⟨0, 4294967295⟩, ⟨6, 3⟩, ⟨0, 2⟩, ⟨10, 5⟩, ⟨6, 4⟩] : List VkDescriptorPoolSize),
      handled_type s.type) ∧
    ∃ pool : panvk_descriptor_pool,
      (panvk_CreateDescriptorPool 1 8
        [⟨0, 4294967295⟩, ⟨6, 3⟩, ⟨0, 2⟩, ⟨10, 5⟩, ⟨6, 4⟩]).1 =
        .returned VK_SUCCESS (some ⟨1, pool⟩) ∧
      pool.max.sets = 8 ∧ pool.max.samplers = 1 ∧ pool.max.uniform_bufs = 7 ∧
      pool.max.input_attachments = 5 ∧ pool.cur = counters_zero :=
  ⟨by decide, by decide,
    (create_descriptor_pool_counters 1 8
      [⟨0, 4294967295⟩, ⟨6, 3⟩, ⟨0, 2⟩, ⟨10, 5⟩, ⟨6, 4⟩] (by decide) (by decide)).imp
      fun _ h => ⟨h.1, h.2.1, h.2.2.1.trans (by decide),
        h.2.2.2.2.2.2.2.2.2.1.trans (by decide), h.2.2.2.2.2.2.2.2.1.trans (by decide),
        h.2.2.2.2.2.2.2.2.2.2.2.2.2.1⟩⟩

theorem pool_size_add_unhandled (m : panvk_desc_pool_counters) (s : VkDescriptorPoolSize)
    (hs : ¬ handled_type s.type) : pool_size_add m s = none := by
  unfold handled_type at hs
  simp only [pool_size_add, VK_DESCRIPTOR_TYPE_SAMPLER,
    VK_DESCRIPTOR_TYPE_COMBINED_IMAGE_SAMPLER, VK_DESCRIPTOR_TYPE_SAMPLED_IMAGE,
    VK_DESCRIPTOR_TYPE_STORAGE_IMAGE, VK_DESCRIPTOR_TYPE_UNIFORM_TEXEL_BUFFER,
    VK_DESCRIPTOR_TYPE_STORAGE_TEXEL_BUFFER, VK_DESCRIPTOR_TYPE_INPUT_ATTACHMENT,
    VK_DESCRIPTOR_TYPE_UNIFORM_BUFFER, VK_DESCRIPTOR_TYPE_STORAGE_BUFFER,
    VK_DESCRIPTOR_TYPE_UNIFORM_BUFFER_DYNAMIC, VK_DESCRIPTOR_TYPE_STORAGE_BUFFER_DYNAMIC]
  repeat (first | rfl | rw [if_neg (by omega)])

/-- A pool size of another type sends the loop into the `default:` branch. -/
theorem pool_sizes_loop_unhandled (sizes : List VkDescriptorPoolSize) :
    ∀ m : panvk_desc_pool_counters, (∃ s ∈ sizes, ¬ handled_type s.type) →
      pool_sizes_loop m sizes = none := by
  induction sizes with
  | nil => intro m h; simp at h
  | cons s rest ih =>
    intro m h
    simp only [pool_sizes_loop]
    cases ha : pool_size_add m s with
    | none => rfl
    | some m1 =>
      simp only
      apply ih
      obtain ⟨x, hx, hbad⟩ := h
      rcases List.mem_cons.mp hx with rfl | hx
      · rw [pool_size_add_unhandled m x hbad] at ha
        cases ha
      · exact ⟨x, hx, hbad⟩

/-- Claim C13: `panvk_CreateDescriptorPool` returns
`VK_ERROR_OUT_OF_HOST_MEMORY` exactly when `vk_object_zalloc` returns `NULL`,
and then `*pDescriptorPool` is not written; otherwise,
with handled descriptor types, it returns `VK_SUCCESS` and writes the handle
of the pool object that was allocated. -/
theorem create_descriptor_pool_result (pool_ptr maxSets : Nat)
    (sizes : List VkDescriptorPoolSize) :
    (pool_ptr = 0 →
      panvk_CreateDescriptorPool pool_ptr maxSets sizes =
        (.returned VK_ERROR_OUT_OF_HOST_MEMORY none, [Event.vk_object_zalloc 0])) ∧
    ((∃ h, (panvk_CreateDescriptorPool pool_ptr maxSets sizes).1 =
        .returned VK_ERROR_OUT_OF_HOST_MEMORY h) ↔ pool_ptr = 0) ∧
    (pool_ptr ≠ 0 → (∀ s ∈ sizes, handled_type s.type) →
      ∃ pool, (panvk_CreateDescriptorPool pool_ptr maxSets sizes).1 =
        .returned VK_SUCCESS (some ⟨pool_ptr, pool⟩) ∧
      (panvk_CreateDescriptorPool pool_ptr maxSets sizes).2 =
        [Event.vk_object_zalloc pool_ptr]) ∧
    (pool_ptr ≠ 0 → (∃ s ∈ sizes, ¬ handled_type s.type) →
      (panvk_CreateDescriptorPool pool_ptr maxSets sizes).1 = .hit_unreachable) := by
  refine ⟨?_, ?_, ?_, ?_⟩
  · intro h
    subst h
    rfl
  · constructor
    · rintro ⟨h, hr⟩
      by_contra hne
      simp only [panvk_CreateDescriptorPool, hne, if_false] at hr
      cases hl : pool_sizes_loop { counters_zero with sets := maxSets } sizes with
      | none => simp [hl] at hr
      | some m =>
        simp only [hl, PoolOutcome.returned.injEq] at hr
        exact absurd hr.1 (by decide)
    · intro h
      subst h
      exact ⟨none, rfl⟩
  · intro h_alloc h_types
    rw [create_descriptor_pool_eq pool_ptr maxSets sizes h_alloc h_types]
    exact ⟨_, rfl, rfl⟩
  · intro h_alloc h_bad
    simp only [panvk_CreateDescriptorPool, h_alloc, if_false,
      pool_sizes_loop_unhandled sizes _ h_bad]

/-- Claim C13 at an allocation that succeeds with two handled pool sizes. -/
theorem create_descriptor_pool_result_witness :
    (panvk_CreateDescriptorPool 0 8 [⟨0, 2⟩, ⟨6, 3⟩]).1 =
      .returned VK_ERROR_OUT_OF_HOST_MEMORY none ∧
    ∃ pool, (panvk_CreateDescriptorPool 5 8 [⟨0, 2⟩, ⟨6, 3⟩]).1 =
        .returned VK_SUCCESS (some ⟨5, pool⟩) ∧
      (panvk_CreateDescriptorPool 5 8 [⟨0, 2⟩, ⟨6, 3⟩]).2 = [Event.vk_object_zalloc 5] :=
  ⟨(create_descriptor_pool_result 0 8 [⟨0, 2⟩, ⟨6, 3⟩]).1 rfl ▸ rfl,
    (create_descriptor_pool_result 5 8 [⟨0, 2⟩, ⟨6, 3⟩]).2.2.1 (by decide) (by decide)⟩

/-! ### Freeing descriptor sets -/

theorem object_frees_append (a b : List Event) :
    object_frees (a ++ b) = object_frees a ++ object_frees b := by
  simp [object_frees, List.filterMap_append]

theorem object_frees_of_bo_call (t : List Event) (h : t.all Event.is_bo_call = true) :
    object_frees t = [] := by
  unfold object_frees
  rw [List.filterMap_eq_nil_iff]
  intro e he
  have h1 := List.all_eq_true.mp h e he
  cases e <;> simp_all [Event.is_bo_call]

/-- One set is destroyed with one `vk_object_free`, of the set itself. -/
theorem object_frees_set_destroy (set : Ref panvk_descriptor_set) :
    object_frees (panvk_descriptor_set_destroy set) = [set.ptr] := by
  unfold panvk_descriptor_set_destroy
  rw [object_frees_append, object_frees_append]
  have h : object_frees (if set.obj.desc_bo.isSome then
      panvk_priv_bo_destroy set.obj.desc_bo 0 else []) = [] := by
    split
    · exact object_frees_of_bo_call _ (all_destroy_is_bo_call _ _)
    · rfl
  rw [h]
  rfl

/-- The BO calls of one set destroy are those of `panvk_priv_bo_destroy` on
the descriptor BO, none when the set has no descriptor BO. -/
theorem bo_calls_set_destroy (set : Ref panvk_descriptor_set) :
    (panvk_descriptor_set_destroy set).filter Event.is_bo_call =
      panvk_priv_bo_destroy set.obj.desc_bo 0 := by
  unfold panvk_descriptor_set_destroy
  rw [List.filter_append, List.filter_append]
  have h : (if set.obj.desc_bo.isSome then
      panvk_priv_bo_destroy set.obj.desc_bo 0 else []) =
      panvk_priv_bo_destroy set.obj.desc_bo 0 := by
    cases hb : set.obj.desc_bo with
    | none => rfl
    | some r => simp
  rw [h, List.filter_eq_self.mpr
    (fun e he => List.all_eq_true.mp (all_destroy_is_bo_call set.obj.desc_bo 0) e he)]
  simp [Event.is_bo_call]

theorem free_descriptor_sets_trace (pool : panvk_descriptor_pool)
    (handles : List (Option (Ref panvk_descriptor_set))) :
    (panvk_FreeDescriptorSets pool handles).2.2 =
      (handles.filterMap id).flatMap panvk_descriptor_set_destroy := by
  unfold panvk_FreeDescriptorSets
  induction handles with
  | nil => rfl
  | cons h rest ih =>
    cases h with
    | none => simpa using ih
    | some set =>
      simp only [List.flatMap_cons, List.filterMap_cons_some (id_eq _)] at ih ⊢
      rw [ih]

/-- Claim C17: each of the 12 named values of `panvk_dynamic_state_bits` is
the single bit `1 << i` for `i` from 0 to 11 in declaration order, the 12
values are pairwise distinct, `PANVK_DYNAMIC_ALL` is the bitwise OR of these
12 values and has no bit from position 12 on, and the enum of
panvk_private.h assigns the same values as the one of panvk_cmd_buffer.h. -/
theorem dynamic_state_bits_layout :
    (∀ i : Fin 12, cmd_buffer_h.dynamic_state_bits[i.val]? = some (2 ^ i.val)) ∧
    cmd_buffer_h.dynamic_state_bits.length = 12 ∧
    cmd_buffer_h.dynamic_state_bits.Nodup ∧
    cmd_buffer_h.dynamic_state_bits.foldl (fun a b => a ||| b) 0 =
      cmd_buffer_h.PANVK_DYNAMIC_ALL ∧
    cmd_buffer_h.PANVK_DYNAMIC_ALL = 2 ^ 12 - 1 ∧
    (∀ j : Nat, 12 ≤ j → cmd_buffer_h.PANVK_DYNAMIC_ALL.testBit j = false) ∧
    (∀ j : Nat, j < 12 → cmd_buffer_h.PANVK_DYNAMIC_ALL.testBit j = true) ∧
    private_h.dynamic_state_bits = cmd_buffer_h.dynamic_state_bits ∧
    private_h.PANVK_DYNAMIC_ALL = cmd_buffer_h.PANVK_DYNAMIC_ALL := by
  refine ⟨by decide, by decide, by decide, by decide, by decide, ?_, by decide, by decide,
    by decide⟩
  intro j hj
  have h : cmd_buffer_h.PANVK_DYNAMIC_ALL = 2 ^ 12 - 1 := by decide
  rw [h, Nat.testBit_two_pow_sub_one]
  simp
  omega

/-! ### Batch manager -/

theorem record_append (s : panvk_cmd_buffer) (a b : List RecordOp) :
    record s (a ++ b) = record (record s a) b := by
  simp [record, List.foldl_append]

theorem open_batch_state (s : panvk_cmd_buffer) :
    (panvk_cmd_open_batch s).state_batch = some (s.state_batch.getD ⟨[], [], false⟩) ∧
    (panvk_cmd_open_batch s).batches = s.batches := by
  unfold panvk_cmd_open_batch
  cases h : s.state_batch <;> simp [h]

/-- The batches in the list and the open batch after one operation, as far as
the invariant needs them: a batch that was issued stays as it is, and an open
batch is not issued if it was not before. -/
theorem record_step_keeps_issued (s : panvk_cmd_buffer) (op : RecordOp) (i : Nat)
    (b : panvk_batch) (hb : s.batches[i]? = some b) (hi : b.issued = true) :
    (record_step s op).batches[i]? = some b := by
  have hlt : i < s.batches.length := by
    rcases List.getElem?_eq_some_iff.mp hb with ⟨h, _⟩
    exact h
  have happ : ∀ x : panvk_batch, (s.batches ++ [x])[i]? = some b := by
    intro x
    rw [List.getElem?_append_left hlt, hb]
  cases op with
  | gpu_work job =>
    simp only [record_step, (open_batch_state s).1]
    exact hb
  | event_op o =>
    simp only [record_step, (open_batch_state s).1, cmd_close_batch]
    exact happ _
  | split =>
    simp only [record_step, (open_batch_state _).2]
    unfold cmd_close_batch
    cases h : s.state_batch with
    | none => simpa [h] using hb
    | some x => simpa [h] using happ x
  | close =>
    simp only [record_step]
    unfold cmd_close_batch
    cases h : s.state_batch with
    | none => simpa [h] using hb
    | some x => simpa [h] using happ x
  | issue idx =>
    simp only [record_step]
    cases h : s.batches[idx]? with
    | none => simpa [h] using hb
    | some x =>
      simp only [h]
      by_cases hx : idx = i
      · subst hx
        rw [hb] at h
        cases h
        simp [List.getElem?_set, hlt, issue_batch, hi]
      · rw [List.getElem?_set_ne hx]
        exact hb

theorem record_keeps_issued (ops : List RecordOp) :
    ∀ (s : panvk_cmd_buffer) (i : Nat) (b : panvk_batch),
      s.batches[i]? = some b → b.issued = true → (record s ops).batches[i]? = some b := by
  induction ops with
  | nil => intro s i b hb _; exact hb
  | cons op rest ih =>
    intro s i b hb hi
    exact ih (record_step s op) i b (record_step_keeps_issued s op i b hb hi) hi

theorem record_step_open_not_issued (s : panvk_cmd_buffer) (op : RecordOp)
    (h : ∀ b ∈ open_batches s, b.issued = false) :
    ∀ b ∈ open_batches (record_step s op), b.issued = false := by
  unfold open_batches at h ⊢
  cases hs : s.state_batch with
  | none =>
    cases op <;>
      simp [record_step, panvk_cmd_open_batch, cmd_close_batch, hs]
    case issue idx => cases hx : s.batches[idx]? <;> simp [hx, hs]
  | some x =>
    have hx : x.issued = false := h x (by simp [hs])
    cases op <;>
      simp [record_step, panvk_cmd_open_batch, cmd_close_batch, hs, hx]
    case issue idx => cases hy : s.batches[idx]? <;> simp [hy, hs, hx]

theorem record_open_not_issued (ops : List RecordOp) :
    ∀ s : panvk_cmd_buffer, (∀ b ∈ open_batches s, b.issued = false) →
      ∀ b ∈ open_batches (record s ops), b.issued = false := by
  induction ops with
  | nil => intro s h; exact h
  | cons op rest ih =>
    intro s h
    exact ih (record_step s op) (record_step_open_not_issued s op h)

/-- After an operation that records GPU work a batch is open. -/
theorem open_after_gpu_work (s : panvk_cmd_buffer) (job : Nat) :
    (open_batches (record_step s (.gpu_work job))).length = 1 := by
  simp [record_step, (open_batch_state s).1, open_batches]

/-- No batch is open after a close. -/
theorem none_open_after_close (s : panvk_cmd_buffer) :
    open_batches (record_step s .close) = [] := by
  unfold open_batches
  cases h : s.state_batch <;> simp [record_step, cmd_close_batch, h]

/-- Claim C14, as stated, fails: not every reachable recording state has
exactly one open batch.  When recording begins, with no operation recorded
yet, no batch is open. -/
theorem recording_state_without_open_batch :
    ¬ (∀ ops : List RecordOp, (open_batches (record cmd_buffer_begin ops)).length = 1) ∧
    (open_batches (record cmd_buffer_begin [])).length = 0 ∧
    (open_batches (record cmd_buffer_begin [.gpu_work 1, .close])).length = 0 := by
  refine ⟨fun h => ?_, by decide, by decide⟩
  exact absurd (h []) (by decide)

/-- Claim C14, amended: in every recording state reached from the beginning
of recording at most one batch is open, none when recording begins and after
each close, exactly one right after an operation that records GPU work; the
open batch is not issued; and a batch of the list whose flag `issued` is set
stays at its place in the list, unchanged, whatever is recorded or issued
afterwards. -/
theorem batch_invariant (ops : List RecordOp) :
    (open_batches (record cmd_buffer_begin ops)).length ≤ 1 ∧
    open_batches (record cmd_buffer_begin []) = [] ∧
    open_batches (record cmd_buffer_begin (ops ++ [.close])) = [] ∧
    (∀ job : Nat,
      (open_batches (record cmd_buffer_begin (ops ++ [.gpu_work job]))).length = 1) ∧
    (∀ b ∈ open_batches (record cmd_buffer_begin ops), b.issued = false) ∧
    (∀ (more : List RecordOp) (i : Nat) (b : panvk_batch),
      (record cmd_buffer_begin ops).batches[i]? = some b → b.issued = true →
      (record cmd_buffer_begin (ops ++ more)).batches[i]? = some b) := by
  refine ⟨?_, rfl, ?_, ?_, ?_, ?_⟩
  · unfold open_batches
    cases (record cmd_buffer_begin ops).state_batch <;> simp
  · rw [record_append]
    exact none_open_after_close _
  · intro job
    rw [record_append]
    exact open_after_gpu_work _ job
  · exact record_open_not_issued ops cmd_buffer_begin (by simp [open_batches, cmd_buffer_begin])
  · intro more i b hb hi
    rw [record_append]
    exact record_keeps_issued more _ i b hb hi

/-- Claim C14, amended, at a recording of two batches: the first one is
issued and stays as it was while a third batch is recorded and the first is
issued again. -/
theorem batch_invariant_witness :
    (record cmd_buffer_begin [.gpu_work 1, .close, .gpu_work 2, .issue 0]).batches[0]? =
      some ⟨[1], [], true⟩ ∧
    (⟨[1], [], true⟩ : panvk_batch).issued = true ∧
    (record cmd_buffer_begin ([.gpu_work 1, .close, .gpu_work 2, .issue 0] ++
      [.gpu_work 3, .split, .gpu_work 4, .issue 0, .close])).batches[0]? =
      some ⟨[1], [], true⟩ :=
  ⟨by decide, rfl,
    (batch_invariant [.gpu_work 1, .close, .gpu_work 2, .issue 0]).2.2.2.2.2
      [.gpu_work 3, .split, .gpu_work 4, .issue 0, .close] 0 ⟨[1], [], true⟩
      (by decide) rfl⟩

/-! ### Resetting a descriptor pool -/

/-- Claim C21: for every pool and every flags value
`panvk_ResetDescriptorPool` returns `VK_SUCCESS`, leaves every current-usage
counter of the pool at zero and every maximum, `max.sets` included, as it
was, and a second reset gives the pool the first one gave. -/
theorem reset_descriptor_pool_effect (pool : panvk_descriptor_pool) (flags flags1 : Nat) :
    (panvk_ResetDescriptorPool pool flags).1 = VK_SUCCESS ∧
    (panvk_ResetDescriptorPool pool flags).2.cur = counters_zero ∧
    ((panvk_ResetDescriptorPool pool flags).2.cur.samplers = 0 ∧
     (panvk_ResetDescriptorPool pool flags).2.cur.combined_image_samplers = 0 ∧
     (panvk_ResetDescriptorPool pool flags).2.cur.sampled_images = 0 ∧
     (panvk_ResetDescriptorPool pool flags).2.cur.storage_images = 0 ∧
     (panvk_ResetDescriptorPool pool flags).2.cur.uniform_texel_bufs = 0 ∧
     (panvk_ResetDescriptorPool pool flags).2.cur.storage_texel_bufs = 0 ∧
     (panvk_ResetDescriptorPool pool flags).2.cur.input_attachments = 0 ∧
     (panvk_ResetDescriptorPool pool flags).2.cur.uniform_bufs = 0 ∧
     (panvk_ResetDescriptorPool pool flags).2.cur.storage_bufs = 0 ∧
     (panvk_ResetDescriptorPool pool flags).2.cur.uniform_dyn_bufs = 0 ∧
     (panvk_ResetDescriptorPool pool flags).2.cur.storage_dyn_bufs = 0 ∧
     (panvk_ResetDescriptorPool pool flags).2.cur.sets = 0) ∧
    (panvk_ResetDescriptorPool pool flags).2.max = pool.max ∧
    panvk_ResetDescriptorPool (panvk_ResetDescriptorPool pool flags).2 flags1 =
      (VK_SUCCESS, (panvk_ResetDescriptorPool pool flags).2) ∧
    panvk_ResetDescriptorPool pool flags = panvk_ResetDescriptorPool pool flags1 := by
  refine ⟨rfl, rfl, ?_, rfl, rfl, rfl⟩
  simp [panvk_ResetDescriptorPool, counters_zero]

/-! ### Meta copy texture types -/

theorem tex_type_asserts_iff (dim : Nat) (isarray : Bool) :
    tex_type_asserts dim isarray = true ↔ (dim, isarray) ∈ valid_tex_types := by
  unfold tex_type_asserts valid_tex_types
  constructor
  · intro h
    have hd : dim = 1 ∨ dim = 2 ∨ dim = 3 := by
      simp only [Bool.and_eq_true, decide_eq_true_eq] at h
      omega
    rcases hd with rfl | rfl | rfl <;> cases isarray <;> simp_all
  · intro h
    simp only [List.mem_cons, Prod.mk.injEq, List.mem_singleton, List.mem_nil_iff,
      or_false] at h
    rcases h with ⟨rfl, rfl⟩ | ⟨rfl, rfl⟩ | ⟨rfl, rfl⟩ | ⟨rfl, rfl⟩ | ⟨rfl, rfl⟩ <;> decide

theorem tex_type_of_valid (dim : Nat) (isarray : Bool)
    (h : (dim, isarray) ∈ valid_tex_types) :
    panvk_meta_copy_tex_type dim isarray =
      some (((dim - 1) <<< 1) ||| (if isarray then 1 else 0)) := by
  simp only [valid_tex_types, List.mem_cons, Prod.mk.injEq, List.mem_singleton,
    List.mem_nil_iff, or_false] at h
  rcases h with ⟨rfl, rfl⟩ | ⟨rfl, rfl⟩ | ⟨rfl, rfl⟩ | ⟨rfl, rfl⟩ | ⟨rfl, rfl⟩ <;> decide

/-- Claim C23: with both asserts holding, that is, on the five inputs with
`dim` in 1..3 and no array at `dim = 3`, `panvk_meta_copy_tex_type` returns
`((dim - 1) << 1) | isarray`; the result is below
`PANVK_META_COPY_NUM_TEX_TYPES`, which is 5 and the size of the texture-type
dimension of `img2buf` and of `img2img`; two valid inputs with the same
result are the same input, and each of 0..4 is the result of a valid input. -/
theorem meta_copy_tex_type_bijection (dim : Nat) (isarray : Bool)
    (h_dim : 0 < dim ∧ dim ≤ 3) (h_arr : dim < 3 ∨ isarray = false) :
    (∃ t, panvk_meta_copy_tex_type dim isarray = some t ∧
      t = (((dim - 1) <<< 1) ||| (if isarray then 1 else 0)) ∧
      t < PANVK_META_COPY_NUM_TEX_TYPES ∧
      img2buf_dims[0]? = some PANVK_META_COPY_NUM_TEX_TYPES ∧
      img2img_dims[1]? = some PANVK_META_COPY_NUM_TEX_TYPES ∧
      PANVK_META_COPY_NUM_TEX_TYPES = 5) ∧
    (∀ (dim1 : Nat) (isarray1 : Bool), 0 < dim1 ∧ dim1 ≤ 3 → dim1 < 3 ∨ isarray1 = false →
      panvk_meta_copy_tex_type dim1 isarray1 = panvk_meta_copy_tex_type dim isarray →
      dim1 = dim ∧ isarray1 = isarray) ∧
    (∀ t, t < PANVK_META_COPY_NUM_TEX_TYPES → ∃ (dim1 : Nat) (isarray1 : Bool),
      (0 < dim1 ∧ dim1 ≤ 3) ∧ (dim1 < 3 ∨ isarray1 = false) ∧
      panvk_meta_copy_tex_type dim1 isarray1 = some t) := by
  have h_valid : ∀ (d : Nat) (a : Bool), 0 < d ∧ d ≤ 3 → d < 3 ∨ a = false →
      (d, a) ∈ valid_tex_types := by
    intro d a hd ha
    have hd1 : d = 1 ∨ d = 2 ∨ d = 3 := by omega
    rcases hd1 with rfl | rfl | rfl <;> cases a <;> simp_all [valid_tex_types]
  have h_inj : ∀ x ∈ valid_tex_types, ∀ y ∈ valid_tex_types,
      panvk_meta_copy_tex_type x.1 x.2 = panvk_meta_copy_tex_type y.1 y.2 → x = y := by
    decide
  refine ⟨?_, ?_, ?_⟩
  · refine ⟨_, tex_type_of_valid dim isarray (h_valid dim isarray h_dim h_arr), rfl, ?_,
      rfl, rfl, rfl⟩
    have h := h_valid dim isarray h_dim h_arr
    simp only [valid_tex_types, List.mem_cons, Prod.mk.injEq, List.mem_singleton,
      List.mem_nil_iff, or_false] at h
    rcases h with ⟨rfl, rfl⟩ | ⟨rfl, rfl⟩ | ⟨rfl, rfl⟩ | ⟨rfl, rfl⟩ | ⟨rfl, rfl⟩ <;> decide
  · intro dim1 isarray1 hd ha heq
    have h := h_inj (dim1, isarray1) (h_valid dim1 isarray1 hd ha) (dim, isarray)
      (h_valid dim isarray h_dim h_arr) heq
    exact ⟨congrArg Prod.fst h, congrArg Prod.snd h⟩
  · intro t ht
    have hcases : t = 0 ∨ t = 1 ∨ t = 2 ∨ t = 3 ∨ t = 4 := by
      unfold PANVK_META_COPY_NUM_TEX_TYPES at ht
      omega
    rcases hcases with rfl | rfl | rfl | rfl | rfl
    · exact ⟨1, false, by decide, by decide, by decide⟩
    · exact ⟨1, true, by decide, by decide, by decide⟩
    · exact ⟨2, false, by decide, by decide, by decide⟩
    · exact ⟨2, true, by decide, by decide, by decide⟩
    · exact ⟨3, false, by decide, by decide, by decide⟩

/-- Claim C23 at a 2D array texture, whose type is 3. -/
theorem meta_copy_tex_type_bijection_witness :
    ((0 < 2 ∧ 2 ≤ 3) ∧ (2 < 3 ∨ true = false)) ∧
    ∃ t, panvk_meta_copy_tex_type 2 true = some t ∧
      t = (((2 - 1) <<< 1) ||| (if true then 1 else 0)) ∧
      t < PANVK_META_COPY_NUM_TEX_TYPES ∧
      img2buf_dims[0]? = some PANVK_META_COPY_NUM_TEX_TYPES ∧
      img2img_dims[1]? = some PANVK_META_COPY_NUM_TEX_TYPES ∧
      PANVK_META_COPY_NUM_TEX_TYPES = 5 :=
  ⟨by decide, (meta_copy_tex_type_bijection 2 true (by decide) (by decide)).1⟩

/-! ### Binding memory to images -/

/-- One loop body with a memory, when the transient mapping and unmapping
succeed: it runs to its end, and between the `pan_kmod_bo_get` and the
`pan_kmod_bo_put` there are only the mapping, the header clears and the
unmapping of an AFBC image. -/
theorem bind_entry_trace (c : ImageConsts) (base : Nat) (unmap_ret : Int)
    (image : panvk_image) (info : VkBindImageMemoryInfo) (mem : panvk_device_memory)
    (h_base : base ≠ c.MAP_FAILED) (h_unmap : unmap_ret = 0)
    (h_mem : info.memory = some mem) :
    (bind_image_memory_entry c base unmap_ret image info).1 = true ∧
    ∃ mid, (bind_image_memory_entry c base unmap_ret image info).2.2 =
        [ImageEvent.pan_kmod_bo_get mem.bo] ++ mid ++ [ImageEvent.pan_kmod_bo_put image.bo] ∧
      (∀ e ∈ mid, (∀ b, e ≠ ImageEvent.pan_kmod_bo_get b) ∧
        (∀ b, e ≠ ImageEvent.pan_kmod_bo_put b)) := by
  subst h_unmap
  cases h_afbc : c.drm_is_afbc image.pimage.layout.modifier with
  | true =>
    refine ⟨by simp [bind_image_memory_entry, h_mem, h_afbc, h_base],
      [ImageEvent.pan_kmod_bo_mmap mem.bo 0 (pan_kmod_bo_size mem.bo) base] ++
        afbc_header_memsets ⟨some mem.bo,
          ⟨⟨mem.addr_dev, info.memoryOffset % 2 ^ data_offset_bits⟩, image.pimage.layout⟩⟩
          base ++
        [ImageEvent.os_munmap base (pan_kmod_bo_size mem.bo) 0],
      by simp [bind_image_memory_entry, h_mem, h_afbc, h_base], ?_⟩
    intro e he
    simp only [List.mem_append, List.mem_singleton, afbc_header_memsets, List.mem_flatMap,
      List.mem_map] at he
    rcases he with (rfl | ⟨_, _, _, _, rfl⟩) | rfl <;> simp
  | false =>
    exact ⟨by simp [bind_image_memory_entry, h_mem, h_afbc], [],
      by simp [bind_image_memory_entry, h_mem, h_afbc], by simp⟩

/-- One loop body without a memory. -/
theorem bind_entry_of_none (c : ImageConsts) (base : Nat) (unmap_ret : Int)
    (image : panvk_image) (info : VkBindImageMemoryInfo) (h_mem : info.memory = none) :
    bind_image_memory_entry c base unmap_ret image info =
      (true,
        ⟨none, ⟨⟨image.pimage.data.base, info.memoryOffset % 2 ^ data_offset_bits⟩,
          image.pimage.layout⟩⟩,
        [ImageEvent.pan_kmod_bo_put image.bo]) := by
  simp only [bind_image_memory_entry, h_mem]

/-- The image one loop body leaves, whether or not an assert stops it. -/
theorem bind_entry_image (c : ImageConsts) (base : Nat) (unmap_ret : Int)
    (image : panvk_image) (info : VkBindImageMemoryInfo) :
    (bind_image_memory_entry c base unmap_ret image info).2.1 =
      ⟨info.memory.map (fun mem => mem.bo),
        ⟨⟨(info.memory.map (fun mem => mem.addr_dev)).getD image.pimage.data.base,
          info.memoryOffset % 2 ^ data_offset_bits⟩, image.pimage.layout⟩⟩ := by
  cases h_mem : info.memory with
  | none => simp [bind_image_memory_entry, h_mem]
  | some mem =>
    simp only [bind_image_memory_entry, h_mem]
    split_ifs <;> rfl

theorem bo_gets_append (a b : List ImageEvent) : bo_gets (a ++ b) = bo_gets a ++ bo_gets b := by
  simp [bo_gets, List.filterMap_append]

theorem bo_puts_append (a b : List ImageEvent) : bo_puts (a ++ b) = bo_puts a ++ bo_puts b := by
  simp [bo_puts, List.filterMap_append]

theorem ref_delta_append (bo : pan_kmod_bo) (a b : List ImageEvent) :
    ref_delta bo (a ++ b) = ref_delta bo a + ref_delta bo b := by
  simp [ref_delta, List.map_append, List.sum_append]

theorem bo_gets_of_none (t : List ImageEvent)
    (h : ∀ e ∈ t, ∀ b, e ≠ ImageEvent.pan_kmod_bo_get b) : bo_gets t = [] := by
  unfold bo_gets
  rw [List.filterMap_eq_nil_iff]
  intro e he
  cases e <;> first | rfl | exact absurd rfl (h _ he _)

theorem bo_puts_of_none (t : List ImageEvent)
    (h : ∀ e ∈ t, ∀ b, e ≠ ImageEvent.pan_kmod_bo_put b) : bo_puts t = [] := by
  unfold bo_puts
  rw [List.filterMap_eq_nil_iff]
  intro e he
  cases e <;> first | rfl | exact absurd rfl (h _ he _)

theorem ref_delta_of_none (bo : pan_kmod_bo) (t : List ImageEvent)
    (h : ∀ e ∈ t, (∀ b, e ≠ ImageEvent.pan_kmod_bo_get b) ∧
      (∀ b, e ≠ ImageEvent.pan_kmod_bo_put b)) : ref_delta bo t = 0 := by
  induction t with
  | nil => rfl
  | cons e rest ih =>
    have h1 := h e (List.mem_cons_self _ _)
    have h2 := ih (fun x hx => h x (List.mem_cons_of_mem _ hx))
    unfold ref_delta at h2 ⊢
    rw [List.map_cons, List.sum_cons, h2]
    cases e <;> simp_all [ImageEvent.ref_change]

/-- One loop body runs to its end when the transient mapping and unmapping
succeed. -/
theorem bind_entry_ok (c : ImageConsts) (base : Nat) (unmap_ret : Int)
    (image : panvk_image) (info : VkBindImageMemoryInfo)
    (h_base : base ≠ c.MAP_FAILED) (h_unmap : unmap_ret = 0) :
    (bind_image_memory_entry c base unmap_ret image info).1 = true := by
  cases h_mem : info.memory with
  | none => rw [bind_entry_of_none c base unmap_ret image info h_mem]
  | some mem => exact (bind_entry_trace c base unmap_ret image info mem h_base h_unmap h_mem).1

/-- The gets and puts of one loop body that runs to its end: a get of the
memory's BO if there is a memory, and one put, of the BO the image had. -/
theorem bind_entry_gets_puts (c : ImageConsts) (base : Nat) (unmap_ret : Int)
    (image : panvk_image) (info : VkBindImageMemoryInfo)
    (h_base : base ≠ c.MAP_FAILED) (h_unmap : unmap_ret = 0) :
    bo_gets (bind_image_memory_entry c base unmap_ret image info).2.2 =
      (info.memory.map fun mem => mem.bo).toList ∧
    bo_puts (bind_image_memory_entry c base unmap_ret image info).2.2 = [image.bo] := by
  cases h_mem : info.memory with
  | none =>
    rw [bind_entry_of_none c base unmap_ret image info h_mem]
    simp [bo_gets, bo_puts]
  | some mem =>
    obtain ⟨_, mid, ht, hmid⟩ :=
      bind_entry_trace c base unmap_ret image info mem h_base h_unmap h_mem
    rw [ht, bo_gets_append, bo_gets_append, bo_puts_append, bo_puts_append,
      bo_gets_of_none mid (fun e he => (hmid e he).1),
      bo_puts_of_none mid (fun e he => (hmid e he).2)]
    simp [bo_gets, bo_puts]

/-- With non-null image handles and mappings that succeed the loop runs to
its end. -/
theorem bind_loop_returns (c : ImageConsts) (mmaps : Nat → Nat) (munmaps : Nat → Int)
    (h_maps : ∀ i, mmaps i ≠ c.MAP_FAILED) (h_unmaps : ∀ i, munmaps i = 0)
    (infos : List VkBindImageMemoryInfo) :
    ∀ (i : Nat) (images : Nat → panvk_image), (∀ info ∈ infos, info.image ≠ 0) →
      (bind_image_memory_loop c mmaps munmaps i images infos).1 = .returned VK_SUCCESS := by
  induction infos with
  | nil => intro i images _; rfl
  | cons info rest ih =>
    intro i images h
    simp only [bind_image_memory_loop, h info (List.mem_cons_self _ _), if_false,
      bind_entry_ok c (mmaps i) (munmaps i) _ info (h_maps i) (h_unmaps i), if_true]
    exact ih _ _ (fun x hx => h x (List.mem_cons_of_mem _ hx))

/-- The loop over `a ++ b` is the loop over `a` followed by the loop over `b`
on the images the first one leaves. -/
theorem bind_loop_append (c : ImageConsts) (mmaps : Nat → Nat) (munmaps : Nat → Int)
    (h_maps : ∀ i, mmaps i ≠ c.MAP_FAILED) (h_unmaps : ∀ i, munmaps i = 0)
    (a b : List VkBindImageMemoryInfo) :
    ∀ (i : Nat) (images : Nat → panvk_image), (∀ info ∈ a, info.image ≠ 0) →
      bind_image_memory_loop c mmaps munmaps i images (a ++ b) =
        ((bind_image_memory_loop c mmaps munmaps (i + a.length)
            (bind_image_memory_loop c mmaps munmaps i images a).2.1 b).1,
         (bind_image_memory_loop c mmaps munmaps (i + a.length)
            (bind_image_memory_loop c mmaps munmaps i images a).2.1 b).2.1,
         (bind_image_memory_loop c mmaps munmaps i images a).2.2 ++
           (bind_image_memory_loop c mmaps munmaps (i + a.length)
            (bind_image_memory_loop c mmaps munmaps i images a).2.1 b).2.2) := by
  induction a with
  | nil => intro i images _; simp [bind_image_memory_loop]
  | cons info rest ih =>
    intro i images h
    have h0 := h info (List.mem_cons_self _ _)
    simp only [List.cons_append, bind_image_memory_loop, h0, if_false, List.length_cons,
      List.append_eq,
      bind_entry_ok c (mmaps i) (munmaps i) _ info (h_maps i) (h_unmaps i), if_true]
    rw [ih (i + 1) _ (fun x hx => h x (List.mem_cons_of_mem _ hx))]
    simp only [List.append_assoc, Nat.add_assoc, Nat.add_comm 1]

/-- The gets and puts of the whole loop. -/
theorem bind_loop_gets_puts (c : ImageConsts) (mmaps : Nat → Nat) (munmaps : Nat → Int)
    (h_maps : ∀ i, mmaps i ≠ c.MAP_FAILED) (h_unmaps : ∀ i, munmaps i = 0)
    (infos : List VkBindImageMemoryInfo) :
    ∀ (i : Nat) (images : Nat → panvk_image), (∀ info ∈ infos, info.image ≠ 0) →
      bo_gets (bind_image_memory_loop c mmaps munmaps i images infos).2.2 =
        infos.filterMap (fun info => info.memory.map fun mem => mem.bo) ∧
      (bo_puts (bind_image_memory_loop c mmaps munmaps i images infos).2.2).length =
        infos.length := by
  induction infos with
  | nil => intro i images _; exact ⟨rfl, rfl⟩
  | cons info rest ih =>
    intro i images h
    have h0 := h info (List.mem_cons_self _ _)
    have hr := ih (i + 1)
      (fun x => if x = info.image then
        (bind_image_memory_entry c (mmaps i) (munmaps i) (images info.image) info).2.1
        else images x)
      (fun x hx => h x (List.mem_cons_of_mem _ hx))
    have he := bind_entry_gets_puts c (mmaps i) (munmaps i) (images info.image) info
      (h_maps i) (h_unmaps i)
    simp only [bind_image_memory_loop, h0, if_false,
      bind_entry_ok c (mmaps i) (munmaps i) _ info (h_maps i) (h_unmaps i), if_true,
      bo_gets_append, bo_puts_append, List.length_append, hr.1, hr.2, he.1, he.2]
    constructor
    · cases hm : info.memory <;> simp [List.filterMap_cons, hm]
    · simp [Nat.add_comm]

/-- Re-binding to the BO the image holds already: the count of the BO goes up
by one with the get, comes back with the put at the end, and is never below
where it started. -/
theorem rebind_ref_delta (c : ImageConsts) (base : Nat) (unmap_ret : Int)
    (image : panvk_image) (info : VkBindImageMemoryInfo) (mem : panvk_device_memory)
    (h_base : base ≠ c.MAP_FAILED) (h_unmap : unmap_ret = 0)
    (h_mem : info.memory = some mem) (h_bound : image.bo = some mem.bo) :
    ref_delta mem.bo (bind_image_memory_entry c base unmap_ret image info).2.2 = 0 ∧
    ∀ n, 0 ≤ ref_delta mem.bo
      ((bind_image_memory_entry c base unmap_ret image info).2.2.take n) := by
  obtain ⟨_, mid, ht, hmid⟩ :=
    bind_entry_trace c base unmap_ret image info mem h_base h_unmap h_mem
  have h_get : ref_delta mem.bo [ImageEvent.pan_kmod_bo_get mem.bo] = 1 := by
    simp [ref_delta, ImageEvent.ref_change]
  have h_put : ref_delta mem.bo [ImageEvent.pan_kmod_bo_put image.bo] = -1 := by
    simp [ref_delta, ImageEvent.ref_change, h_bound]
  rw [ht]
  constructor
  · rw [ref_delta_append, ref_delta_append, h_get, h_put, ref_delta_of_none _ mid hmid]
    rfl
  · intro n
    cases n with
    | zero => simp [ref_delta]
    | succ k =>
      have h1 : ([ImageEvent.pan_kmod_bo_get mem.bo] ++ mid ++
          [ImageEvent.pan_kmod_bo_put image.bo]).take (k + 1) =
          [ImageEvent.pan_kmod_bo_get mem.bo] ++
            (mid.take k ++ [ImageEvent.pan_kmod_bo_put image.bo].take (k - mid.length)) := by
        simp [List.take_append_eq_append_take]
      rw [h1, ref_delta_append, ref_delta_append, h_get,
        ref_delta_of_none _ (mid.take k) (fun e he => hmid e (List.mem_of_mem_take he))]
      cases hk : k - mid.length with
      | zero => simp [ref_delta]
      | succ j =>
        rw [List.take_succ_cons, List.take_nil, h_put]
        decide

/-- Claim C22, as stated, fails.  A `memoryOffset` of 2^32 + 16 leaves 16 in
`data.offset`, with and without a memory.  When the transient mapping of an
AFBC image fails, the call does not return `VK_SUCCESS`: it stops at
`assert(base != MAP_FAILED)`, after the get and before any put.  With a null
image handle the call reads through the null pointer. -/
theorem bind_image_memory_offset_truncated :
    ((panvk_BindImageMemory2 image_consts_demo (fun _ => 0x7f0000) (fun _ => 0) images_demo
        [⟨1, some ⟨⟨7, 8192⟩, 0x5000000⟩, 2 ^ 32 + 16⟩]).1 = .returned VK_SUCCESS ∧
      ((panvk_BindImageMemory2 image_consts_demo (fun _ => 0x7f0000) (fun _ => 0) images_demo
        [⟨1, some ⟨⟨7, 8192⟩, 0x5000000⟩, 2 ^ 32 + 16⟩]).2.1 1).pimage.data.offset = 16 ∧
      ((panvk_BindImageMemory2 image_consts_demo (fun _ => 0x7f0000) (fun _ => 0) images_demo
        [⟨1, none, 2 ^ 32 + 16⟩]).2.1 1).pimage.data.offset = 16) ∧
    ((panvk_BindImageMemory2 image_consts_demo (fun _ => 2 ^ 64 - 1) (fun _ => 0) images_demo
        [⟨2, some ⟨⟨7, 8192⟩, 0x5000000⟩, 256⟩]).1 = .assert_failed ∧
      (panvk_BindImageMemory2 image_consts_demo (fun _ => 2 ^ 64 - 1) (fun _ => 0) images_demo
        [⟨2, some ⟨⟨7, 8192⟩, 0x5000000⟩, 256⟩]).2.2 =
        [.pan_kmod_bo_get ⟨7, 8192⟩,
         .pan_kmod_bo_mmap ⟨7, 8192⟩ 0 8192 (2 ^ 64 - 1)]) ∧
    (panvk_BindImageMemory2 image_consts_demo (fun _ => 0x7f0000) (fun _ => 0) images_demo
        [⟨0, none, 0⟩]).1 = .null_deref := by
  refine ⟨⟨?_, ?_, ?_⟩, ⟨?_, ?_⟩, ?_⟩ <;> decide

/-- Claim C22, amended: with non-null image handles, and with transient
mappings and unmappings that succeed, `panvk_BindImageMemory2` returns
`VK_SUCCESS` for every list of bind infos and runs the loop body on the
entries in order.  One body with a memory takes a reference to the memory's
BO first, makes it the image's BO, sets `data.base` to the memory's device
address and `data.offset` to `memoryOffset` modulo 2^32, which is
`memoryOffset` itself when that is below 2^32, and drops the reference to the
previous BO last; with a null memory it sets the BO to `NULL` and
`data.offset` in the same way, leaves `data.base`, and makes the one
`pan_kmod_bo_put` of the previous BO.  Re-binding an image to the memory it
is bound to leaves the reference count of the BO as it was and never lowers
it in between. -/
theorem bind_image_memory_effect (c : ImageConsts) (mmaps : Nat → Nat) (munmaps : Nat → Int)
    (images : Nat → panvk_image) (infos : List VkBindImageMemoryInfo)
    (h_images : ∀ info ∈ infos, info.image ≠ 0)
    (h_maps : ∀ i, mmaps i ≠ c.MAP_FAILED) (h_unmaps : ∀ i, munmaps i = 0) :
    (panvk_BindImageMemory2 c mmaps munmaps images infos).1 = .returned VK_SUCCESS ∧
    (∀ a b : List VkBindImageMemoryInfo, infos = a ++ b →
      panvk_BindImageMemory2 c mmaps munmaps images infos =
        ((bind_image_memory_loop c mmaps munmaps a.length
            (panvk_BindImageMemory2 c mmaps munmaps images a).2.1 b).1,
         (bind_image_memory_loop c mmaps munmaps a.length
            (panvk_BindImageMemory2 c mmaps munmaps images a).2.1 b).2.1,
         (panvk_BindImageMemory2 c mmaps munmaps images a).2.2 ++
           (bind_image_memory_loop c mmaps munmaps a.length
            (panvk_BindImageMemory2 c mmaps munmaps images a).2.1 b).2.2)) ∧
    (∀ (i : Nat) (imgs : Nat → panvk_image) (info : VkBindImageMemoryInfo),
      info.image ≠ 0 →
      bind_image_memory_loop c mmaps munmaps i imgs [info] =
        (.returned VK_SUCCESS,
         (fun h => if h = info.image then
            (bind_image_memory_entry c (mmaps i) (munmaps i) (imgs info.image) info).2.1
            else imgs h),
         (bind_image_memory_entry c (mmaps i) (munmaps i) (imgs info.image) info).2.2)) ∧
    (∀ (i : Nat) (image : panvk_image) (info : VkBindImageMemoryInfo)
        (mem : panvk_device_memory), info.memory = some mem →
      (bind_image_memory_entry c (mmaps i) (munmaps i) image info).2.1.bo = some mem.bo ∧
      (bind_image_memory_entry c (mmaps i) (munmaps i) image info).2.1.pimage.data.base =
        mem.addr_dev ∧
      (bind_image_memory_entry c (mmaps i) (munmaps i) image info).2.1.pimage.data.offset =
        info.memoryOffset % 2 ^ 32 ∧
      (bind_image_memory_entry c (mmaps i) (munmaps i) image info).2.1.pimage.layout =
        image.pimage.layout ∧
      ∃ mid, (bind_image_memory_entry c (mmaps i) (munmaps i) image info).2.2 =
          [ImageEvent.pan_kmod_bo_get mem.bo] ++ mid ++
            [ImageEvent.pan_kmod_bo_put image.bo] ∧
        bo_gets mid = [] ∧ bo_puts mid = []) ∧
    (∀ (i : Nat) (image : panvk_image) (info : VkBindImageMemoryInfo),
      info.memory = none →
      (bind_image_memory_entry c (mmaps i) (munmaps i) image info).2.1.bo = none ∧
      (bind_image_memory_entry c (mmaps i) (munmaps i) image info).2.1.pimage.data.base =
        image.pimage.data.base ∧
      (bind_image_memory_entry c (mmaps i) (munmaps i) image info).2.1.pimage.data.offset =
        info.memoryOffset % 2 ^ 32 ∧
      (bind_image_memory_entry c (mmaps i) (munmaps i) image info).2.1.pimage.layout =
        image.pimage.layout ∧
      (bind_image_memory_entry c (mmaps i) (munmaps i) image info).2.2 =
        [ImageEvent.pan_kmod_bo_put image.bo]) ∧
    (∀ (i : Nat) (image : panvk_image) (info : VkBindImageMemoryInfo),
      info.memoryOffset < 2 ^ 32 →
      (bind_image_memory_entry c (mmaps i) (munmaps i) image info).2.1.pimage.data.offset =
        info.memoryOffset) ∧
    (∀ (i : Nat) (image : panvk_image) (info : VkBindImageMemoryInfo),
      bo_puts (bind_image_memory_entry c (mmaps i) (munmaps i) image info).2.2 =
        [image.bo]) ∧
    (∀ (i : Nat) (image : panvk_image) (info : VkBindImageMemoryInfo)
        (mem : panvk_device_memory), info.memory = some mem → image.bo = some mem.bo →
      ref_delta mem.bo (bind_image_memory_entry c (mmaps i) (munmaps i) image info).2.2 = 0 ∧
      ∀ n, 0 ≤ ref_delta mem.bo
        ((bind_image_memory_entry c (mmaps i) (munmaps i) image info).2.2.take n)) ∧
    bo_gets (panvk_BindImageMemory2 c mmaps munmaps images infos).2.2 =
      infos.filterMap (fun info => info.memory.map fun mem => mem.bo) ∧
    (bo_puts (panvk_BindImageMemory2 c mmaps munmaps images infos).2.2).length =
      infos.length := by
  refine ⟨bind_loop_returns c mmaps munmaps h_maps h_unmaps infos 0 images h_images,
    ?_, ?_, ?_, ?_, ?_, ?_, ?_,
    (bind_loop_gets_puts c mmaps munmaps h_maps h_unmaps infos 0 images h_images).1,
    (bind_loop_gets_puts c mmaps munmaps h_maps h_unmaps infos 0 images h_images).2⟩
  · intro a b hab
    subst hab
    have h := bind_loop_append c mmaps munmaps h_maps h_unmaps a b 0 images
      (fun x hx => h_images x (List.mem_append_left _ hx))
    simp only [Nat.zero_add] at h
    exact h
  · intro i imgs info h0
    simp [bind_image_memory_loop, h0,
      bind_entry_ok c (mmaps i) (munmaps i) _ info (h_maps i) (h_unmaps i)]
  · intro i image info mem h_mem
    obtain ⟨_, mid, ht, hmid⟩ :=
      bind_entry_trace c (mmaps i) (munmaps i) image info mem (h_maps i) (h_unmaps i) h_mem
    refine ⟨?_, ?_, ?_, ?_, mid, ht, bo_gets_of_none mid (fun e he => (hmid e he).1),
      bo_puts_of_none mid (fun e he => (hmid e he).2)⟩ <;>
      simp [bind_entry_image, h_mem, data_offset_bits]
  · intro i image info h_mem
    rw [bind_entry_of_none c (mmaps i) (munmaps i) image info h_mem]
    simp [data_offset_bits]
  · intro i image info h_off
    rw [bind_entry_image]
    exact Nat.mod_eq_of_lt h_off
  · intro i image info
    exact (bind_entry_gets_puts c (mmaps i) (munmaps i) image info (h_maps i)
      (h_unmaps i)).2
  · intro i image info mem h_mem h_bound
    exact rebind_ref_delta c (mmaps i) (munmaps i) image info mem (h_maps i) (h_unmaps i)
      h_mem h_bound

/-- Claim C22, amended, at two bind infos: the AFBC image with handle 2,
bound to the BO with handle 7, is bound again to a memory with that BO, then
the image with handle 1 is bound to no memory. -/
theorem bind_image_memory_effect_witness :
    ((∀ info ∈ ([⟨2, some ⟨⟨7, 8192⟩, 0x5000000⟩, 256⟩, ⟨1, none, 16⟩] :
        List VkBindImageMemoryInfo), info.image ≠ 0) ∧
      (0x7f0000 : Nat) ≠ image_consts_demo.MAP_FAILED ∧ (0 : Int) = 0) ∧
    (panvk_BindImageMemory2 image_consts_demo (fun _ => 0x7f0000) (fun _ => 0) images_demo
      [⟨2, some ⟨⟨7, 8192⟩, 0x5000000⟩, 256⟩, ⟨1, none, 16⟩]).1 = .returned VK_SUCCESS ∧
    bo_gets (panvk_BindImageMemory2 image_consts_demo (fun _ => 0x7f0000) (fun _ => 0)
      images_demo
      [⟨2, some ⟨⟨7, 8192⟩, 0x5000000⟩, 256⟩, ⟨1, none, 16⟩]).2.2 = [⟨7, 8192⟩] ∧
    ref_delta ⟨7, 8192⟩ (bind_image_memory_entry image_consts_demo 0x7f0000 0 image_afbc
      ⟨2, some ⟨⟨7, 8192⟩, 0x5000000⟩, 256⟩).2.2 = 0 :=
  ⟨⟨by decide, by decide, rfl⟩,
   (bind_image_memory_effect image_consts_demo (fun _ => 0x7f0000) (fun _ => 0) images_demo
      [⟨2, some ⟨⟨7, 8192⟩, 0x5000000⟩, 256⟩, ⟨1, none, 16⟩] (by decide)
      (fun _ => (by decide : (0x7f0000 : Nat) ≠ image_consts_demo.MAP_FAILED))
      (fun _ => rfl)).1,
   (bind_image_memory_effect image_consts_demo (fun _ => 0x7f0000) (fun _ => 0) images_demo
      [⟨2, some ⟨⟨7, 8192⟩, 0x5000000⟩, 256⟩, ⟨1, none, 16⟩] (by decide)
      (fun _ => (by decide : (0x7f0000 : Nat) ≠ image_consts_demo.MAP_FAILED))
      (fun _ => rfl)).2.2.2.2.2.2.2.2.1,
   ((bind_image_memory_effect image_consts_demo (fun _ => 0x7f0000) (fun _ => 0) images_demo []
      (by decide)
      (fun _ => (by decide : (0x7f0000 : Nat) ≠ image_consts_demo.MAP_FAILED))
      (fun _ => rfl)).2.2.2.2.2.2.2.1 0 image_afbc
      ⟨2, some ⟨⟨7, 8192⟩, 0x5000000⟩, 256⟩ ⟨⟨7, 8192⟩, 0x5000000⟩ rfl rfl).1⟩

/-- The calls of these two bind infos, evaluated: the get of BO 7, the transient
mapping, four header clears, the unmapping and the put of BO 7; then the put
of the null BO of image 1. -/
theorem bind_image_memory_demo_trace :
    (panvk_BindImageMemory2 image_consts_demo (fun _ => 0x7f0000) (fun _ => 0) images_demo
      [⟨2, some ⟨⟨7, 8192⟩, 0x5000000⟩, 256⟩, ⟨1, none, 16⟩]).2.2 =
      [.pan_kmod_bo_get ⟨7, 8192⟩,
       .pan_kmod_bo_mmap ⟨7, 8192⟩ 0 8192 0x7f0000,
       .memset (0x7f0000 + 256) 0 64,
       .memset (0x7f0000 + 256 + 2048) 0 32,
       .memset (0x7f0000 + 256 + 4096) 0 64,
       .memset (0x7f0000 + 256 + 4096 + 2048) 0 32,
       .os_munmap 0x7f0000 8192 0,
       .pan_kmod_bo_put (some ⟨7, 8192⟩),
       .pan_kmod_bo_put none] ∧
    (panvk_BindImageMemory2 image_consts_demo (fun _ => 0x7f0000) (fun _ => 0) images_demo
      [⟨2, some ⟨⟨7, 8192⟩, 0x5000000⟩, 256⟩, ⟨1, none, 16⟩]).2.1 2 =
      ⟨some ⟨7, 8192⟩, ⟨⟨0x5000000, 256⟩, ⟨1, 2, 2, 4096, [⟨0, 64⟩, ⟨2048, 32⟩]⟩⟩⟩ ∧
    (panvk_BindImageMemory2 image_consts_demo (fun _ => 0x7f0000) (fun _ => 0) images_demo
      [⟨2, some ⟨⟨7, 8192⟩, 0x5000000⟩, 256⟩, ⟨1, none, 16⟩]).2.1 1 =
      ⟨none, ⟨⟨0, 16⟩, ⟨0, 1, 1, 0, [⟨0, 0⟩]⟩⟩⟩ := by
  refine ⟨?_, ?_, ?_⟩ <;> decide

end Panvk
